import Mathlib

/-!
# QuickPick backend: the auth middleware and the chat, account, approval and product routes

A shallow embedding of `Backend/middleware/authMiddleware.js` and of the routes in
`Backend/routes/chatRoutes.js`, `auth.js`, `adminRoutes.js` and `productRoutes.js`.
Collections are lists in insertion order, a route is a function from the store and
the request to a response and the next store, and a `try`/`catch` block is a
computation in `Except` followed by the case analysis of the `catch`.  Numbers are
doubles, given by their exact value, and a number in a request body is given by its
text, which is what the validators of validator.js read.
-/

namespace QuickPick

/-! ## Object ids and string collation -/

/-- ASCII lower-casing of a code point (what `Char.toLower` does). -/
def lowerCode (n : Nat) : Nat := if 65 ≤ n ∧ n ≤ 90 then n + 32 else n

/-- The code point of a hexadecimal digit, in either case. -/
def isHexCode (n : Nat) : Bool :=
  (48 ≤ n && n ≤ 57) || (97 ≤ n && n ≤ 102) || (65 ≤ n && n ≤ 70)

/-- Mongoose's cast of a string to an `ObjectId`: 24 hexadecimal digits, read
case-insensitively; the result is the id's canonical (lower-case) text.  `none`
stands for the `CastError` the cast throws.  (A string of any other shape is taken
not to cast, as in the drivers that accept only the 24-digit form.) -/
def castObjectId (s : String) : Option String :=
  if s.data.length = 24 ∧ s.data.all (fun c => isHexCode c.toNat) then
    some (String.mk (s.data.map Char.toLower))
  else none

/-- The regular expression `/^(0x|0h)?[0-9A-F]+$/i` of validator.js `isHexadecimal`. -/
def isHexadecimal : List Char → Bool
  | c :: d :: rest =>
    ((c :: d :: rest).all (fun x => isHexCode x.toNat)) ||
      (c = '0' && (d = 'x' || d = 'X' || d = 'h' || d = 'H') && !rest.isEmpty &&
        rest.all (fun x => isHexCode x.toNat))
  | cs => !cs.isEmpty && cs.all (fun x => isHexCode x.toNat)

/-- The check `isMongoId` of validator.js: `isHexadecimal(str) && str.length === 24`. -/
def isMongoId (s : String) : Bool :=
  isHexadecimal s.data && s.data.length = 24

/-- Lexicographic comparison of code point sequences. -/
def lexOrd : List Nat → List Nat → Ordering
  | [], [] => .eq
  | [], _ :: _ => .lt
  | _ :: _, [] => .gt
  | a :: as, b :: bs => if a < b then .lt else if b < a then .gt else lexOrd as bs

/-- The primary collation key of a string of ASCII letters and digits: its code
points with case folded. -/
def primaryKey (s : String) : List Nat := s.data.map (fun c => lowerCode c.toNat)

/-- The code points of a string. -/
def codePoints (s : String) : List Nat := s.data.map Char.toNat

/-- The comparison `a.localeCompare(b)` on strings of ASCII letters and digits (the
only strings that reach the sort of `POST /initiate`, which follows two
successful `findById` casts): digits before letters, letters alphabetically
without regard to case, and between strings equal up to case the lower-case
letter first at the first difference. -/
def localeCompare (a b : String) : Int :=
  match lexOrd (primaryKey a) (primaryKey b) with
  | .lt => -1
  | .gt => 1
  | .eq =>
    match lexOrd (codePoints b) (codePoints a) with
    | .lt => -1
    | .gt => 1
    | .eq => 0

/-- The two-element sort `[a, b].sort((x, y) => x.toString().localeCompare(y.toString()))`
(stable: the order is kept when the comparison is not positive). -/
def sortPair (a b : String) : List String :=
  if 0 < localeCompare a b then [b, a] else [a, b]

/-! ## Data model -/

/-- The identity a token carries: `decoded.user`. -/
structure User where
  id : String
  role : String
deriving DecidableEq, Repr

/-- A document of `models/Customer.js`. -/
structure Customer where
  _id : String
  firstName : String
  lastName : String
  email : String
  password : String
  role : String
  createdAt : Int
deriving DecidableEq, Repr

/-- A document of `models/Seller.js`. -/
structure Seller where
  _id : String
  firstName : String
  lastName : String
  email : String
  mobileNumber : String
  password : String
  shopName : String
  shopAddress : String
  gstNumber : Option String
  role : String
  isApproved : Bool
  createdAt : Int
deriving DecidableEq, Repr

/-! ## Numbers -/

/-- A value of the type Number: a finite value, given exactly, an infinity, or `NaN`.
The sign of a zero is not kept: comparisons take the two zeroes as equal and
`JSON.stringify` prints both as `0`. -/
inductive JsNumber where
  | finite (q : ℚ)
  | infinity (negative : Bool)
  | nan
deriving DecidableEq, Repr

instance (n : Nat) : OfNat JsNumber n := ⟨.finite n⟩

/-- The operator `a > b` on two numbers. -/
def JsNumber.gt : JsNumber → JsNumber → Bool
  | .finite a, .finite b => decide (b < a)
  | .finite _, .infinity negative => negative
  | .infinity negative, .finite _ => !negative
  | .infinity a, .infinity b => !a && b
  | _, _ => false

/-- The operator `a >= b` on two numbers. -/
def JsNumber.ge : JsNumber → JsNumber → Bool
  | .finite a, .finite b => decide (b ≤ a)
  | .finite _, .infinity negative => negative
  | .infinity negative, .finite _ => !negative
  | .infinity a, .infinity b => !a || b
  | _, _ => false

/-- A document of `models/Product.js`. -/
structure Product where
  _id : String
  name : String
  description : String
  price : JsNumber
  category : String
  seller : String
  stock : JsNumber
  isAvailable : Bool
  createdAt : Int
  updatedAt : Int
deriving DecidableEq, Repr

/-- The sub-document `participantRoles` of a chat room. -/
structure ParticipantRoles where
  buyerId : String
  sellerId : String
deriving DecidableEq, Repr

/-- Modelled from the spec: `models/ChatRoom.js` is not among the sources.  The
fields are those the handlers of `chatRoutes.js` read and write: the sorted
participant pair, the pair by role, the optional product, the last-message
preview and one unread counter per role. -/
structure ChatRoom where
  _id : String
  participants : List String
  participantRoles : ParticipantRoles
  productId : Option String
  lastMessageText : Option String
  lastMessageSenderId : Option String
  lastMessageTimestamp : Option Int
  buyerUnreadCount : Nat
  sellerUnreadCount : Nat
  createdAt : Int
  updatedAt : Int
deriving DecidableEq, Repr

/-- A document of `models/Message.js`. -/
structure Message where
  _id : String
  chatRoom : String
  sender : String
  senderModel : String
  text : String
  timestamp : Int
deriving DecidableEq, Repr

/-- Modelled from the spec: `models/Admin.js` is not among the sources.  An admin
account has the identity fields of the other two variants and a role rank, `admin`
or `superadmin`, which is the role its token carries. -/
structure Admin where
  _id : String
  firstName : String
  lastName : String
  email : String
  password : String
  role : String
  createdAt : Int
deriving DecidableEq, Repr

/-- The persistent store: one list per collection, in insertion order. -/
structure Store where
  customers : List Customer
  sellers : List Seller
  products : List Product
  chatRooms : List ChatRoom
  messages : List Message
  admins : List Admin := []
deriving DecidableEq, Repr

/-! ## Requests and responses -/

/-- What the handlers and the validators read of a request: the `Authorization`
header, the user attached by `protect`, the path parameter `chatId`, the body fields of
`POST /initiate` (`none` for a field that is absent; a body field that is `null` is
read by the validators as the empty text and given as `some ""`), and `elsewhere`, the
values the request carries under the names of these body fields outside its body, as
a `check(field)` chain of express-validator finds them after the body: in the
cookies, the headers (under the lower-cased name), the route parameters and the query
string, in that order, each with its name and as a string.  The structures of the
other bodies have a field `elsewhere` of their own, for the names of their fields. -/
structure Request where
  authorization : Option String
  user : Option User
  chatId : String
  participantId : Option String
  productId : Option String
  elsewhere : List (String × String) := []
deriving DecidableEq, Repr

/-- An element of the array `GET /list` answers. -/
structure ChatListEntry where
  chatId : String
  otherParticipantId : Option String
  otherParticipantName : String
  otherParticipantType : String
  lastMessageText : Option String
  lastMessageSenderId : Option String
  lastMessageTimestamp : Option Int
  unreadCount : Nat
  productName : Option String
  productId : Option String
deriving DecidableEq, Repr

/-- The token `jwt.sign(payload, secret, { expiresIn })` returns, represented by what
it carries: the `user` of the payload and the expiry option. -/
structure Token where
  payload : User
  expiresIn : String
deriving DecidableEq, Repr

/-- The object `user` in the answer of `POST /login`; `shopName` and `isApproved` are
spread in for a seller only. -/
structure LoginUser where
  id : String
  email : String
  role : String
  firstName : String
  lastName : String
  shopName : Option String
  isApproved : Option Bool
deriving DecidableEq, Repr

/-- What `populate('seller', 'shopName email mobileNumber')` puts in the place of a
product's `seller`: the id and the three selected paths of the seller found. -/
structure SellerSummary where
  _id : String
  shopName : String
  email : String
  mobileNumber : String
deriving DecidableEq, Repr

/-- A customer document as `select('-password')` returns it. -/
structure CustomerView where
  _id : String
  firstName : String
  lastName : String
  email : String
  role : String
  createdAt : Int
deriving DecidableEq, Repr

/-- A seller document as `select('-password')` returns it. -/
structure SellerView where
  _id : String
  firstName : String
  lastName : String
  email : String
  mobileNumber : String
  shopName : String
  shopAddress : String
  gstNumber : Option String
  role : String
  isApproved : Bool
  createdAt : Int
deriving DecidableEq, Repr

/-- An admin document as `select('-password')` returns it. -/
structure AdminView where
  _id : String
  firstName : String
  lastName : String
  email : String
  role : String
  createdAt : Int
deriving DecidableEq, Repr

/-- A value `JSON.parse` returns.  A number is given by its value (an overflowing
literal parses to an infinity, which no test of the handlers tells from a large number
of its sign); an object is the list of its properties, keys distinct. -/
inductive Json where
  | null
  | bool (b : Bool)
  | num (q : ℚ)
  | str (s : String)
  | arr (items : List Json)
  | obj (fields : List (String × Json))
deriving Repr

mutual

/-- Equality of two parsed values is decidable. -/
def Json.decEq : (a b : Json) → Decidable (a = b)
  | .null, .null => isTrue rfl
  | .bool a, .bool b =>
    if h : a = b then isTrue (by rw [h]) else isFalse (by intro e; cases e; exact h rfl)
  | .num a, .num b =>
    if h : a = b then isTrue (by rw [h]) else isFalse (by intro e; cases e; exact h rfl)
  | .str a, .str b =>
    if h : a = b then isTrue (by rw [h]) else isFalse (by intro e; cases e; exact h rfl)
  | .arr a, .arr b =>
    match Json.decEqItems a b with
    | isTrue h => isTrue (by rw [h])
    | isFalse h => isFalse (by intro e; cases e; exact h rfl)
  | .obj a, .obj b =>
    match Json.decEqFields a b with
    | isTrue h => isTrue (by rw [h])
    | isFalse h => isFalse (by intro e; cases e; exact h rfl)
  | .null, .bool _ | .null, .num _ | .null, .str _ | .null, .arr _ | .null, .obj _ =>
    isFalse nofun
  | .bool _, .null | .bool _, .num _ | .bool _, .str _ | .bool _, .arr _ | .bool _, .obj _ =>
    isFalse nofun
  | .num _, .null | .num _, .bool _ | .num _, .str _ | .num _, .arr _ | .num _, .obj _ =>
    isFalse nofun
  | .str _, .null | .str _, .bool _ | .str _, .num _ | .str _, .arr _ | .str _, .obj _ =>
    isFalse nofun
  | .arr _, .null | .arr _, .bool _ | .arr _, .num _ | .arr _, .str _ | .arr _, .obj _ =>
    isFalse nofun
  | .obj _, .null | .obj _, .bool _ | .obj _, .num _ | .obj _, .str _ | .obj _, .arr _ =>
    isFalse nofun

/-- Equality of two arrays of parsed values. -/
def Json.decEqItems : (a b : List Json) → Decidable (a = b)
  | [], [] => isTrue rfl
  | x :: xs, y :: ys =>
    match Json.decEq x y, Json.decEqItems xs ys with
    | isTrue h, isTrue h' => isTrue (by rw [h, h'])
    | isFalse h, _ => isFalse (by intro e; cases e; exact h rfl)
    | _, isFalse h => isFalse (by intro e; cases e; exact h rfl)
  | [], _ :: _ => isFalse nofun
  | _ :: _, [] => isFalse nofun

/-- Equality of two property lists. -/
def Json.decEqFields : (a b : List (String × Json)) → Decidable (a = b)
  | [], [] => isTrue rfl
  | (k, x) :: xs, (l, y) :: ys =>
    if hk : k = l then
      match Json.decEq x y, Json.decEqFields xs ys with
      | isTrue h, isTrue h' => isTrue (by rw [hk, h, h'])
      | isFalse h, _ => isFalse (by intro e; cases e; exact h rfl)
      | _, isFalse h => isFalse (by intro e; cases e; exact h rfl)
    else isFalse (by intro e; cases e; exact hk rfl)
  | [], _ :: _ => isFalse nofun
  | _ :: _, [] => isFalse nofun

end

instance : DecidableEq Json := Json.decEq

/-- A response body: `res.json(...)` of one of the shapes the routes and the
middleware send, or the plain text of `res.send(...)`. -/
inductive Body where
  | message (message : String)
  | validation (message : String) (errors : List String)
  | chat (message : String) (chatId : String) (buyerId sellerId : String)
      (productId : Option String)
  | chatList (entries : List ChatListEntry)
  | messages (messages : List Message)
  | text (text : String)
  | buyerRegistered (message : String) (token : Token) (id firstName email role : String)
  | sellerRegistered (message : String) (id shopName email : String) (isApproved : Bool)
      (role : String)
  | loggedIn (message : String) (token : Token) (user : LoginUser)
  | sellerDoc (message : String) (seller : Seller)
  | productDoc (message : String) (product : Product)
  | productDetail (product : Product) (seller : Option SellerSummary)
  | adminDoc (message : String) (admin : Admin)
  | recommendation (text : Option Json)
  | customerList (customers : List CustomerView)
  | sellerList (sellers : List SellerView)
  | adminList (admins : List AdminView)
  | productList (products : List (Product × Option SellerSummary))
  | totalUsers (totalUsers : Nat)
  | adminRegistered (message : String) (id email : String) (role : Option String)
deriving DecidableEq, Repr

/-- A response: status code and body. -/
structure Response where
  status : Nat
  body : Body
deriving DecidableEq, Repr

/-- What a middleware does: send a response, or call `next()` (carrying what it
established for the rest of the chain). -/
inductive Middleware (α : Type) where
  | respond (r : Response)
  | next (a : α)
deriving DecidableEq, Repr

/-! ## The auth middleware (`middleware/authMiddleware.js`) -/

/-- The outcome of `jwt.verify(token, secret)`: the decoded payload's `user`
field (absent when the payload has none), a `TokenExpiredError`, or any
other error. -/
inductive JwtResult where
  | decoded (user : Option User)
  | expired
  | invalid
deriving DecidableEq, Repr

/-- The call `jwt.verify(token, process.env.JWT_SECRET)`.  The library rejects a
missing or empty token itself (`jwt must be provided`); `verify` is the
signature and expiry check of a non-empty token under the secret. -/
def jwtVerify (verify : String → JwtResult) : Option String → JwtResult
  | none => .invalid
  | some t => if t = "" then .invalid else verify t

/-- The pieces of `cs` between occurrences of `sep`; `cur` is the piece being read,
reversed. -/
def splitAux (sep : Char) : List Char → List Char → List (List Char)
  | [], cur => [cur.reverse]
  | c :: cs, cur =>
    if c = sep then cur.reverse :: splitAux sep cs [] else splitAux sep cs (c :: cur)

/-- The expression `header.split(' ')[1]`. -/
def bearerToken (header : String) : Option String :=
  ((splitAux ' ' header.data [])[1]?).map String.mk

/-- The test `header.startsWith('Bearer')`. -/
def startsWithBearer (header : String) : Bool :=
  "Bearer".data.isPrefixOf header.data

def msgNoToken : String := "Not authorized, no token"

def msgTokenExpired : String := "Not authorized, token expired"

def msgTokenFailed : String := "Not authorized, token failed"

/-- The middleware `protect`. -/
def protect (verify : String → JwtResult) (req : Request) : Middleware Request :=
  match req.authorization with
  | none => .respond ⟨401, .message msgNoToken⟩
  | some header =>
    if header ≠ "" ∧ startsWithBearer header then
      match jwtVerify verify (bearerToken header) with
      | .decoded u => .next { req with user := u }
      | .expired => .respond ⟨401, .message msgTokenExpired⟩
      | .invalid => .respond ⟨401, .message msgTokenFailed⟩
    else .respond ⟨401, .message msgNoToken⟩

/-- The argument of `authorize`: a single role given as a string, or an array of
roles (the default is the empty array). -/
inductive Roles where
  | str (role : String)
  | arr (roles : List String)
deriving DecidableEq, Repr

/-- The normalisation at the head of `authorize`: a string becomes a one-element array. -/
def Roles.toArray : Roles → List String
  | .str role => [role]
  | .arr roles => roles

def msgForbidden : String := "Forbidden: You do not have permission to access this route"

/-- The middleware `authorize(roles)`; `next` carries the attached user, which the
check has found present. -/
def authorize (roles : Roles) (req : Request) : Middleware User :=
  match req.user with
  | none => .respond ⟨403, .message msgForbidden⟩
  | some u =>
    if roles.toArray.length > 0 ∧ ¬ roles.toArray.contains u.role then
      .respond ⟨403, .message msgForbidden⟩
    else .next u

/-! ## Store queries -/

/-- The errors a store call throws into the `catch` of a handler. -/
inductive StoreError where
  | cast
  | duplicateKey
  | validation
deriving DecidableEq, Repr

/-- The query `Customer.findById(id)`. -/
def findCustomerById (σ : Store) (id : String) : Except StoreError (Option Customer) :=
  match castObjectId id with
  | none => .error .cast
  | some oid => .ok (σ.customers.find? (fun c => c._id = oid))

/-- The query `Seller.findById(id)`. -/
def findSellerById (σ : Store) (id : String) : Except StoreError (Option Seller) :=
  match castObjectId id with
  | none => .error .cast
  | some oid => .ok (σ.sellers.find? (fun s => s._id = oid))

/-- The query `ChatRoom.findById(id)`. -/
def findRoomById (σ : Store) (id : String) : Except StoreError (Option ChatRoom) :=
  match castObjectId id with
  | none => .error .cast
  | some oid => .ok (σ.chatRooms.find? (fun r => r._id = oid))

/-- The cast of an array of id strings, element by element. -/
def castIds : List String → Option (List String)
  | [] => some []
  | s :: rest =>
    match castObjectId s, castIds rest with
    | some oid, some oids => some (oid :: oids)
    | _, _ => none

/-- The query `ChatRoom.findOne({ participants: participants })`: the first room whose
array equals the given one, element for element. -/
def findRoomByParticipants (σ : Store) (participants : List String) :
    Except StoreError (Option ChatRoom) :=
  match castIds participants with
  | none => .error .cast
  | some oids => .ok (σ.chatRooms.find? (fun r => r.participants = oids))

/-- What `new ChatRoom(...)` draws from its environment: the generated `_id` and the
clock of `new Date()`. -/
structure Env where
  newId : String
  now : Int
deriving DecidableEq, Repr

/-- Modelled from the spec: the defaults of the absent `models/ChatRoom.js`, a room
with no last-message preview and both unread counters at 0. -/
def blankChatRoom (id : String) (participants : List String) (roles : ParticipantRoles)
    (productId : Option String) (now : Int) : ChatRoom :=
  { _id := id, participants := participants, participantRoles := roles, productId := productId,
    lastMessageText := none, lastMessageSenderId := none, lastMessageTimestamp := none,
    buyerUnreadCount := 0, sellerUnreadCount := 0, createdAt := now, updatedAt := now }

/-- The value `productId || null` as `save()` casts it: absent or empty gives no
product, and an id that does not cast fails validation. -/
def castProductId : Option String → Except StoreError (Option String)
  | none => .ok none
  | some p =>
    if p = "" then .ok none
    else
      match castObjectId p with
      | some oid => .ok (some oid)
      | none => .error .validation

/-- The document `new ChatRoom({ participants, participantRoles: { buyerId, sellerId },
productId: productId || null, createdAt: new Date(), updatedAt: new Date() })` as
`save()` validates it: every id path is cast. -/
def newChatRoom (env : Env) (participants : List String) (buyerId sellerId : String)
    (productId : Option String) : Except StoreError ChatRoom :=
  match castIds participants, castObjectId buyerId, castObjectId sellerId with
  | some ps, some b, some s =>
    match castProductId productId with
    | .ok pid => .ok (blankChatRoom env.newId ps ⟨b, s⟩ pid env.now)
    | .error e => .error e
  | _, _, _ => .error .validation

/-- The insert of `save()` on a new room: the collection's `_id` index rejects an id
that is already present with error code 11000. -/
def insertRoom (σ : Store) (room : ChatRoom) : Except StoreError Store :=
  if σ.chatRooms.any (fun r => r._id = room._id) then .error .duplicateKey
  else .ok { σ with chatRooms := σ.chatRooms ++ [room] }

/-- Replace the first element satisfying `p` by its image under `f`. -/
def updateFirst {α : Type} (p : α → Bool) (f : α → α) : List α → List α
  | [] => []
  | a :: as => if p a then f a :: as else a :: updateFirst p f as

/-- The update of `save()` on a loaded room whose path `field` was set to 0: an
`updateOne` by `_id` that sets this one path. -/
def setUnreadZero (field : String) (room : ChatRoom) : ChatRoom :=
  if field = "buyerUnreadCount" then { room with buyerUnreadCount := 0 }
  else if field = "sellerUnreadCount" then { room with sellerUnreadCount := 0 }
  else room

def saveUnreadZero (σ : Store) (roomId : String) (field : String) : Store :=
  { σ with chatRooms := updateFirst (fun r => r._id = roomId) (setUnreadZero field) σ.chatRooms }

/-! ## The chains `check(field, message)` of express-validator -/

/-- The instances of `field` that a `check(field)` chain validates: the value in the
body and each value the request carries under that name elsewhere, those that are
defined; when none is defined, the one undefined instance of the body. -/
def fieldInstances (body : Option String) (elsewhere : List (String × String))
    (field : String) : List (Option String) :=
  match body.toList ++
      (elsewhere.filter (fun entry => entry.1 = field)).map (fun entry => entry.2) with
  | [] => [none]
  | values => values.map some

/-- The errors of a chain with one standard validator: the message once for every
instance whose text (the empty string for an undefined instance) fails it. -/
def checkEach (ok : String → Bool) (message : String) (instances : List (Option String)) :
    List String :=
  (instances.filter (fun v => !ok (v.getD ""))).map (fun _ => message)

/-- The instances left by `.optional()`: those that are not `undefined`. -/
def optionalInstances (instances : List (Option String)) : List (Option String) :=
  instances.filter Option.isSome

/-! ## `POST /initiate` -/

/-- The validators of `POST /initiate`, in order: `check('participantId').not()
.isEmpty()` and `check('productId').optional().isMongoId()`, each on every instance of
its field in the request. -/
def initiateValidation (req : Request) : List String :=
  checkEach (fun s => s ≠ "") "Participant ID is required"
    (fieldInstances req.participantId req.elsewhere "participantId") ++
  checkEach isMongoId "Product ID is optional"
    (optionalInstances (fieldInstances req.productId req.elsewhere "productId"))

def msgOnlyBuyersAndSellers : String := "Forbidden: Only buyers and sellers can initiate chats."

/-- The body `{ message, chatId, participants: { buyerId, sellerId, productId } }` built
from a room. -/
def chatBody (message : String) (room : ChatRoom) : Body :=
  .chat message room._id room.participantRoles.buyerId room.participantRoles.sellerId
    room.productId

/-- The `try` block of `POST /initiate`. -/
def initiateTry (σ : Store) (env : Env) (buyerId sellerId : String)
    (productId : Option String) : Except StoreError (Response × Store) :=
  match findCustomerById σ buyerId with
  | .error e => .error e
  | .ok buyerExists =>
    match findSellerById σ sellerId with
    | .error e => .error e
    | .ok sellerExists =>
      if buyerExists.isNone ∨ sellerExists.isNone then
        .ok (⟨404, .message "One or both participants not found."⟩, σ)
      else
        match findRoomByParticipants σ (sortPair buyerId sellerId) with
        | .error e => .error e
        | .ok (some chatRoom) => .ok (⟨200, chatBody "Existing chat retrieved." chatRoom⟩, σ)
        | .ok none =>
          match newChatRoom env (sortPair buyerId sellerId) buyerId sellerId productId with
          | .error e => .error e
          | .ok chatRoom =>
            match insertRoom σ chatRoom with
            | .error e => .error e
            | .ok σ' => .ok (⟨201, chatBody "Chat initiated successfully." chatRoom⟩, σ')

/-- The `try` block of `POST /initiate` for a body without `participantId` (the
validators having passed on a value elsewhere in the request): the id of the other
party is `undefined`, for which `findById` finds no document, so the answer is 404
unless the lookup of the caller's own id throws. -/
def initiateTryAbsent {α : Type} (σ : Store) (own : Except StoreError (Option α)) :
    Except StoreError (Response × Store) :=
  match own with
  | .error e => .error e
  | .ok _ => .ok (⟨404, .message "One or both participants not found."⟩, σ)

/-- The `catch` block of `POST /initiate`. -/
def initiateCatch (σ : Store) : Except StoreError (Response × Store) → Response × Store
  | .ok out => out
  | .error .duplicateKey => (⟨409, .message "Chat already exists for these participants."⟩, σ)
  | .error _ => (⟨500, .text "Server error initiating chat"⟩, σ)

/-- The handler of `POST /initiate`, for the user `u` attached to the request. -/
def initiate (σ : Store) (env : Env) (u : User) (req : Request) : Response × Store :=
  if initiateValidation req ≠ [] then
    (⟨400, .validation "Validation errors" (initiateValidation req)⟩, σ)
  else if u.role = "buyer" then
    match req.participantId with
    | some sellerId => initiateCatch σ (initiateTry σ env u.id sellerId req.productId)
    | none => initiateCatch σ (initiateTryAbsent σ (findCustomerById σ u.id))
  else if u.role = "seller" then
    match req.participantId with
    | some buyerId => initiateCatch σ (initiateTry σ env buyerId u.id req.productId)
    | none => initiateCatch σ (initiateTryAbsent σ (findSellerById σ u.id))
  else (⟨403, .message msgOnlyBuyersAndSellers⟩, σ)

/-! ## `GET /list` -/

/-- The display name `sellerDoc.shopName || firstName + ' ' + lastName`. -/
def sellerDisplayName (s : Seller) : String :=
  if s.shopName ≠ "" then s.shopName else s.firstName ++ " " ++ s.lastName

/-- The display name of a buyer: `firstName + ' ' + lastName`. -/
def buyerDisplayName (c : Customer) : String := c.firstName ++ " " ++ c.lastName

/-- The product `populate('productId', 'name')` puts in place of a room's `productId`. -/
def populateProduct (σ : Store) (chat : ChatRoom) : Option Product :=
  chat.productId.bind (fun pid => σ.products.find? (fun p => p._id = pid))

/-- The id, display name and type of the other participant, by the requester's role. -/
def otherParticipant (σ : Store) (role : String) (chat : ChatRoom) :
    Option String × String × String :=
  if role = "buyer" then
    (some chat.participantRoles.sellerId,
      (match σ.sellers.find? (fun s => s._id = chat.participantRoles.sellerId) with
       | some sellerDoc => sellerDisplayName sellerDoc
       | none => "Deleted Seller"),
      "Seller")
  else if role = "seller" then
    (some chat.participantRoles.buyerId,
      (match σ.customers.find? (fun c => c._id = chat.participantRoles.buyerId) with
       | some buyerDoc => buyerDisplayName buyerDoc
       | none => "Deleted Buyer"),
      "Customer")
  else (none, "Unknown User", "")

/-- The entry pushed for one room by the loop of `GET /list`. -/
def listEntry (σ : Store) (role : String) (chat : ChatRoom) : ChatListEntry :=
  { chatId := chat._id
    otherParticipantId := (otherParticipant σ role chat).1
    otherParticipantName := (otherParticipant σ role chat).2.1
    otherParticipantType := (otherParticipant σ role chat).2.2
    lastMessageText := chat.lastMessageText
    lastMessageSenderId := chat.lastMessageSenderId
    lastMessageTimestamp := chat.lastMessageTimestamp
    unreadCount := if role = "buyer" then chat.buyerUnreadCount else chat.sellerUnreadCount
    productName := (populateProduct σ chat).map (fun p => p.name)
    productId := (populateProduct σ chat).map (fun p => p._id) }

/-- The query `ChatRoom.find({ participants: id }).sort({ updatedAt: -1 })`: the rooms
whose array contains the id, most recently updated first. -/
def findRoomsOf (σ : Store) (id : String) : Except StoreError (List ChatRoom) :=
  match castObjectId id with
  | none => .error .cast
  | some oid =>
    .ok ((σ.chatRooms.filter (fun r => r.participants.contains oid)).insertionSort
      (fun a b => b.updatedAt ≤ a.updatedAt))

/-- The handler of `GET /list`. -/
def list (σ : Store) (u : User) : Response :=
  match findRoomsOf σ u.id with
  | .ok chats => ⟨200, .chatList (chats.map (listEntry σ u.role))⟩
  | .error _ => ⟨500, .text "Server error listing chats"⟩

/-! ## `GET /messages/:chatId` and `POST /:chatId/mark-read` -/

def msgRoomNotFound : String := "Chat room not found."

def msgNotParticipant : String := "Forbidden: You are not a participant in this chat."

/-- The query `Message.find({ chatRoom: chatId }).sort({ timestamp: 1 })`. -/
def findMessagesOf (σ : Store) (chatId : String) : Except StoreError (List Message) :=
  match castObjectId chatId with
  | none => .error .cast
  | some oid =>
    .ok ((σ.messages.filter (fun m => m.chatRoom = oid)).insertionSort
      (fun a b => a.timestamp ≤ b.timestamp))

/-- The `try` block of `GET /messages/:chatId`. -/
def messagesTry (σ : Store) (u : User) (chatId : String) : Except StoreError Response :=
  match findRoomById σ chatId with
  | .error e => .error e
  | .ok none => .ok ⟨404, .message msgRoomNotFound⟩
  | .ok (some chatRoom) =>
    if ¬ chatRoom.participants.contains u.id then .ok ⟨403, .message msgNotParticipant⟩
    else
      match findMessagesOf σ chatId with
      | .error e => .error e
      | .ok messages => .ok ⟨200, .messages messages⟩

/-- The handler of `GET /messages/:chatId`, with its `catch` block. -/
def messages (σ : Store) (u : User) (req : Request) : Response :=
  match messagesTry σ u req.chatId with
  | .ok r => r
  | .error .cast => ⟨400, .message "Invalid Chat ID"⟩
  | .error _ => ⟨500, .text "Server error fetching messages"⟩

/-- The variable `updateField` of `POST /:chatId/mark-read`. -/
def updateField (u : User) (chatRoom : ChatRoom) : String :=
  if u.role = "buyer" ∧ chatRoom.participantRoles.buyerId = u.id then
    (if chatRoom.buyerUnreadCount > 0 then "buyerUnreadCount" else "")
  else if u.role = "seller" ∧ chatRoom.participantRoles.sellerId = u.id then
    (if chatRoom.sellerUnreadCount > 0 then "sellerUnreadCount" else "")
  else ""

/-- The `try` block of `POST /:chatId/mark-read`. -/
def markReadTry (σ : Store) (u : User) (chatId : String) :
    Except StoreError (Response × Store) :=
  match findRoomById σ chatId with
  | .error e => .error e
  | .ok none => .ok (⟨404, .message msgRoomNotFound⟩, σ)
  | .ok (some chatRoom) =>
    if ¬ chatRoom.participants.contains u.id then .ok (⟨403, .message msgNotParticipant⟩, σ)
    else if updateField u chatRoom ≠ "" then
      .ok (⟨200, .message "Chat marked as read."⟩,
        saveUnreadZero σ chatRoom._id (updateField u chatRoom))
    else .ok (⟨200, .message "No unread messages to mark."⟩, σ)

/-- The handler of `POST /:chatId/mark-read`, with its `catch` block. -/
def markRead (σ : Store) (u : User) (req : Request) : Response × Store :=
  match markReadTry σ u req.chatId with
  | .ok out => out
  | .error .cast => (⟨400, .message "Invalid Chat ID"⟩, σ)
  | .error _ => (⟨500, .text "Server error marking chat as read"⟩, σ)

/-! ## The routes behind `authorize(['buyer', 'seller'])` -/

def chatRoles : Roles := .arr ["buyer", "seller"]

/-- The route `POST /chat/initiate` on a request that has passed `protect`. -/
def initiateRoute (σ : Store) (env : Env) (req : Request) : Response × Store :=
  match authorize chatRoles req with
  | .respond r => (r, σ)
  | .next u => initiate σ env u req

/-- The route `GET /chat/list` on a request that has passed `protect`. -/
def listRoute (σ : Store) (req : Request) : Response × Store :=
  match authorize chatRoles req with
  | .respond r => (r, σ)
  | .next u => (list σ u, σ)

/-- The route `GET /chat/messages/:chatId` on a request that has passed `protect`. -/
def messagesRoute (σ : Store) (req : Request) : Response × Store :=
  match authorize chatRoles req with
  | .respond r => (r, σ)
  | .next u => (messages σ u req, σ)

/-- The route `POST /chat/:chatId/mark-read` on a request that has passed `protect`. -/
def markReadRoute (σ : Store) (req : Request) : Response × Store :=
  match authorize chatRoles req with
  | .respond r => (r, σ)
  | .next u => markRead σ u req

/-! ## Sequences of chat requests, and the properties stated of them -/

/-- A state-changing request to the chat routes. -/
inductive ChatRequest where
  | initiate (env : Env) (req : Request)
  | markRead (req : Request)
deriving DecidableEq, Repr

/-- The store after one request has been handled. -/
def chatStep (σ : Store) : ChatRequest → Store
  | .initiate env req => (initiateRoute σ env req).2
  | .markRead req => (markReadRoute σ req).2

/-- The store after a sequence of requests, each handled to completion before the next. -/
def runChat (σ : Store) (reqs : List ChatRequest) : Store := reqs.foldl chatStep σ

/-- The `chatId` field of a response, when its body carries one. -/
def chatIdOf (r : Response) : Option String :=
  match r.body with
  | .chat _ chatId _ _ _ => some chatId
  | _ => none

/-- An initiate request between buyer `b` and seller `s`: issued by `b` with
`participantId` `s`, or by `s` with `participantId` `b`. -/
def Between (b s : String) (req : Request) : Prop :=
  (req.user = some ⟨b, "buyer"⟩ ∧ req.participantId = some s) ∨
  (req.user = some ⟨s, "seller"⟩ ∧ req.participantId = some b)

/-- A participants array is a pair in collation order. -/
def PairInOrder : List String → Prop
  | [x, y] => localeCompare x y ≤ 0
  | _ => False

/-- The invariant of the chat-room collection: every participants pair is stored in
sorted order, and no two rooms hold the same unordered pair. -/
def RoomsInvariant (rooms : List ChatRoom) : Prop :=
  (∀ r ∈ rooms, PairInOrder r.participants) ∧
  rooms.Pairwise (fun r₁ r₂ => ¬ r₁.participants.Perm r₂.participants)

/-! ## Sample data -/

def buyerA : Customer :=
  { _id := "aaaaaaaaaaaaaaaaaaaaaaaa", firstName := "Ann", lastName := "Lee",
    email := "ann@x.com", password := "h1", role := "buyer", createdAt := 1 }

def sellerB : Seller :=
  { _id := "bbbbbbbbbbbbbbbbbbbbbbbb", firstName := "Bob", lastName := "Ray",
    email := "bob@x.com", mobileNumber := "1234567890", password := "h2",
    shopName := "Bob Books", shopAddress := "1 Main St", gstNumber := none,
    role := "seller", isApproved := false, createdAt := 2 }

def roomAB : ChatRoom :=
  { _id := "cccccccccccccccccccccccc",
    participants := ["aaaaaaaaaaaaaaaaaaaaaaaa", "bbbbbbbbbbbbbbbbbbbbbbbb"],
    participantRoles := ⟨"aaaaaaaaaaaaaaaaaaaaaaaa", "bbbbbbbbbbbbbbbbbbbbbbbb"⟩,
    productId := none, lastMessageText := some "hello",
    lastMessageSenderId := some "bbbbbbbbbbbbbbbbbbbbbbbb", lastMessageTimestamp := some 7,
    buyerUnreadCount := 2, sellerUnreadCount := 3, createdAt := 5, updatedAt := 7 }

def roomAD : ChatRoom :=
  { _id := "eeeeeeeeeeeeeeeeeeeeeeee",
    participants := ["aaaaaaaaaaaaaaaaaaaaaaaa", "dddddddddddddddddddddddd"],
    participantRoles := ⟨"aaaaaaaaaaaaaaaaaaaaaaaa", "dddddddddddddddddddddddd"⟩,
    productId := none, lastMessageText := none, lastMessageSenderId := none,
    lastMessageTimestamp := none, buyerUnreadCount := 1, sellerUnreadCount := 0,
    createdAt := 8, updatedAt := 9 }

def msg1 : Message :=
  { _id := "111111111111111111111111", chatRoom := "cccccccccccccccccccccccc",
    sender := "bbbbbbbbbbbbbbbbbbbbbbbb", senderModel := "Seller", text := "hello",
    timestamp := 7 }

def msg2 : Message :=
  { _id := "222222222222222222222222", chatRoom := "cccccccccccccccccccccccc",
    sender := "aaaaaaaaaaaaaaaaaaaaaaaa", senderModel := "Customer", text := "hi",
    timestamp := 6 }

def msg3 : Message :=
  { _id := "333333333333333333333333", chatRoom := "eeeeeeeeeeeeeeeeeeeeeeee",
    sender := "aaaaaaaaaaaaaaaaaaaaaaaa", senderModel := "Customer", text := "anyone",
    timestamp := 4 }

/-- A store with one buyer, one seller and no chat room yet. -/
def storeEmpty : Store :=
  { customers := [buyerA], sellers := [sellerB], products := [], chatRooms := [],
    messages := [] }

/-- A store with two rooms of buyer A: one with seller B, one with a seller whose
account has been deleted. -/
def storeChats : Store :=
  { customers := [buyerA], sellers := [sellerB], products := [],
    chatRooms := [roomAB, roomAD], messages := [msg1, msg2, msg3] }

def envC : Env := { newId := "cccccccccccccccccccccccc", now := 5 }

def userA : User := ⟨"aaaaaaaaaaaaaaaaaaaaaaaa", "buyer"⟩

def userB : User := ⟨"bbbbbbbbbbbbbbbbbbbbbbbb", "seller"⟩

def userD : User := ⟨"dddddddddddddddddddddddd", "seller"⟩

def userAdmin : User := ⟨"ffffffffffffffffffffffff", "admin"⟩

/-- A request of user `u` that has passed `protect`. -/
def requestOf (u : User) (chatId : String) (participantId productId : Option String) :
    Request :=
  { authorization := none, user := some u, chatId := chatId,
    participantId := participantId, productId := productId }

/-- A token check for the examples: `good` carries buyer A, `old` has expired, and
every other token fails. -/
def sampleVerify (t : String) : JwtResult :=
  if t = "good" then .decoded (some userA) else if t = "old" then .expired else .invalid

/-- A request as it arrives, with an `Authorization` header and no user attached yet. -/
def requestWithHeader (header : Option String) : Request :=
  { authorization := header, user := none, chatId := "", participantId := none,
    productId := none }

/-- An initiate of seller B with buyer A, sent to `/chat/initiate?productId=junk`. -/
def requestWithQuery : Request :=
  { authorization := none, user := some userB, chatId := "",
    participantId := some "aaaaaaaaaaaaaaaaaaaaaaaa", productId := none,
    elsewhere := [("productId", "junk")] }

/-- The facts a successful `POST /initiate` between buyer `b` and seller `s` establishes,
and later chat requests keep: both accounts are found, the sorted pair casts to
some `oids`, and the first room stored under `oids` has id `c`. -/
structure Resolved (b s c : String) (σ : Store) : Prop where
  customer : ∃ doc, findCustomerById σ b = .ok (some doc)
  seller : ∃ doc, findSellerById σ s = .ok (some doc)
  room : ∃ oids, castIds (sortPair b s) = some oids ∧
    (σ.chatRooms.find? (fun r => r.participants = oids)).map (fun r => r._id) = some c

instance (l : List String) : Decidable (PairInOrder l) := by
  unfold PairInOrder
  split <;> infer_instance

instance (rooms : List ChatRoom) : Decidable (RoomsInvariant rooms) := by
  unfold RoomsInvariant
  infer_instance

def sellerD : Seller :=
  { _id := "dddddddddddddddddddddddd", firstName := "Dee", lastName := "Kay",
    email := "dee@x.com", mobileNumber := "9876543210", password := "h3",
    shopName := "Dee Deli", shopAddress := "2 High St", gstNumber := none,
    role := "seller", isApproved := true, createdAt := 3 }

/-- The store `storeChats` before the account of seller D was deleted. -/
def storeBeforeDelete : Store :=
  { customers := [buyerA], sellers := [sellerB, sellerD], products := [],
    chatRooms := [roomAB, roomAD], messages := [msg1, msg2, msg3] }

/-- A store with both accounts and one room, of buyer A with seller D. -/
def storeOneRoom : Store :=
  { customers := [buyerA], sellers := [sellerB], products := [], chatRooms := [roomAD],
    messages := [] }

/-! ## Strings as the validators and the schemas see them -/

/-- The characters `String.prototype.trim()` removes: ECMAScript white space and line
terminators. -/
def isJsWhitespace (c : Char) : Bool :=
  let n := c.toNat
  n = 9 || n = 10 || n = 11 || n = 12 || n = 13 || n = 32 || n = 160 || n = 5760 ||
    (8192 ≤ n && n ≤ 8202) || n = 8232 || n = 8233 || n = 8239 || n = 8287 || n = 12288 ||
    n = 65279

/-- The schema option `trim: true`: `value.trim()`. -/
def jsTrim (s : String) : String :=
  String.mk ((s.data.dropWhile isJsWhitespace).reverse.dropWhile isJsWhitespace).reverse

/-- The method `toLowerCase()` restricted to the ASCII letters, for the examples. -/
def jsLower (s : String) : String := String.mk (s.data.map Char.toLower)

/-- The property `length` of a JavaScript string: UTF-16 code units. -/
def utf16Length (s : String) : Nat :=
  (s.data.map (fun c => if 65536 ≤ c.toNat then 2 else 1)).sum

/-- The length validator.js `isLength` measures: code points, the variation
selectors U+FE0E and U+FE0F not counted. -/
def validatorLength (s : String) : Nat :=
  (s.data.filter (fun c => !(c.toNat = 65038 || c.toNat = 65039))).length

def isDigitChar (c : Char) : Bool := 48 ≤ c.toNat && c.toNat ≤ 57

def isUpperChar (c : Char) : Bool := 65 ≤ c.toNat && c.toNat ≤ 90

/-- The class `\w` of a JavaScript regular expression: `[A-Za-z0-9_]`. -/
def isWordChar (c : Char) : Bool :=
  isDigitChar c || isUpperChar c || (97 ≤ c.toNat && c.toNat ≤ 122) || c = '_'

/-- The regular expression `/^[+-]?([0-9]*[.])?[0-9]+$/` of validator.js `isNumeric`. -/
def isNumeric (s : String) : Bool :=
  let body := match s.data with
    | c :: rest => if c = '+' || c = '-' then rest else c :: rest
    | [] => []
  match splitAux '.' body [] with
  | [digits] => !digits.isEmpty && digits.all isDigitChar
  | [whole, frac] => whole.all isDigitChar && !frac.isEmpty && frac.all isDigitChar
  | _ => false

/-- The pattern `/^([\w-\.]+@([\w-]+\.)+[\w-]{2,4})?$/` of the `email` paths: the empty
string, or a local part of word characters, hyphens and dots, an `@`, and a domain of
at least two dot-separated labels of word characters and hyphens, the last of length
2 to 4. -/
def matchesEmailPattern (s : String) : Bool :=
  s.data.isEmpty ||
  match splitAux '@' s.data [] with
  | [loc, domain] =>
    !loc.isEmpty && loc.all (fun c => isWordChar c || c = '-' || c = '.') &&
      (let labels := splitAux '.' domain []
       2 ≤ labels.length &&
         labels.all (fun l => !l.isEmpty && l.all (fun c => isWordChar c || c = '-')) &&
         (match labels.getLast? with
          | some l => 2 ≤ l.length && l.length ≤ 4
          | none => false))
  | _ => false

/-- The pattern `/^\d{10}$/` of the path `mobileNumber`. -/
def matchesMobilePattern (s : String) : Bool :=
  s.data.length = 10 && s.data.all isDigitChar

/-- The pattern `/^[0-9]{2}[A-Z]{5}[0-9]{4}[A-Z]{1}[1-9A-Z]{1}Z[0-9A-Z]{1}$/` of the path
`gstNumber`. -/
def matchesGstPattern (s : String) : Bool :=
  match s.data with
  | [d1, d2, a1, a2, a3, a4, a5, n1, n2, n3, n4, b, e, z, k] =>
    isDigitChar d1 && isDigitChar d2 &&
      isUpperChar a1 && isUpperChar a2 && isUpperChar a3 && isUpperChar a4 && isUpperChar a5 &&
      isDigitChar n1 && isDigitChar n2 && isDigitChar n3 && isDigitChar n4 &&
      isUpperChar b && ((isDigitChar e && e ≠ '0') || isUpperChar e) && z = 'Z' &&
      (isDigitChar k || isUpperChar k)
  | _ => false

/-! ## Numbers as the validators and the schemas read them -/

/-- The integer nearest to `n / d`, the even one of two that are equally near. -/
def roundHalfEven (n d : Nat) : Nat :=
  if 2 * (n % d) < d then n / d
  else if d < 2 * (n % d) then n / d + 1
  else if n / d % 2 = 0 then n / d else n / d + 1

/-- The number of halvings that bring `n` below 2, at most `fuel` of them, added to
`count`. -/
def halvings : Nat → Nat → Nat → Nat
  | 0, _, count => count
  | fuel + 1, n, count => if n < 2 then count else halvings fuel (n / 2) (count + 1)

/-- The exponent of the highest power of 2 that is at most `n`, for positive `n`. -/
def log2 (n : Nat) : Nat := halvings n n 0

/-- The exponent `e` with `2 ^ e ≤ n / d < 2 ^ (e + 1)`, for positive `n` and `d`. -/
def floorLog2 (n d : Nat) : Int :=
  if d * 2 ^ (log2 n - log2 d) ≤ n * 2 ^ (log2 d - log2 n) then (log2 n : Int) - log2 d
  else (log2 n : Int) - log2 d - 1

/-- The double nearest to `n / d`, with the sign given (IEEE 754 binary64, round to
nearest, ties to even): a multiple `m * 2 ^ p`, where `p` is 52 below the exponent of
`n / d` and at least -1074; the infinity when that multiple is `2 ^ 1024` or more
(`p` above 971, or `p = 971` and `m = 2 ^ 53`). -/
def roundToDouble (negative : Bool) (n d : Nat) : JsNumber :=
  if n = 0 ∨ d = 0 then .finite 0
  else
    let p : Int := max (floorLog2 n d - 52) (-1074)
    let m : Nat := roundHalfEven (n * 2 ^ (-p).toNat) (d * 2 ^ p.toNat)
    if 972 ≤ p ∨ (p = 971 ∧ 2 ^ 53 ≤ m) then .infinity negative
    else
      .finite (mkRat (if negative then - (m * 2 ^ p.toNat : Nat) else (m * 2 ^ p.toNat : Nat))
        (2 ^ (-p).toNat))

/-- The value of a string of decimal digits. -/
def digitsValue (cs : List Char) : Nat := cs.foldl (fun n c => 10 * n + (c.toNat - 48)) 0

/-- The value of a hexadecimal digit. -/
def hexDigitValue (c : Char) : Nat :=
  if c.toNat ≤ 57 then c.toNat - 48 else if c.toNat ≤ 70 then c.toNat - 55 else c.toNat - 87

/-- The longest prefix of `cs` that is a `StrUnsignedDecimalLiteral` other than
`Infinity` (digits, a dot and digits, an exponent part, with a digit before the
exponent): its value `mantissa * 10 ^ exponent` and the characters after it. -/
def scanDecimal (cs : List Char) : Option (Nat × Int × List Char) :=
  let whole := cs.takeWhile isDigitChar
  let afterWhole := cs.dropWhile isDigitChar
  let frac := match afterWhole with
    | '.' :: more => more.takeWhile isDigitChar
    | _ => []
  let afterFrac := match afterWhole with
    | '.' :: more => more.dropWhile isDigitChar
    | _ => afterWhole
  if whole.isEmpty && frac.isEmpty then none
  else
    let mantissa := digitsValue (whole ++ frac)
    match afterFrac with
    | [] => some (mantissa, - (frac.length : Int), [])
    | e :: more =>
      let negative := more.head? = some '-'
      let digits := if more.head? = some '-' ∨ more.head? = some '+' then more.tail else more
      if (e = 'e' ∨ e = 'E') ∧ ¬ (digits.takeWhile isDigitChar).isEmpty then
        let power : Int := digitsValue (digits.takeWhile isDigitChar)
        some (mantissa, (if negative then - power else power) - frac.length,
          digits.dropWhile isDigitChar)
      else some (mantissa, - (frac.length : Int), afterFrac)

/-- The double of `mantissa * 10 ^ exponent`, with the sign given. -/
def decimalToDouble (negative : Bool) (mantissa : Nat) (exponent : Int) : JsNumber :=
  roundToDouble negative (mantissa * 10 ^ exponent.toNat) (10 ^ (-exponent).toNat)

/-- The value of an unsigned literal in base 16, 8 or 2 (`0x1F`, `0o17`, `0b101`). -/
def radixValue (cs : List Char) : Option Nat :=
  match cs with
  | '0' :: x :: digits =>
    if digits.isEmpty then none
    else if (x = 'x' ∨ x = 'X') ∧ digits.all (fun c => isHexCode c.toNat) then
      some (digits.foldl (fun n c => 16 * n + hexDigitValue c) 0)
    else if (x = 'o' ∨ x = 'O') ∧ digits.all (fun c => 48 ≤ c.toNat && c.toNat ≤ 55) then
      some (digits.foldl (fun n c => 8 * n + (c.toNat - 48)) 0)
    else if (x = 'b' ∨ x = 'B') ∧ digits.all (fun c => c = '0' || c = '1') then
      some (digits.foldl (fun n c => 2 * n + (c.toNat - 48)) 0)
    else none
  | _ => none

/-- The characters of `cs` after a leading sign, if it has one. -/
def dropSign (cs : List Char) : List Char :=
  if cs.head? = some '-' ∨ cs.head? = some '+' then cs.tail else cs

/-- The conversion `Number(str)` of a string (`StringToNumber`): white space around the
literal is dropped, the empty string is 0, and the rest must be, as a whole, a signed
decimal literal, a signed `Infinity`, or an unsigned literal in base 16, 8 or 2;
anything else is `NaN`. -/
def toNumber (s : String) : JsNumber :=
  let cs := (jsTrim s).data
  if cs.isEmpty then .finite 0
  else
    match radixValue cs with
    | some n => roundToDouble false n 1
    | none =>
      if dropSign cs = "Infinity".data then .infinity (cs.head? = some '-')
      else
        match scanDecimal (dropSign cs) with
        | some (mantissa, exponent, []) =>
          decimalToDouble (cs.head? = some '-') mantissa exponent
        | _ => .nan

/-- The global `parseFloat(str)`: leading white space is dropped, and the value is that
of the longest prefix that is a signed decimal literal or a signed `Infinity`; `NaN`
if there is none. -/
def parseFloat (s : String) : JsNumber :=
  let cs := s.data.dropWhile isJsWhitespace
  if "Infinity".data.isPrefixOf (dropSign cs) then .infinity (cs.head? = some '-')
  else
    match scanDecimal (dropSign cs) with
    | some (mantissa, exponent, _) => decimalToDouble (cs.head? = some '-') mantissa exponent
    | none => .nan

/-- The regular expression `/^[-+]?[0-9]+$/` of validator.js `isInt`. -/
def matchesInt (s : String) : Bool :=
  !(dropSign s.data).isEmpty && (dropSign s.data).all isDigitChar

/-- The check `isInt(str, { min: 0 })` of validator.js: the pattern, and `str >= 0`,
which compares the number the string converts to. -/
def isInt (s : String) : Bool := matchesInt s && (toNumber s).ge 0

/-- The regular expression
`/^(?:[-+])?(?:[0-9]+)?(?:\.[0-9]*)?(?:[eE][\+\-]?(?:[0-9]+))?$/` of validator.js
`isFloat`: every part of it is optional. -/
def matchesFloat (s : String) : Bool :=
  let afterWhole := (dropSign s.data).dropWhile isDigitChar
  let afterFrac := match afterWhole with
    | '.' :: more => more.dropWhile isDigitChar
    | _ => afterWhole
  match afterFrac with
  | [] => true
  | e :: more =>
    (e = 'e' || e = 'E') && !(dropSign more).isEmpty && (dropSign more).all isDigitChar

/-- The expression `str.replace(',', '.')`: the first comma becomes a dot. -/
def replaceComma : List Char → List Char
  | [] => []
  | c :: rest => if c = ',' then '.' :: rest else c :: replaceComma rest

/-- The check `isFloat(str, { min: 0 })` of validator.js: not one of the strings `''`,
`'.'`, `','`, `'-'`, `'+'`, the pattern, and `parseFloat(str.replace(',', '.')) >= 0`. -/
def isFloat (s : String) : Bool :=
  !(s = "" || s = "." || s = "," || s = "-" || s = "+") && matchesFloat s &&
    (parseFloat (String.mk (replaceComma s.data))).ge 0

/-- The conversion `ToNumber` of a body value that is absent (`NaN`) or a string. -/
def toNumberOf (v : Option String) : JsNumber :=
  match v with
  | none => .nan
  | some s => toNumber s

/-- Mongoose's cast of a body value to a path of type Number: `Number(val)` for a
string other than `''`.  The result `nan` stands for a path left without a number,
which fails the validation of `save()`: by the validator `required` for an absent
value and for `''`, which is cast to `null`, and by the `CastError` the cast throws for
a string that converts to `NaN`. -/
def castNumber (v : Option String) : JsNumber :=
  match v with
  | none => .nan
  | some s => if s = "" then .nan else toNumber s

/-- The functions the account routes take from outside: validator.js `isEmail`,
bcryptjs `hash(password, salt)` and `compare(entered, stored)`, and the engine's
`String.prototype.toLowerCase`, the lower-casing of the Unicode case mappings. -/
structure Lib where
  isEmail : String → Bool
  hash : String → String → String
  compare : String → String → Bool
  toLowerCase : String → String

/-- The query and document value of an `email` path, whose schema options are `trim:
true` and `lowercase: true`: the setters run last-declared first, `value.toLowerCase()`
and then `value.trim()`, each on a value that is not the empty string. -/
def castEmail (lib : Lib) (s : String) : String :=
  if s = "" then "" else jsTrim (lib.toLowerCase s)

/-- What the creation of an account draws from its environment: the generated `_id`,
the clock of `Date.now` and the salt of `bcrypt.genSalt(10)`. -/
structure AccountEnv where
  newId : String
  now : Int
  salt : String
deriving DecidableEq, Repr

/-- The errors thrown into the `catch` of an account route: a failed cast, a failed
schema validation, or a write rejected by the unique index on `field` (code 11000,
`keyPattern` naming the field). -/
inductive AccountError where
  | cast
  | validation
  | duplicateKey (field : String)
deriving DecidableEq, Repr

/-! ## `POST /register` and `POST /seller/register` (`routes/auth.js`) -/

/-- The validator `.not().isEmpty()`: an absent field is validated as the empty string. -/
def notEmpty (v : Option String) : Bool := v.getD "" ≠ ""

/-- The body of `POST /register`, and what the request carries elsewhere.  A field
that the body lacks reaches the handler as `undefined`: no stored value equals it and
the validator `required` rejects it, as with the empty string it is given as. -/
structure RegisterBody where
  firstName : Option String
  lastName : Option String
  email : Option String
  password : Option String
  elsewhere : List (String × String) := []
deriving DecidableEq, Repr

/-- The body of `POST /seller/register`, and what the request carries elsewhere; a field
that the body lacks is read as in `RegisterBody`. -/
structure SellerRegisterBody where
  firstName : Option String
  lastName : Option String
  email : Option String
  mobileNumber : Option String
  password : Option String
  shopName : Option String
  shopAddress : Option String
  gstNumber : Option String
  elsewhere : List (String × String) := []
deriving DecidableEq, Repr

/-- The validators of `POST /register`, in order, each on every instance of its field
in the request. -/
def registerValidation (lib : Lib) (b : RegisterBody) : List String :=
  checkEach (fun s => s ≠ "") "First name is required"
    (fieldInstances b.firstName b.elsewhere "firstName") ++
  checkEach (fun s => s ≠ "") "Last name is required"
    (fieldInstances b.lastName b.elsewhere "lastName") ++
  checkEach lib.isEmail "Please include a valid email"
    (fieldInstances b.email b.elsewhere "email") ++
  checkEach (fun s => 6 ≤ validatorLength s) "Password must be at least 5 characters"
    (fieldInstances b.password b.elsewhere "password")

def msgMobileRule : String := "Mobile number is required and must be 10 digits"

/-- The validators of `POST /seller/register`, in order, each on every instance of its
field in the request; the two validators of `mobileNumber` report under the same
message. -/
def sellerRegisterValidation (lib : Lib) (b : SellerRegisterBody) : List String :=
  checkEach (fun s => s ≠ "") "First name is required"
    (fieldInstances b.firstName b.elsewhere "firstName") ++
  checkEach (fun s => s ≠ "") "Last name is required"
    (fieldInstances b.lastName b.elsewhere "lastName") ++
  checkEach lib.isEmail "Please include a valid email"
    (fieldInstances b.email b.elsewhere "email") ++
  checkEach (fun s => validatorLength s = 10) msgMobileRule
    (fieldInstances b.mobileNumber b.elsewhere "mobileNumber") ++
  checkEach isNumeric msgMobileRule
    (fieldInstances b.mobileNumber b.elsewhere "mobileNumber") ++
  checkEach (fun s => 6 ≤ validatorLength s) "Password must be at least 6 characters"
    (fieldInstances b.password b.elsewhere "password") ++
  checkEach (fun s => s ≠ "") "Shop name is required"
    (fieldInstances b.shopName b.elsewhere "shopName") ++
  checkEach (fun s => s ≠ "") "Shop address is required"
    (fieldInstances b.shopAddress b.elsewhere "shopAddress")

/-- The validators of `customerSchema`, on a document whose setters have run. -/
def customerValid (c : Customer) : Bool :=
  c.firstName ≠ "" && utf16Length c.firstName ≤ 50 &&
  c.lastName ≠ "" && utf16Length c.lastName ≤ 50 &&
  c.email ≠ "" && matchesEmailPattern c.email &&
  c.password ≠ "" && 6 ≤ utf16Length c.password &&
  c.role = "buyer"

/-- The validators of `sellerSchema`, on a document whose setters have run. -/
def sellerValid (s : Seller) : Bool :=
  s.firstName ≠ "" && utf16Length s.firstName ≤ 50 &&
  s.lastName ≠ "" && utf16Length s.lastName ≤ 50 &&
  s.email ≠ "" && matchesEmailPattern s.email &&
  s.mobileNumber ≠ "" && matchesMobilePattern s.mobileNumber &&
  s.password ≠ "" && 6 ≤ utf16Length s.password &&
  s.shopName ≠ "" && utf16Length s.shopName ≤ 100 &&
  s.shopAddress ≠ "" && utf16Length s.shopAddress ≤ 200 &&
  (match s.gstNumber with
   | none => true
   | some g => g = "" || matchesGstPattern g) &&
  s.role = "seller"

/-- The query `Customer.findOne({ email })`. -/
def findCustomerByEmail (lib : Lib) (σ : Store) (email : String) : Option Customer :=
  σ.customers.find? (fun c => c.email = castEmail lib email)

/-- The query `Seller.findOne({ email })`. -/
def findSellerByEmail (lib : Lib) (σ : Store) (email : String) : Option Seller :=
  σ.sellers.find? (fun s => s.email = castEmail lib email)

/-- The query `Admin.findOne({ email })`. -/
def findAdminByEmail (lib : Lib) (σ : Store) (email : String) : Option Admin :=
  σ.admins.find? (fun a => a.email = castEmail lib email)

/-- The insert of `customer.save()`: the unique indexes on `_id` and `email`. -/
def insertCustomer (σ : Store) (c : Customer) : Except AccountError Store :=
  if σ.customers.any (fun x => x._id = c._id) then .error (.duplicateKey "_id")
  else if σ.customers.any (fun x => x.email = c.email) then .error (.duplicateKey "email")
  else .ok { σ with customers := σ.customers ++ [c] }

/-- The insert of `seller.save()`: the unique indexes on `_id`, `email`, `mobileNumber`,
`shopName` and, among the documents that have one, `gstNumber`. -/
def insertSeller (σ : Store) (s : Seller) : Except AccountError Store :=
  if σ.sellers.any (fun x => x._id = s._id) then .error (.duplicateKey "_id")
  else if σ.sellers.any (fun x => x.email = s.email) then .error (.duplicateKey "email")
  else if σ.sellers.any (fun x => x.mobileNumber = s.mobileNumber) then
    .error (.duplicateKey "mobileNumber")
  else if σ.sellers.any (fun x => x.shopName = s.shopName) then
    .error (.duplicateKey "shopName")
  else if s.gstNumber.isSome ∧ σ.sellers.any (fun x => x.gstNumber = s.gstNumber) then
    .error (.duplicateKey "gstNumber")
  else .ok { σ with sellers := σ.sellers ++ [s] }

def msgEmailIsBuyer : String := "An account with this email already exists (as a buyer)."

def msgEmailIsSeller : String :=
  "An account with this email already exists (as a seller). Please use a different email or log in."

/-- The document `new Customer({ firstName, lastName, email, password, role: 'buyer' })`. -/
def newCustomer (lib : Lib) (env : AccountEnv) (b : RegisterBody) : Customer :=
  { _id := env.newId, firstName := jsTrim (b.firstName.getD ""),
    lastName := jsTrim (b.lastName.getD ""), email := castEmail lib (b.email.getD ""),
    password := b.password.getD "", role := "buyer", createdAt := env.now }

/-- The `try` block of `POST /register`. -/
def registerTry (lib : Lib) (σ : Store) (env : AccountEnv) (b : RegisterBody) :
    Except AccountError (Response × Store) :=
  if (findCustomerByEmail lib σ (b.email.getD "")).isSome then
    .ok (⟨400, .message msgEmailIsBuyer⟩, σ)
  else if (findSellerByEmail lib σ (b.email.getD "")).isSome then
    .ok (⟨400, .message msgEmailIsSeller⟩, σ)
  else if ¬ customerValid (newCustomer lib env b) then .error .validation
  else
    let customer : Customer :=
      { newCustomer lib env b with password := lib.hash (b.password.getD "") env.salt }
    match insertCustomer σ customer with
    | .error e => .error e
    | .ok σ' =>
      .ok (⟨201, .buyerRegistered "Buyer registered successfully"
        ⟨⟨customer._id, customer.role⟩, "1h"⟩ customer._id customer.firstName customer.email
        customer.role⟩, σ')

/-- The handler of `POST /register`, with its `catch` block. -/
def register (lib : Lib) (σ : Store) (env : AccountEnv) (b : RegisterBody) :
    Response × Store :=
  if registerValidation lib b ≠ [] then
    (⟨400, .validation "Validation errors" (registerValidation lib b)⟩, σ)
  else
    match registerTry lib σ env b with
    | .ok out => out
    | .error _ => (⟨500, .text "Server error during buyer registration"⟩, σ)

def msgEmailExists : String := "An account with this email already exists."

def msgMobileExists : String := "A seller account with this mobile number already exists."

def msgShopNameTaken : String := "This shop name is already taken. Please choose another."

/-- The document `new Seller({ ..., role: 'seller', isApproved: false })`. -/
def newSeller (lib : Lib) (env : AccountEnv) (b : SellerRegisterBody) : Seller :=
  { _id := env.newId, firstName := jsTrim (b.firstName.getD ""),
    lastName := jsTrim (b.lastName.getD ""), email := castEmail lib (b.email.getD ""),
    mobileNumber := jsTrim (b.mobileNumber.getD ""), password := b.password.getD "",
    shopName := jsTrim (b.shopName.getD ""), shopAddress := jsTrim (b.shopAddress.getD ""),
    gstNumber := b.gstNumber.map jsTrim, role := "seller", isApproved := false,
    createdAt := env.now }

/-- The `try` block of `POST /seller/register`. -/
def sellerRegisterTry (lib : Lib) (σ : Store) (env : AccountEnv) (b : SellerRegisterBody) :
    Except AccountError (Response × Store) :=
  if (findCustomerByEmail lib σ (b.email.getD "")).isSome ∨
      (findSellerByEmail lib σ (b.email.getD "")).isSome then
    .ok (⟨400, .message msgEmailExists⟩, σ)
  else if (σ.sellers.find? (fun s =>
      s.mobileNumber = jsTrim (b.mobileNumber.getD ""))).isSome then
    .ok (⟨400, .message msgMobileExists⟩, σ)
  else if (σ.sellers.find? (fun s => s.shopName = jsTrim (b.shopName.getD ""))).isSome then
    .ok (⟨400, .message msgShopNameTaken⟩, σ)
  else if ¬ sellerValid (newSeller lib env b) then .error .validation
  else
    let seller : Seller :=
      { newSeller lib env b with password := lib.hash (b.password.getD "") env.salt }
    match insertSeller σ seller with
    | .error e => .error e
    | .ok σ' =>
      .ok (⟨201, .sellerRegistered
        "Seller registered successfully. Your account is pending admin approval."
        seller._id seller.shopName seller.email seller.isApproved seller.role⟩, σ')

/-- The message of the duplicate-key branch of the `catch` of `POST /seller/register`. -/
def duplicateKeyMessage (field : String) : String :=
  if field = "gstNumber" then "This GST number is already registered."
  else if field = "shopName" then "This shop name is already taken."
  else if field = "mobileNumber" then "A seller account with this mobile number already exists."
  else if field = "email" then "An account with this email already exists."
  else "A record with this " ++ field ++ " already exists."

/-- The handler of `POST /seller/register`, with its `catch` block. -/
def sellerRegister (lib : Lib) (σ : Store) (env : AccountEnv) (b : SellerRegisterBody) :
    Response × Store :=
  if sellerRegisterValidation lib b ≠ [] then
    (⟨400, .validation "Validation errors" (sellerRegisterValidation lib b)⟩, σ)
  else
    match sellerRegisterTry lib σ env b with
    | .ok out => out
    | .error (.duplicateKey field) => (⟨400, .message (duplicateKeyMessage field)⟩, σ)
    | .error _ => (⟨500, .text "Server error during seller registration"⟩, σ)

/-! ## `POST /login` -/

/-- The body of `POST /login`, and what the request carries elsewhere. -/
structure LoginBody where
  email : Option String
  password : Option String
  elsewhere : List (String × String) := []
deriving DecidableEq, Repr

/-- The document `user` of `POST /login`: of one of the three collections. -/
inductive Account where
  | buyer (c : Customer)
  | seller (s : Seller)
  | admin (a : Admin)
deriving DecidableEq, Repr

def Account.id : Account → String
  | .buyer c => c._id
  | .seller s => s._id
  | .admin a => a._id

def Account.email : Account → String
  | .buyer c => c.email
  | .seller s => s.email
  | .admin a => a.email

def Account.role : Account → String
  | .buyer c => c.role
  | .seller s => s.role
  | .admin a => a.role

def Account.password : Account → String
  | .buyer c => c.password
  | .seller s => s.password
  | .admin a => a.password

def Account.firstName : Account → String
  | .buyer c => c.firstName
  | .seller s => s.firstName
  | .admin a => a.firstName

def Account.lastName : Account → String
  | .buyer c => c.lastName
  | .seller s => s.lastName
  | .admin a => a.lastName

/-- The property `shopName`, which only a seller document has. -/
def Account.shopName : Account → Option String
  | .seller s => some s.shopName
  | _ => none

/-- The property `isApproved`, which only a seller document has. -/
def Account.isApproved : Account → Option Bool
  | .seller s => some s.isApproved
  | _ => none

/-- The lookup of `POST /login`: `Customer.findOne`, then `Seller.findOne` if that found
nothing, then `Admin.findOne` if that found nothing. -/
def findLoginAccount (lib : Lib) (σ : Store) (email : String) : Option Account :=
  match findCustomerByEmail lib σ email with
  | some c => some (.buyer c)
  | none =>
    match findSellerByEmail lib σ email with
    | some s => some (.seller s)
    | none => (findAdminByEmail lib σ email).map .admin

/-- The validators of `POST /login`, on the body and on what the request carries
elsewhere under the two names: every instance of `email` is an email, and every
instance of `password` exists, which fails for the undefined instance only. -/
def loginValidation (lib : Lib) (b : LoginBody) : List String :=
  checkEach lib.isEmail "Please include a valid email"
    (fieldInstances b.email b.elsewhere "email") ++
  ((fieldInstances b.password b.elsewhere "password").filter Option.isNone).map
    (fun _ => "Password is required")

def msgEmailNotFound : String := "Invalid Credentials (email not found)."

def msgPasswordIncorrect : String := "Invalid Credentials (password incorrect)."

def msgPendingApproval : String := "Your seller account is pending admin approval."

/-- The answer of `POST /login` once the account is resolved: the password comparison,
the approval check of a seller, and the token. -/
def loginAs (lib : Lib) (user : Account) (password : String) : Response :=
  if ¬ lib.compare password user.password then ⟨400, .message msgPasswordIncorrect⟩
  else if user.role = "seller" ∧ user.isApproved ≠ some true then
    ⟨403, .message msgPendingApproval⟩
  else
    ⟨200, .loggedIn "Login successful" ⟨⟨user.id, user.role⟩, "1h"⟩
      { id := user.id, email := user.email, role := user.role, firstName := user.firstName,
        lastName := user.lastName,
        shopName := if user.role = "seller" then user.shopName else none,
        isApproved := if user.role = "seller" then user.isApproved else none }⟩

/-- The handler of `POST /login`, which reads `email` and `password` from the body.
When the validators have passed on values elsewhere in the request and the body lacks
a field: the filter `{ email: undefined }` matches no document, all documents having
an email, and `bcrypt.compare(undefined, hash)` rejects, which the `catch` block
answers. -/
def login (lib : Lib) (σ : Store) (b : LoginBody) : Response :=
  if loginValidation lib b ≠ [] then
    ⟨400, .validation "Validation errors" (loginValidation lib b)⟩
  else
    match b.email.bind (findLoginAccount lib σ) with
    | none => ⟨400, .message msgEmailNotFound⟩
    | some user =>
      match b.password with
      | some password => loginAs lib user password
      | none => ⟨500, .text "Server error during login"⟩

/-- The token of a response, when its body carries one. -/
def tokenOf (r : Response) : Option Token :=
  match r.body with
  | .buyerRegistered _ token _ _ _ _ => some token
  | .loggedIn _ token _ => some token
  | _ => none

/-! ## `PUT /sellers/:id/approve` and `PUT /sellers/:id/reject` (`routes/adminRoutes.js`) -/

/-- The `updateOne` by `_id` that sets the path `isApproved` of a loaded seller. -/
def withApproval (σ : Store) (seller : Seller) (value : Bool) : Store :=
  let sellers := updateFirst (fun s => s._id = seller._id)
    (fun s => { s with isApproved := value }) σ.sellers
  { σ with sellers := sellers }

/-- The update of `seller.save()` after `seller.isApproved = value`: the loaded document
is validated against its schema, then the one modified path is written (the password
is not modified, so the hook that hashes it does nothing). -/
def saveSellerApproval (σ : Store) (seller : Seller) (value : Bool) :
    Except StoreError Store :=
  if ¬ sellerValid { seller with isApproved := value } then .error .validation
  else .ok (withApproval σ seller value)

def msgSellerNotFound : String := "Seller not found"

/-- The `try` block of `PUT /sellers/:id/approve`. -/
def approveSellerTry (σ : Store) (id : String) : Except StoreError (Response × Store) :=
  match findSellerById σ id with
  | .error e => .error e
  | .ok none => .ok (⟨404, .message msgSellerNotFound⟩, σ)
  | .ok (some seller) =>
    if seller.isApproved then .ok (⟨400, .message "Seller is already approved"⟩, σ)
    else
      match saveSellerApproval σ seller true with
      | .error e => .error e
      | .ok σ' =>
        .ok (⟨200, .sellerDoc ("Seller " ++ seller.shopName ++ " approved successfully")
          { seller with isApproved := true }⟩, σ')

/-- The `try` block of `PUT /sellers/:id/reject`. -/
def rejectSellerTry (σ : Store) (id : String) : Except StoreError (Response × Store) :=
  match findSellerById σ id with
  | .error e => .error e
  | .ok none => .ok (⟨404, .message msgSellerNotFound⟩, σ)
  | .ok (some seller) =>
    if ¬ seller.isApproved then .ok (⟨400, .message "Seller is already not approved"⟩, σ)
    else
      match saveSellerApproval σ seller false with
      | .error e => .error e
      | .ok σ' =>
        .ok (⟨200, .sellerDoc ("Seller " ++ seller.shopName ++ " rejected/deactivated")
          { seller with isApproved := false }⟩, σ')

/-- The `catch` block shared by the two routes. -/
def sellerApprovalCatch (σ : Store) : Except StoreError (Response × Store) → Response × Store
  | .ok out => out
  | .error .cast => (⟨400, .message "Invalid Seller ID"⟩, σ)
  | .error _ => (⟨500, .text "Server error"⟩, σ)

/-- The handler of `PUT /sellers/:id/approve`; `id` is `req.params.id`. -/
def approveSeller (σ : Store) (id : String) : Response × Store :=
  sellerApprovalCatch σ (approveSellerTry σ id)

/-- The handler of `PUT /sellers/:id/reject`; `id` is `req.params.id`. -/
def rejectSeller (σ : Store) (id : String) : Response × Store :=
  sellerApprovalCatch σ (rejectSellerTry σ id)

/-- The route `PUT /admin/sellers/:id/approve` on a request that has passed `protect`. -/
def approveSellerAuthorized (σ : Store) (req : Request) (id : String) : Response × Store :=
  match authorize (.str "admin") req with
  | .respond r => (r, σ)
  | .next _ => approveSeller σ id

/-- The route `PUT /admin/sellers/:id/reject` on a request that has passed `protect`. -/
def rejectSellerAuthorized (σ : Store) (req : Request) (id : String) : Response × Store :=
  match authorize (.str "admin") req with
  | .respond r => (r, σ)
  | .next _ => rejectSeller σ id

/-- The route `PUT /admin/sellers/:id/approve`, from the request as it arrives:
`protect`, `authorize('admin')`, handler. -/
def approveSellerRoute (verify : String → JwtResult) (σ : Store) (req : Request)
    (id : String) : Response × Store :=
  match protect verify req with
  | .respond r => (r, σ)
  | .next req' => approveSellerAuthorized σ req' id

/-- The route `PUT /admin/sellers/:id/reject`, from the request as it arrives. -/
def rejectSellerRoute (verify : String → JwtResult) (σ : Store) (req : Request)
    (id : String) : Response × Store :=
  match protect verify req with
  | .respond r => (r, σ)
  | .next req' => rejectSellerAuthorized σ req' id

/-! ## `POST /products` and `PUT /products/:id` (`routes/productRoutes.js`) -/

/-- The body of `POST /products`, and what the request carries elsewhere.  A `price` or
`stock` that is a string or a number is given by its text `String(value)`, which is
what the validators read; the cast of the schema and the comparison `stock > 0`
convert the text of a string, and get back the number from the text of a number. -/
structure ProductBody where
  name : Option String
  description : Option String
  price : Option String
  category : Option String
  stock : Option String
  imageUrl : Option String
  elsewhere : List (String × String) := []
deriving DecidableEq, Repr

/-- The validators of `POST /products`, in order, on the body and on what the request
carries elsewhere under the names of the five fields. -/
def productValidation (b : ProductBody) : List String :=
  checkEach (fun s => s ≠ "") "Product name is required"
    (fieldInstances b.name b.elsewhere "name") ++
  checkEach (fun s => s ≠ "") "Product description is required"
    (fieldInstances b.description b.elsewhere "description") ++
  checkEach isFloat "Product price is required and must be a number"
    (fieldInstances b.price b.elsewhere "price") ++
  checkEach (fun s => s ≠ "") "Product category is required"
    (fieldInstances b.category b.elsewhere "category") ++
  checkEach isInt "Stock quantity is required and must be a non-negative integer"
    (fieldInstances b.stock b.elsewhere "stock")

def productCategories : List String :=
  ["Electronics", "Fashion", "Home & Kitchen", "Groceries", "Beauty", "Books", "Sports",
    "Other"]

/-- The validators of `productSchema`, on a document whose setters have run. -/
def productValid (p : Product) : Bool :=
  p.name ≠ "" && utf16Length p.name ≤ 100 &&
  p.description ≠ "" && utf16Length p.description ≤ 1000 &&
  p.price.ge 0 && productCategories.contains p.category && p.seller ≠ "" && p.stock.ge 0

/-- The query `Product.findById(id)`. -/
def findProductById (σ : Store) (id : String) : Except StoreError (Option Product) :=
  match castObjectId id with
  | none => .error .cast
  | some oid => .ok (σ.products.find? (fun p => p._id = oid))

/-- The document `new Product({ name, description, price, category, stock, imageUrl,
seller: sellerId, isAvailable: stock > 0 })` as `save()` stores it: `imageUrl` is not a
path of the schema and is dropped, an absent `category` takes the default `Other`, and
the hook sets `updatedAt`. -/
def newProduct (env : Env) (sellerId : String) (b : ProductBody) : Product :=
  { _id := env.newId, name := jsTrim (b.name.getD ""),
    description := jsTrim (b.description.getD ""), price := castNumber b.price,
    category := (b.category.map jsTrim).getD "Other", seller := sellerId,
    stock := castNumber b.stock, isAvailable := (toNumberOf b.stock).gt 0,
    createdAt := env.now, updatedAt := env.now }

/-- The insert of `newProduct.save()`: schema validation, then the unique index on `_id`. -/
def insertProduct (σ : Store) (p : Product) : Except StoreError Store :=
  if ¬ productValid p then .error .validation
  else if σ.products.any (fun x => x._id = p._id) then .error .duplicateKey
  else .ok { σ with products := σ.products ++ [p] }

def msgOnlyApprovedSellers : String := "Forbidden: Only approved sellers can add products."

/-- The `try` block of `POST /products`. -/
def createProductTry (σ : Store) (env : Env) (u : User) (b : ProductBody) :
    Except StoreError (Response × Store) :=
  match findSellerById σ u.id with
  | .error e => .error e
  | .ok seller =>
    if seller.isNone ∨ seller.map (fun s => s.isApproved) ≠ some true then
      .ok (⟨403, .message msgOnlyApprovedSellers⟩, σ)
    else
      match castObjectId u.id with
      | none => .error .validation
      | some sellerId =>
        match insertProduct σ (newProduct env sellerId b) with
        | .error e => .error e
        | .ok σ' =>
          .ok (⟨201, .productDoc "Product added successfully" (newProduct env sellerId b)⟩, σ')

/-- The handler of `POST /products`, with its `catch` block. -/
def createProduct (σ : Store) (env : Env) (u : User) (b : ProductBody) : Response × Store :=
  if productValidation b ≠ [] then
    (⟨400, .validation "Validation errors" (productValidation b)⟩, σ)
  else
    match createProductTry σ env u b with
    | .ok out => out
    | .error _ => (⟨500, .text "Server error when adding product"⟩, σ)

/-- The route `POST /products` on a request that has passed `protect`. -/
def createProductRoute (σ : Store) (env : Env) (req : Request) (b : ProductBody) :
    Response × Store :=
  match authorize (.str "seller") req with
  | .respond r => (r, σ)
  | .next u => createProduct σ env u b

/-- The body of `PUT /products/:id`: any subset of the product fields, and whatever other
keys the client sent; `price` and `stock` by their text, as in `ProductBody`; and
what the request carries elsewhere. -/
structure ProductPatch where
  name : Option String
  description : Option String
  price : Option String
  category : Option String
  stock : Option String
  isAvailable : Option Bool
  seller : Option String
  createdAt : Option Int
  updatedAt : Option Int
  otherKeys : List String
  elsewhere : List (String × String) := []
deriving DecidableEq, Repr

/-- The array `Object.keys(req.body)`. -/
def ProductPatch.keys (b : ProductPatch) : List String :=
  (if b.name.isSome then ["name"] else []) ++
  (if b.description.isSome then ["description"] else []) ++
  (if b.price.isSome then ["price"] else []) ++
  (if b.category.isSome then ["category"] else []) ++
  (if b.stock.isSome then ["stock"] else []) ++
  (if b.isAvailable.isSome then ["isAvailable"] else []) ++
  (if b.seller.isSome then ["seller"] else []) ++
  (if b.createdAt.isSome then ["createdAt"] else []) ++
  (if b.updatedAt.isSome then ["updatedAt"] else []) ++ b.otherKeys

/-- What the `try` block of `PUT /products/:id` can throw: a store error, or the
`ReferenceError` of an identifier that is not bound. -/
inductive Thrown where
  | store (e : StoreError)
  | reference (name : String)
deriving DecidableEq, Repr

/-- The expression `productSchema.paths[key]`.  The file `routes/productRoutes.js` binds
`Product` (and `Seller`, `protect`, `authorize`, `check`, `validationResult`) but no
`productSchema`, which is a constant local to `models/Product.js`: evaluating the
identifier throws a `ReferenceError`. -/
def productSchemaPath (_key : String) : Except Thrown Bool :=
  .error (.reference "productSchema")

/-- The assignment `product[key] = req.body[key]` for a path of the schema. -/
def assignProductKey (b : ProductPatch) (key : String) (p : Product) : Product :=
  if key = "name" then { p with name := jsTrim (b.name.getD p.name) }
  else if key = "description" then
    { p with description := jsTrim (b.description.getD p.description) }
  else if key = "price" then
    { p with price := if b.price.isSome then castNumber b.price else p.price }
  else if key = "category" then { p with category := jsTrim (b.category.getD p.category) }
  else if key = "stock" then
    { p with stock := if b.stock.isSome then castNumber b.stock else p.stock }
  else if key = "isAvailable" then { p with isAvailable := b.isAvailable.getD p.isAvailable }
  else p

/-- The loop `Object.keys(req.body).forEach(key => { if (productSchema.paths[key] &&
key !== 'seller' && key !== 'createdAt' && key !== 'updatedAt') product[key] = req.body[key] })`. -/
def assignProductKeys (b : ProductPatch) : Product → List String → Except Thrown Product
  | p, [] => .ok p
  | p, key :: rest =>
    match productSchemaPath key with
    | .error e => .error e
    | .ok known =>
      if known ∧ key ≠ "seller" ∧ key ≠ "createdAt" ∧ key ≠ "updatedAt" then
        assignProductKeys b (assignProductKey b key p) rest
      else assignProductKeys b p rest

/-- The update of `product.save()` on a loaded product: schema validation, the hook that
sets `updatedAt`, and an `updateOne` by `_id`. -/
def saveProduct (σ : Store) (now : Int) (p : Product) : Except Thrown (Product × Store) :=
  if ¬ productValid p then .error (.store .validation)
  else
    let products := updateFirst (fun x => x._id = p._id)
      (fun _ => { p with updatedAt := now }) σ.products
    .ok ({ p with updatedAt := now }, { σ with products := products })

/-- The validators of `PUT /products/:id`, on the body and on what the request carries
elsewhere under the two names: every `name` that is present is not empty, and every
`price` that is present passes `isFloat({ min: 0 })`. -/
def productPatchValidation (b : ProductPatch) : List String :=
  checkEach (fun s => s ≠ "") "Product name is required"
    (optionalInstances (fieldInstances b.name b.elsewhere "name")) ++
  checkEach isFloat "Product price must be a number"
    (optionalInstances (fieldInstances b.price b.elsewhere "price"))

def msgProductNotFound : String := "Product not found"

def msgNotYourProduct : String := "Forbidden: You are not authorized to update this product."

/-- The `try` block of `PUT /products/:id`. -/
def updateProductTry (σ : Store) (now : Int) (u : User) (id : String) (b : ProductPatch) :
    Except Thrown (Response × Store) :=
  match findProductById σ id with
  | .error e => .error (.store e)
  | .ok none => .ok (⟨404, .message msgProductNotFound⟩, σ)
  | .ok (some product) =>
    if u.role ≠ "admin" ∧ product.seller ≠ u.id then
      .ok (⟨403, .message msgNotYourProduct⟩, σ)
    else
      match assignProductKeys b product b.keys with
      | .error e => .error e
      | .ok assigned =>
        let updated : Product :=
          if b.stock.isSome then { assigned with isAvailable := assigned.stock.gt 0 }
          else assigned
        match saveProduct σ now updated with
        | .error e => .error e
        | .ok (saved, σ') => .ok (⟨200, .productDoc "Product updated successfully" saved⟩, σ')

/-- The handler of `PUT /products/:id`, with its `catch` block. -/
def updateProduct (σ : Store) (now : Int) (u : User) (id : String) (b : ProductPatch) :
    Response × Store :=
  if productPatchValidation b ≠ [] then
    (⟨400, .validation "Validation errors" (productPatchValidation b)⟩, σ)
  else
    match updateProductTry σ now u id b with
    | .ok out => out
    | .error (.store .cast) => (⟨400, .message "Invalid Product ID"⟩, σ)
    | .error _ => (⟨500, .text "Server error when updating product"⟩, σ)

/-- The route `PUT /products/:id` on a request that has passed `protect`. -/
def updateProductRoute (σ : Store) (now : Int) (req : Request) (id : String)
    (b : ProductPatch) : Response × Store :=
  match authorize (.arr ["seller", "admin"]) req with
  | .respond r => (r, σ)
  | .next u => updateProduct σ now u id b

/-! ## Sample data for the account, approval and product routes -/

/-- Library functions for the examples: an email is anything the schema pattern
accepts, a hash is the salt, a colon and the password, a password matches a hash
that ends in a colon and that password, and lower-casing is that of the ASCII letters. -/
def sampleLib : Lib :=
  { isEmail := fun s => s ≠ "" && matchesEmailPattern s
    hash := fun password salt => salt ++ ":" ++ password
    compare := fun entered stored => (":" ++ entered).data.isSuffixOf stored.data
    toLowerCase := jsLower }

def sellerPending : Seller :=
  { _id := "abababababababababababab", firstName := "Pat", lastName := "Orr",
    email := "shop@x.com", mobileNumber := "1234567890", password := "s1:secret1",
    shopName := "Corner Shop", shopAddress := "3 Low St", gstNumber := none,
    role := "seller", isApproved := false, createdAt := 10 }

/-- A buyer registered under the email of the seller `sellerPending`. -/
def buyerSameEmail : Customer :=
  { _id := "cdcdcdcdcdcdcdcdcdcdcdcd", firstName := "Sam", lastName := "Orr",
    email := "shop@x.com", password := "s2:buyerpw", role := "buyer", createdAt := 11 }

def adminRoot : Admin :=
  { _id := "efefefefefefefefefefefef", firstName := "Root", lastName := "Admin",
    email := "root@x.com", password := "s3:rootpw1", role := "superadmin", createdAt := 0 }

def productP : Product :=
  { _id := "121212121212121212121212", name := "Lamp", description := "A desk lamp",
    price := 30, category := "Electronics", seller := "abababababababababababab",
    stock := 5, isAvailable := true, createdAt := 20, updatedAt := 20 }

/-- A store with one buyer and the pending seller. -/
def storePending : Store :=
  { customers := [buyerA], sellers := [sellerPending], products := [], chatRooms := [],
    messages := [] }

/-- The store `storePending` with another password hash on the seller's account. -/
def storePendingOtherHash : Store :=
  { customers := [buyerA], sellers := [{ sellerPending with password := "s9:changed" }],
    products := [], chatRooms := [], messages := [] }

/-- A store in which a buyer and the pending seller hold the same email. -/
def storeSharedEmail : Store :=
  { customers := [buyerSameEmail], sellers := [sellerPending], products := [],
    chatRooms := [], messages := [] }

/-- A store whose only account is an admin. -/
def storeWithAdmin : Store :=
  { customers := [], sellers := [], products := [], chatRooms := [], messages := [],
    admins := [adminRoot] }

/-- A store with the seller approved and owning one product. -/
def storeProducts : Store :=
  { customers := [buyerA], sellers := [{ sellerPending with isApproved := true }],
    products := [productP], chatRooms := [], messages := [] }

def userPending : User := ⟨"abababababababababababab", "seller"⟩

def userSuper : User := ⟨"efefefefefefefefefefefef", "superadmin"⟩

def accountEnv : AccountEnv :=
  { newId := "343434343434343434343434", now := 30, salt := "s4" }

def productEnv : Env := { newId := "565656565656565656565656", now := 40 }

/-- A token check for the examples: `admin`, `super` and `seller` carry the users of
those roles, and every other token fails. -/
def staffVerify (t : String) : JwtResult :=
  if t = "admin" then .decoded (some userAdmin)
  else if t = "super" then .decoded (some userSuper)
  else if t = "seller" then .decoded (some userPending)
  else .invalid

def lampBody : ProductBody :=
  { name := some "Lamp", description := some "A desk lamp", price := some "29.5",
    category := some "Electronics", stock := some "5", imageUrl := none }

/-- A body of `PUT /products/:id` with no key. -/
def emptyPatch : ProductPatch :=
  { name := none, description := none, price := none, category := none, stock := none,
    isAvailable := none, seller := none, createdAt := none, updatedAt := none,
    otherKeys := [] }

/-! ## `GET /products/:id` and `DELETE /products/:id` (`routes/productRoutes.js`) -/

/-- The population `populate('seller', 'shopName email mobileNumber')` of one product:
the seller stored under the product's `seller` id, cut to the selected paths, or
`null` when there is none. -/
def populateSeller (σ : Store) (p : Product) : Option SellerSummary :=
  (σ.sellers.find? (fun s => s._id = p.seller)).map
    (fun s => { _id := s._id, shopName := s.shopName, email := s.email,
                mobileNumber := s.mobileNumber })

/-- The `try` block of `GET /products/:id`. -/
def getProductTry (σ : Store) (id : String) : Except StoreError Response :=
  match findProductById σ id with
  | .error e => .error e
  | .ok none => .ok ⟨404, .message msgProductNotFound⟩
  | .ok (some product) => .ok ⟨200, .productDetail product (populateSeller σ product)⟩

/-- The handler of `GET /products/:id`, with its `catch` block; the route has no
middleware before it. -/
def getProduct (σ : Store) (id : String) : Response :=
  match getProductTry σ id with
  | .ok r => r
  | .error .cast => ⟨400, .message "Invalid Product ID"⟩
  | .error _ => ⟨500, .text "Server error when fetching product"⟩

def msgNotYourProductToDelete : String :=
  "Forbidden: You are not authorized to delete this product."

/-- The removal of `product.deleteOne()`: a `deleteOne` by `_id`. -/
def removeProduct (σ : Store) (product : Product) : Store :=
  { σ with products := σ.products.eraseP (fun x => x._id = product._id) }

/-- The `try` block of `DELETE /products/:id`. -/
def deleteProductTry (σ : Store) (u : User) (id : String) :
    Except StoreError (Response × Store) :=
  match findProductById σ id with
  | .error e => .error e
  | .ok none => .ok (⟨404, .message msgProductNotFound⟩, σ)
  | .ok (some product) =>
    if u.role ≠ "admin" ∧ product.seller ≠ u.id then
      .ok (⟨403, .message msgNotYourProductToDelete⟩, σ)
    else .ok (⟨200, .message "Product deleted successfully"⟩, removeProduct σ product)

/-- The handler of `DELETE /products/:id`, with its `catch` block. -/
def deleteProduct (σ : Store) (u : User) (id : String) : Response × Store :=
  match deleteProductTry σ u id with
  | .ok out => out
  | .error .cast => (⟨400, .message "Invalid Product ID"⟩, σ)
  | .error _ => (⟨500, .text "Server error when deleting product"⟩, σ)

/-- The route `DELETE /products/:id` on a request that has passed `protect`. -/
def deleteProductRoute (σ : Store) (req : Request) (id : String) : Response × Store :=
  match authorize (.arr ["seller", "admin"]) req with
  | .respond r => (r, σ)
  | .next u => deleteProduct σ u id

/-- Availability as the stock derives it: `isAvailable = (stock > 0)` on every stored
product. -/
def AvailabilityFollowsStock (σ : Store) : Prop :=
  ∀ p ∈ σ.products, p.isAvailable = p.stock.gt 0

/-! ## Admin management (`routes/adminRoutes.js`) -/

/-- Modelled from the spec: `models/Admin.js` is not among the sources, so the
validators of its schema, which `save()` runs on a loaded admin, are a parameter of the
route that saves one. -/
abbrev AdminSchema := Admin → Bool

/-- The query `Admin.findById(id)`. -/
def findAdminById (σ : Store) (id : String) : Except StoreError (Option Admin) :=
  match castObjectId id with
  | none => .error .cast
  | some oid => .ok (σ.admins.find? (fun a => a._id = oid))

/-- The validator `isIn(['admin', 'superadmin'])` of the body field `role`, an absent
field being validated as the empty string. -/
def changeRoleValidation (role : Option String) : List String :=
  if role.getD "" = "admin" ∨ role.getD "" = "superadmin" then []
  else ["New role is required and must be \"admin\" or \"superadmin\""]

/-- The update of `adminToUpdate.save()` after `adminToUpdate.role = role`: the loaded
document is validated, then an `updateOne` by `_id` writes the path `role`. -/
def saveAdminRole (valid : AdminSchema) (σ : Store) (admin : Admin) (role : String) :
    Except StoreError Store :=
  if ¬ valid { admin with role := role } then .error .validation
  else
    let admins := updateFirst (fun a => a._id = admin._id)
      (fun a => { a with role := role }) σ.admins
    .ok { σ with admins := admins }

def msgAdminNotFound : String := "Admin user not found"

def msgNoSelfDemotion : String :=
  "Super Admin cannot demote themselves. Ask another Super Admin."

def msgNoSelfDeletion : String :=
  "Super Admin cannot delete themselves. Ask another Super Admin."

def msgLastSuperAdmin : String :=
  "Cannot delete the last Super Admin. Create another Super Admin first."

/-- The `try` block of `PUT /admin-management/:id/change-role`. -/
def changeRoleTry (valid : AdminSchema) (σ : Store) (u : User) (id : String)
    (role : String) : Except StoreError (Response × Store) :=
  match findAdminById σ id with
  | .error e => .error e
  | .ok none => .ok (⟨404, .message msgAdminNotFound⟩, σ)
  | .ok (some adminToUpdate) =>
    if adminToUpdate._id = u.id ∧ role = "admin" then
      .ok (⟨400, .message msgNoSelfDemotion⟩, σ)
    else
      match saveAdminRole valid σ adminToUpdate role with
      | .error e => .error e
      | .ok σ' =>
        .ok (⟨200, .adminDoc ("Admin " ++ adminToUpdate.email ++ " role updated to " ++ role)
          { adminToUpdate with role := role }⟩, σ')

/-- The `catch` block shared by the two routes of admin management that take an id. -/
def adminManagementCatch (σ : Store) :
    Except StoreError (Response × Store) → Response × Store
  | .ok out => out
  | .error .cast => (⟨400, .message "Invalid Admin ID"⟩, σ)
  | .error _ => (⟨500, .text "Server error"⟩, σ)

/-- The handler of `PUT /admin-management/:id/change-role`; `role` is the body field. -/
def changeRole (valid : AdminSchema) (σ : Store) (u : User) (id : String)
    (role : Option String) : Response × Store :=
  if changeRoleValidation role ≠ [] then
    (⟨400, .validation "Validation errors" (changeRoleValidation role)⟩, σ)
  else adminManagementCatch σ (changeRoleTry valid σ u id (role.getD ""))

/-- The route `PUT /admin-management/:id/change-role` on a request that has passed
`protect`. -/
def changeRoleRoute (valid : AdminSchema) (σ : Store) (req : Request) (id : String)
    (role : Option String) : Response × Store :=
  match authorize (.str "superadmin") req with
  | .respond r => (r, σ)
  | .next u => changeRole valid σ u id role

/-- The query `Admin.countDocuments({ role: 'superadmin' })`. -/
def superAdminsCount (σ : Store) : Nat :=
  σ.admins.countP (fun a => a.role = "superadmin")

/-- The removal of `adminToDelete.deleteOne()`: a `deleteOne` by `_id`. -/
def removeAdmin (σ : Store) (admin : Admin) : Store :=
  { σ with admins := σ.admins.eraseP (fun a => a._id = admin._id) }

/-- The `try` block of `DELETE /admin-management/:id`. -/
def deleteAdminTry (σ : Store) (u : User) (id : String) :
    Except StoreError (Response × Store) :=
  match findAdminById σ id with
  | .error e => .error e
  | .ok none => .ok (⟨404, .message msgAdminNotFound⟩, σ)
  | .ok (some adminToDelete) =>
    if adminToDelete._id = u.id then .ok (⟨400, .message msgNoSelfDeletion⟩, σ)
    else if adminToDelete.role = "superadmin" ∧ superAdminsCount σ ≤ 1 then
      .ok (⟨400, .message msgLastSuperAdmin⟩, σ)
    else
      .ok (⟨200, .message ("Admin user " ++ adminToDelete.email ++ " deleted successfully")⟩,
        removeAdmin σ adminToDelete)

/-- The handler of `DELETE /admin-management/:id`. -/
def deleteAdmin (σ : Store) (u : User) (id : String) : Response × Store :=
  adminManagementCatch σ (deleteAdminTry σ u id)

/-- The route `DELETE /admin-management/:id` on a request that has passed `protect`. -/
def deleteAdminRoute (σ : Store) (req : Request) (id : String) : Response × Store :=
  match authorize (.str "superadmin") req with
  | .respond r => (r, σ)
  | .next u => deleteAdmin σ u id

/-- A request of admin management that changes the collection: a change of role or a
deletion, with the path parameter `id`. -/
inductive AdminRequest where
  | changeRole (id : String) (role : Option String)
  | delete (id : String)
deriving DecidableEq, Repr

/-- One request of admin management, on a request that has passed `protect`. -/
def adminStep (valid : AdminSchema) (σ : Store) (req : Request) :
    AdminRequest → Response × Store
  | .changeRole id role => changeRoleRoute valid σ req id role
  | .delete id => deleteAdminRoute σ req id

/-- The collection holds a superadmin. -/
def HasSuperAdmin (σ : Store) : Prop := ∃ a ∈ σ.admins, a.role = "superadmin"
/-! ## `POST /recommendations/product` (`routes/recommendationRoutes.js`) -/

/-- The property names the handler reads of the upstream result. -/
inductive Field where
  | candidates
  | content
  | parts
  | text
deriving DecidableEq, Repr

/-- The name of a property as it is written in the source. -/
def Field.key : Field → String
  | .candidates => "candidates"
  | .content => "content"
  | .parts => "parts"
  | .text => "text"

/-- The property read `value.candidates`, `.content`, `.parts` or `.text`: `none` is
`undefined`.  Reading a property of `null` or `undefined` throws a `TypeError`; an
object answers with its own property of that name; an array, a string, a number and a
boolean have no property of these names. -/
def Json.field : Option Json → Field → Except Unit (Option Json)
  | none, _ => .error ()
  | some .null, _ => .error ()
  | some (.obj fields), f => .ok (fields.lookup f.key)
  | some _, _ => .ok none

/-- The property read `value.length` of a value that is not `null` or `undefined`: the
number of elements of an array, the number of UTF-16 code units of a string, the own
property `length` of an object, and `undefined` for a number or a boolean. -/
def Json.lengthOf : Option Json → Except Unit (Option Json)
  | none => .error ()
  | some .null => .error ()
  | some (.arr items) => .ok (some (.num items.length))
  | some (.str s) => .ok (some (.num (utf16Length s)))
  | some (.obj fields) => .ok (fields.lookup "length")
  | some _ => .ok none

/-- The property read `value[0]` of a value that is not `null` or `undefined`: the first
element of an array, the own property `0` of an object, and the first code unit of a
string, as a string (given here by the first character: for a character outside the
basic plane the unit is its leading half, and the handler reads only properties of the
result, of which a string has none). -/
def Json.first : Option Json → Except Unit (Option Json)
  | none => .error ()
  | some .null => .error ()
  | some (.arr items) => .ok items.head?
  | some (.str s) => .ok (s.data.head?.map (fun c => .str (String.singleton c)))
  | some (.obj fields) => .ok (fields.lookup "0")
  | some _ => .ok none

/-- The truthiness of a value, as `&&` tests it. -/
def Json.truthy : Option Json → Bool
  | none => false
  | some .null => false
  | some (.bool b) => b
  | some (.num q) => q ≠ 0
  | some (.str s) => s ≠ ""
  | some (.arr _) => true
  | some (.obj _) => true

/-- The comparison `value > 0`.  `undefined` converts to `NaN`, `null` to 0, a boolean
to 0 or 1; for a string, an array or an object the conversion goes through the
engine's `ToPrimitive` and `ToNumber` (and throws for an object whose `toString` and
`valueOf` are not functions), which is the parameter `coerce`. -/
def Json.greaterThanZero (coerce : Json → Except Unit Bool) :
    Option Json → Except Unit Bool
  | none => .ok false
  | some .null => .ok false
  | some (.bool b) => .ok b
  | some (.num q) => .ok (decide (0 < q))
  | some v => coerce v

/-- The test `value && value.length > 0`. -/
def Json.nonEmpty (coerce : Json → Except Unit Bool) (v : Option Json) :
    Except Unit Bool :=
  if Json.truthy v then
    match Json.lengthOf v with
    | .error e => .error e
    | .ok n => Json.greaterThanZero coerce n
  else .ok false

/-- The condition of the `if` on the upstream result: `geminiResult.candidates &&
geminiResult.candidates.length > 0 && geminiResult.candidates[0].content &&
geminiResult.candidates[0].content.parts &&
geminiResult.candidates[0].content.parts.length > 0`, evaluated left to right. -/
def hasExpectedContent (coerce : Json → Except Unit Bool) (geminiResult : Json) :
    Except Unit Bool :=
  match Json.field (some geminiResult) .candidates with
  | .error e => .error e
  | .ok candidates =>
    match Json.nonEmpty coerce candidates with
    | .error e => .error e
    | .ok false => .ok false
    | .ok true =>
      match Json.first candidates with
      | .error e => .error e
      | .ok candidate =>
        match Json.field candidate .content with
        | .error e => .error e
        | .ok content =>
          if Json.truthy content then
            match Json.field content .parts with
            | .error e => .error e
            | .ok parts => Json.nonEmpty coerce parts
          else .ok false

/-- The expression `geminiResult.candidates[0].content.parts[0].text`. -/
def recommendationText (geminiResult : Json) : Except Unit (Option Json) :=
  match Json.field (some geminiResult) .candidates with
  | .error e => .error e
  | .ok candidates =>
    match Json.first candidates with
    | .error e => .error e
    | .ok candidate =>
      match Json.field candidate .content with
      | .error e => .error e
      | .ok content =>
        match Json.field content .parts with
        | .error e => .error e
        | .ok parts =>
          match Json.first parts with
          | .error e => .error e
          | .ok part => Json.field part .text

/-- What the two awaited upstream calls, `fetch(...)` and `geminiResponse.json()`,
come to: one of them throws, or the second returns the parsed body. -/
inductive Upstream where
  | failed
  | result (r : Json)
deriving DecidableEq, Repr

def promptIndent : String := "                "

/-- The template literal `prompt`. -/
def recommendationPrompt (productName formattedDate : String) : String :=
  "Provide a concise and helpful buying recommendation for the product: \"" ++ productName ++
  "\". Include typical uses, key features to look for, and a general opinion on whether " ++
  "it\x27s a good time to buy or if there are alternatives.Today\x27s date is " ++
  formattedDate ++ ". \n" ++
  promptIndent ++ "I want to buy a " ++ productName ++ ". Should I buy it now or wait?\n" ++
  promptIndent ++ "- If it\x27s the right time to buy, reply with: \x27Buy now\x27 and 1-2 " ++
  "reasons (e.g., demand, price drop, or seasonal factors).\n" ++
  promptIndent ++ "- If waiting is better, reply with: \x27Wait X months\x27 and 1-2 reasons " ++
  "(e.g., upcoming discounts, new models, or festival offers).\n" ++
  promptIndent ++ "- Your recommendation must be based on real-world timing (festivals, " ++
  "seasons, or sales events).\n" ++
  promptIndent ++ "- Example: \x27Wait x months. Holi sales are in March, offering discounts " ++
  "on electronics.\x27 Keep it under 100 words.\n" ++
  promptIndent ++ "Dont tell everytime to wait , sometimes it may be the best time to buy " ++
  "product, so tell me to buy the product now if " ++ formattedDate ++
  " is the best time to buy " ++ productName ++ "\n" ++
  promptIndent ++ "- Example: \x27Don\x27t wait more it\x27s the best time to buy " ++
  productName ++ ", the price may increase in x months\x27 Keep it under 100 words.\n" ++
  promptIndent

def msgServiceUnavailable : String := "Service temporarily unavailable. Please try again."

def msgNoRecommendation : String := "Could not get a recommendation from AI at this time."

def msgUpstreamFailed : String :=
  "Failed to fetch AI recommendation due to server or API error."

/-- The statements of the `try` block after the upstream result has arrived. -/
def relayRecommendation (coerce : Json → Except Unit Bool) (geminiResult : Json) :
    Except Unit Response :=
  match hasExpectedContent coerce geminiResult with
  | .error e => .error e
  | .ok true =>
    match recommendationText geminiResult with
    | .error e => .error e
    | .ok recommendationText => .ok ⟨200, .recommendation recommendationText⟩
  | .ok false => .ok ⟨500, .message msgNoRecommendation⟩

/-- The handler of `POST /recommendations/product`.  `fetch` is the module variable the
dynamic import fills in, `none` until then, as the function from the prompt posted to
what comes back; `formattedDate` is the day of `new Date()`.  The second component
lists the prompts posted upstream. -/
def recommendProduct (coerce : Json → Except Unit Bool)
    (fetch : Option (String → Upstream)) (formattedDate : String)
    (productName : Option String) : Response × List String :=
  if ¬ notEmpty productName then
    (⟨400, .validation "Validation errors" ["Product name is required"]⟩, [])
  else
    match fetch with
    | none => (⟨503, .message msgServiceUnavailable⟩, [])
    | some post =>
      let prompt := recommendationPrompt (productName.getD "") formattedDate
      match post prompt with
      | .failed => (⟨500, .message msgUpstreamFailed⟩, [prompt])
      | .result geminiResult =>
        match relayRecommendation coerce geminiResult with
        | .ok r => (r, [prompt])
        | .error _ => (⟨500, .message msgUpstreamFailed⟩, [prompt])

/-- The route `POST /recommendations/product` on a request that has passed `protect`. -/
def recommendProductRoute (coerce : Json → Except Unit Bool)
    (fetch : Option (String → Upstream)) (formattedDate : String) (req : Request)
    (productName : Option String) : Response × List String :=
  match authorize (.arr ["buyer"]) req with
  | .respond r => (r, [])
  | .next _ => recommendProduct coerce fetch formattedDate productName

/-- The first part of the first candidate of an upstream result that has a non-empty
list `candidates` whose first element has a `content` with a non-empty list `parts`. -/
def firstPart : Json → Option Json
  | .obj fields =>
    match fields.lookup "candidates" with
    | some (.arr (.obj candidate :: _)) =>
      match candidate.lookup "content" with
      | some (.obj content) =>
        match content.lookup "parts" with
        | some (.arr (part :: _)) => some part
        | _ => none
      | _ => none
    | _ => none
  | _ => none

/-- The `text` of a part: its property of that name, when the part is an object. -/
def partText : Json → Option Json
  | .obj fields => fields.lookup "text"
  | _ => none

/-- The value under `candidates`, when the result is an object that has one. -/
def candidatesOf : Json → Option Json
  | .obj fields => fields.lookup "candidates"
  | _ => none

/-- The value under `content.parts` of the first candidate, when `candidates` is a
list whose first element is an object with a `content` that is an object with
`parts`. -/
def partsOf (r : Json) : Option Json :=
  match candidatesOf r with
  | some (.arr (.obj candidate :: _)) =>
    match candidate.lookup "content" with
    | some (.obj content) => content.lookup "parts"
    | _ => none
  | _ => none

/-- The typing of an upstream result under which the handler's test is the test for
the expected shape: `candidates`, where present, is a list or a primitive value (not an
object), and the first candidate's `parts`, where present, is a list whose first
element is not `null`, or a number, a boolean or `null`. -/
def WellTyped (r : Json) : Prop :=
  (∀ fields, candidatesOf r ≠ some (.obj fields)) ∧
  (∀ fields, partsOf r ≠ some (.obj fields)) ∧
  (∀ s, partsOf r ≠ some (.str s)) ∧
  (∀ rest, partsOf r ≠ some (.arr (.null :: rest)))
/-! ## The buyer dashboard: chat rooms (`BUYER DASHBOARD/buyer-dashboard.js`) -/

/-- An event the dashboard emits on its socket. -/
inductive SocketEvent where
  | joinChat (chatId : String)
  | leaveChat (chatId : String)
deriving DecidableEq, Repr

/-- The chat state of the dashboard: the variable `activeChatId` (`none` is `null`), the
rooms joined and not yet left on the socket, and the events emitted so far, oldest
first. -/
structure ChatClient where
  activeChatId : Option String
  joined : List String
  emitted : List SocketEvent
deriving DecidableEq, Repr

/-- The variable `socket`: `none` is `null`, and `some c` is a socket whose property
`connected` is `c`. -/
abbrev Socket := Option Bool

/-- The truthiness of a variable that holds `null` or a string. -/
def truthyId : Option String → Bool
  | none => false
  | some s => s ≠ ""

/-- Modelled from the spec: the socket server is not among the sources.  A `joinChat`
that reaches it subscribes the socket to the room, a `leaveChat` unsubscribes it. -/
def applyEvent (e : SocketEvent) (joined : List String) : List String :=
  match e with
  | .joinChat chatId => if chatId ∈ joined then joined else joined ++ [chatId]
  | .leaveChat chatId => joined.filter (fun r => r ≠ chatId)

/-- The call `socket.emit(event, chatId)` on a socket that is not `null`: the event is
recorded, and takes effect on the rooms of a connected socket. -/
def emit (connected : Bool) (e : SocketEvent) (c : ChatClient) : ChatClient :=
  { c with emitted := c.emitted ++ [e],
           joined := if connected then applyEvent e c.joined else c.joined }

/-- The head of `showSection(targetId)`, the only part of the function that touches the
chat state: `if (activeChatId && socket) { socket.emit("leaveChat", activeChatId);
activeChatId = null; }`. -/
def showSection (socket : Socket) (_targetId : String) (c : ChatClient) : ChatClient :=
  match c.activeChatId, socket with
  | some active, some connected =>
    if truthyId (some active) then
      { emit connected (.leaveChat active) c with activeChatId := none }
    else c
  | _, _ => c

/-- The function `initiateChat(participantId, productId, participantName)`; `chatId` is
`data.chatId` of the answer to `POST /api/chat/initiate` (`none` when the fetch gave
`null` or the answer has none). -/
def initiateChat (socket : Socket) (chatId : Option String) (c : ChatClient) : ChatClient :=
  match chatId with
  | some id =>
    if truthyId (some id) ∧ socket = some true then emit true (.joinChat id) c else c
  | none => c

/-- The function `loadMessages(chatId)`, up to the first `await`: everything after it
renders messages and calls the mark-read route, and leaves the chat state alone. -/
def loadMessages (socket : Socket) (chatId : Option String) (c : ChatClient) : ChatClient :=
  match chatId with
  | none => { c with activeChatId := none }
  | some id =>
    if ¬ truthyId (some id) then { c with activeChatId := none }
    else
      let left :=
        match c.activeChatId with
        | some active =>
          if truthyId (some active) ∧ active ≠ id ∧ socket = some true then
            emit true (.leaveChat active) c
          else c
        | none => c
      let entered := if socket = some true then emit true (.joinChat id) left else left
      { entered with activeChatId := some id }

/-- A call of one of the three functions. -/
inductive ClientCall where
  | showSection (targetId : String)
  | initiateChat (chatId : Option String)
  | loadMessages (chatId : Option String)
deriving DecidableEq, Repr

/-- One call, on the chat state. -/
def clientStep (socket : Socket) (c : ChatClient) : ClientCall → ChatClient
  | .showSection targetId => showSection socket targetId c
  | .initiateChat chatId => initiateChat socket chatId c
  | .loadMessages chatId => loadMessages socket chatId c

/-- The chat state when the script starts: `activeChatId = null`, no room joined. -/
def clientStart : ChatClient := { activeChatId := none, joined := [], emitted := [] }

/-- The chat state after a sequence of calls from the start. -/
def runClient (socket : Socket) (calls : List ClientCall) : ChatClient :=
  calls.foldl (clientStep socket) clientStart

/-! ## The buyer dashboard: cart and checkout -/

/-- An element of the array `cart`. -/
structure CartItem where
  id : String
  name : String
  price : ℚ
  qty : Int
deriving DecidableEq, Repr

/-- An element of the array stored under `orders`. -/
structure Order where
  items : List CartItem
  fullname : String
  mobile : String
  address : String
  pincode : String
  paymentMethod : Option String
  date : String
deriving DecidableEq, Repr

/-- The entries of `localStorage` the cart and the checkout touch, each by the value its
JSON text parses to (`none` when the key is not set): the keys `quickpickCart`,
`cartItems` and `orders`. -/
structure LocalStorage where
  quickpickCart : Option (List CartItem)
  cartItems : Option (List CartItem)
  orders : Option (List Order)
deriving DecidableEq, Repr

/-- The cart state of the dashboard: the variable `cart` and the storage. -/
structure Dashboard where
  cart : List CartItem
  storage : LocalStorage
deriving DecidableEq, Repr

/-- The function `saveCartToStorage()`: `localStorage.setItem(CART_STORAGE_KEY,
JSON.stringify(cart))` with `CART_STORAGE_KEY = "quickpickCart"`. -/
def saveCartToStorage (d : Dashboard) : Dashboard :=
  { d with storage := { d.storage with quickpickCart := some d.cart } }

/-- The function `loadCartFromStorage()`: `cart = saved ? JSON.parse(saved) : []` for
the text saved under `quickpickCart`. -/
def loadCartFromStorage (d : Dashboard) : Dashboard :=
  { d with cart := d.storage.quickpickCart.getD [] }

/-- The function `addToCartFromData(product)`; `price` is `Number(product.price)`. -/
def addToCartFromData (id name : String) (price : ℚ) (d : Dashboard) : Dashboard :=
  let cart :=
    if d.cart.any (fun i => i.id = id) then
      updateFirst (fun i => i.id = id) (fun i => { i with qty := i.qty + 1 }) d.cart
    else d.cart ++ [{ id := id, name := name, price := price, qty := 1 }]
  saveCartToStorage { d with cart := cart }

/-- The digits, dot and exponent of a `StrDecimalLiteral` without its sign. -/
def isUnsignedDecimal (cs : List Char) : Bool :=
  let mantissa := cs.takeWhile (fun c => c ≠ 'e' && c ≠ 'E')
  let exponent := cs.dropWhile (fun c => c ≠ 'e' && c ≠ 'E')
  (match splitAux '.' mantissa [] with
   | [digits] => !digits.isEmpty && digits.all isDigitChar
   | [whole, frac] =>
     whole.all isDigitChar && frac.all isDigitChar && !(whole.isEmpty && frac.isEmpty)
   | _ => false) &&
  (match exponent with
   | [] => true
   | _ :: power =>
     let digits := match power with
       | c :: rest => if c = '+' || c = '-' then rest else c :: rest
       | [] => []
     !digits.isEmpty && digits.all isDigitChar)

/-- The digits of a literal in base 16, 8 or 2, after its prefix. -/
def isRadixDigits (cs : List Char) : Bool :=
  match cs with
  | '0' :: x :: digits =>
    !digits.isEmpty &&
      (if x = 'x' || x = 'X' then digits.all (fun c => isHexCode c.toNat)
       else if x = 'o' || x = 'O' then digits.all (fun c => 48 ≤ c.toNat && c.toNat ≤ 55)
       else if x = 'b' || x = 'B' then digits.all (fun c => c = '0' || c = '1')
       else false)
  | _ => false

/-- The global `isNaN` on a string: the string converts to `NaN` unless, with the white
space around it removed, it is empty, a signed decimal literal or `Infinity`, or an
unsigned literal in base 16, 8 or 2. -/
def isNaN (s : String) : Bool :=
  let cs := (jsTrim s).data
  let unsigned := match cs with
    | c :: rest => if c = '+' || c = '-' then rest else c :: rest
    | [] => []
  !(cs.isEmpty || unsigned = "Infinity".data || isUnsignedDecimal unsigned ||
    isRadixDigits cs)

/-- The fields the click handler of `placeOrderBtn` reads from the page: the four
inputs as typed, and the id of the checked payment option. -/
structure CheckoutForm where
  fullname : String
  mobile : String
  address : String
  pincode : String
  paymentMethod : Option String
deriving DecidableEq, Repr

/-- The alert the checks of the click handler raise on the trimmed fields, if any. -/
def checkoutAlert (f : CheckoutForm) : Option String :=
  if jsTrim f.fullname = "" ∨ jsTrim f.mobile = "" ∨ jsTrim f.address = "" ∨
      jsTrim f.pincode = "" then
    some "Please fill all address fields."
  else if utf16Length (jsTrim f.mobile) ≠ 10 ∨ isNaN (jsTrim f.mobile) then
    some "Enter a valid 10-digit mobile number."
  else if utf16Length (jsTrim f.pincode) ≠ 6 ∨ isNaN (jsTrim f.pincode) then
    some "Enter a valid 6-digit pincode."
  else none

/-- The order the handler pushes: `items: JSON.parse(localStorage.getItem("cartItems"))
|| []` and the trimmed fields; `date` is `new Date().toLocaleString()`. -/
def orderOf (date : String) (f : CheckoutForm) (storage : LocalStorage) : Order :=
  { items := storage.cartItems.getD [], fullname := jsTrim f.fullname,
    mobile := jsTrim f.mobile, address := jsTrim f.address, pincode := jsTrim f.pincode,
    paymentMethod := f.paymentMethod, date := date }

/-- The page load that `window.location.reload()` starts: the script runs again with
`let cart = []` and `loadCartFromStorage()`, on the storage as it is. -/
def reload (d : Dashboard) : Dashboard :=
  loadCartFromStorage { d with cart := [] }

/-- The click handler of `placeOrderBtn`: on fields that pass the checks it pushes the
order to `orders`, removes the key `cartItems`, sets `cart = []` and reloads the page;
otherwise it raises an alert and returns. -/
def placeOrder (date : String) (f : CheckoutForm) (d : Dashboard) : Dashboard :=
  match checkoutAlert f with
  | some _ => d
  | none =>
    let orders := d.storage.orders.getD [] ++ [orderOf date f d.storage]
    let storage := { d.storage with orders := some orders, cartItems := none }
    reload { cart := [], storage := storage }

/-- The dashboard on a browser whose storage holds none of the three keys, after the
script has loaded. -/
def dashboardStart : Dashboard :=
  reload { cart := [], storage := { quickpickCart := none, cartItems := none, orders := none } }

/-- A second product of the same seller. -/
def productQ : Product :=
  { _id := "787878787878787878787878", name := "Shade", description := "A lamp shade",
    price := 12, category := "Home & Kitchen", seller := "abababababababababababab",
    stock := 0, isAvailable := false, createdAt := 21, updatedAt := 21 }

/-- A store with the approved seller owning two products. -/
def storeTwoProducts : Store :=
  { customers := [buyerA], sellers := [{ sellerPending with isApproved := true }],
    products := [productP, productQ], chatRooms := [], messages := [] }

/-- An admin of rank `admin`, the user of the token `admin` of the examples. -/
def adminStaff : Admin :=
  { _id := "ffffffffffffffffffffffff", firstName := "Sal", lastName := "Staff",
    email := "staff@x.com", password := "s5:staffpw", role := "admin", createdAt := 1 }

/-- A store whose accounts are the superadmin and the admin of the examples. -/
def storeAdmins : Store :=
  { customers := [], sellers := [], products := [], chatRooms := [], messages := [],
    admins := [adminRoot, adminStaff] }

/-- A conversion for the examples, which never consult it: every string, array and
object compares as `NaN`. -/
def coerceNaN : Json → Except Unit Bool := fun _ => .ok false

/-- An upstream result with one candidate, whose content holds `parts`. -/
def resultWith (parts : Json) : Json :=
  .obj [("candidates",
    .arr [.obj [("content", .obj [("parts", parts), ("role", .str "model")]),
                ("finishReason", .str "STOP")]])]

/-- An outbound client that is loaded and answers every prompt with `r`. -/
def fetchAnswering (r : Json) : Option (String → Upstream) := some (fun _ => .result r)

/-- The dashboard after the lamp was added to an empty cart twice. -/
def dashboardTwoLamps : Dashboard :=
  addToCartFromData "121212121212121212121212" "Lamp" 30
    (addToCartFromData "121212121212121212121212" "Lamp" 30 dashboardStart)

/-- Address fields that pass the checks of the checkout. -/
def formFilled : CheckoutForm :=
  { fullname := "Ann Lee", mobile := "9876543210", address := "4 Park Rd",
    pincode := "560001", paymentMethod := some "cod" }

/-! ## The other routes of `adminRoutes.js` and `productRoutes.js` -/

/-- The projection `select('-password')` of a customer. -/
def Customer.view (c : Customer) : CustomerView :=
  { _id := c._id, firstName := c.firstName, lastName := c.lastName, email := c.email,
    role := c.role, createdAt := c.createdAt }

/-- The projection `select('-password')` of a seller. -/
def Seller.view (s : Seller) : SellerView :=
  { _id := s._id, firstName := s.firstName, lastName := s.lastName, email := s.email,
    mobileNumber := s.mobileNumber, shopName := s.shopName, shopAddress := s.shopAddress,
    gstNumber := s.gstNumber, role := s.role, isApproved := s.isApproved,
    createdAt := s.createdAt }

/-- The projection `select('-password')` of an admin. -/
def Admin.view (a : Admin) : AdminView :=
  { _id := a._id, firstName := a.firstName, lastName := a.lastName, email := a.email,
    role := a.role, createdAt := a.createdAt }

/-- The handler of `GET /admin/sellers/pending`. -/
def listPendingSellers (σ : Store) : Response :=
  ⟨200, .sellerList ((σ.sellers.filter (fun s => !s.isApproved)).map Seller.view)⟩

/-- The handler of `GET /admin/sellers`. -/
def listSellers (σ : Store) : Response := ⟨200, .sellerList (σ.sellers.map Seller.view)⟩

/-- The handler of `GET /admin/customers`. -/
def listCustomers (σ : Store) : Response :=
  ⟨200, .customerList (σ.customers.map Customer.view)⟩

/-- The handler of `GET /admin/admin-management/all-admins`. -/
def listAdmins (σ : Store) : Response := ⟨200, .adminList (σ.admins.map Admin.view)⟩

/-- The handler of `GET /admin/users/total-count`. -/
def totalUserCount (σ : Store) : Response :=
  ⟨200, .totalUsers (σ.customers.length + σ.sellers.length + σ.admins.length)⟩

/-- The `try` block of `DELETE /admin/users/:id`: `Customer.findByIdAndDelete`, then
`Seller.findByIdAndDelete` if that found nothing. -/
def deleteUserTry (σ : Store) (id : String) : Except StoreError (Response × Store) :=
  match castObjectId id with
  | none => .error .cast
  | some oid =>
    match σ.customers.find? (fun c => c._id = oid) with
    | some c =>
      .ok (⟨200, .message ("User with ID " ++ id ++ " (" ++ c.role ++ ") deleted successfully")⟩,
        { σ with customers := σ.customers.eraseP (fun x => x._id = oid) })
    | none =>
      match σ.sellers.find? (fun s => s._id = oid) with
      | some s =>
        .ok (⟨200,
            .message ("User with ID " ++ id ++ " (" ++ s.role ++ ") deleted successfully")⟩,
          { σ with sellers := σ.sellers.eraseP (fun x => x._id = oid) })
      | none => .ok (⟨404, .message "User not found"⟩, σ)

/-- The handler of `DELETE /admin/users/:id`, with its `catch` block. -/
def deleteUser (σ : Store) (id : String) : Response × Store :=
  match deleteUserTry σ id with
  | .ok out => out
  | .error .cast => (⟨400, .message "Invalid User ID"⟩, σ)
  | .error _ => (⟨500, .text "Server error"⟩, σ)

/-- The validators of `POST /admin/register`, in order. -/
def adminRegisterValidation (lib : Lib) (b : RegisterBody) : List String :=
  checkEach (fun s => s ≠ "") "First name is required"
    (fieldInstances b.firstName b.elsewhere "firstName") ++
  checkEach (fun s => s ≠ "") "Last name is required"
    (fieldInstances b.lastName b.elsewhere "lastName") ++
  checkEach lib.isEmail "Please include a valid email"
    (fieldInstances b.email b.elsewhere "email") ++
  checkEach (fun s => 6 ≤ validatorLength s) "Password must be at least 6 characters"
    (fieldInstances b.password b.elsewhere "password")

/-- Modelled from the spec: the document `new Admin({ firstName, lastName, email,
password, role })` under the absent `models/Admin.js`; the email is stored as the
queries cast it. -/
def newAdmin (lib : Lib) (env : AccountEnv) (b : RegisterBody) (role : String) : Admin :=
  { _id := env.newId, firstName := b.firstName.getD "", lastName := b.lastName.getD "",
    email := castEmail lib (b.email.getD ""), password := b.password.getD "", role := role,
    createdAt := env.now }

/-- Modelled from the spec: `save()` of a new admin under the absent `models/Admin.js`.
The validators of the schema run, the password is stored as its salted hash, and the
unique indexes on `_id` and `email` reject a value already present. -/
def insertAdmin (valid : AdminSchema) (lib : Lib) (σ : Store) (env : AccountEnv)
    (a : Admin) : Except AccountError Store :=
  if ¬ valid a then .error .validation
  else if σ.admins.any (fun x => x._id = a._id) then .error (.duplicateKey "_id")
  else if σ.admins.any (fun x => x.email = a.email) then .error (.duplicateKey "email")
  else .ok { σ with admins := σ.admins ++ [{ a with password := lib.hash a.password env.salt }] }

def msgAdminExists : String := "Admin with this email already exists"

/-- The `try` block of `POST /admin/register`. -/
def adminRegisterTry (valid : AdminSchema) (lib : Lib) (σ : Store) (env : AccountEnv)
    (b : RegisterBody) : Except AccountError (Response × Store) :=
  if (findAdminByEmail lib σ (b.email.getD "")).isSome then .ok (⟨400, .message msgAdminExists⟩, σ)
  else
    match insertAdmin valid lib σ env (newAdmin lib env b "admin") with
    | .error e => .error e
    | .ok σ' =>
      .ok (⟨201, .adminRegistered "Admin registered successfully" env.newId
        (castEmail lib (b.email.getD "")) none⟩, σ')

/-- The handler of `POST /admin/register`, with its `catch` block; the route has no
middleware before it. -/
def adminRegister (valid : AdminSchema) (lib : Lib) (σ : Store) (env : AccountEnv)
    (b : RegisterBody) : Response × Store :=
  if adminRegisterValidation lib b ≠ [] then
    (⟨400, .validation "Validation errors" (adminRegisterValidation lib b)⟩, σ)
  else
    match adminRegisterTry valid lib σ env b with
    | .ok out => out
    | .error _ => (⟨500, .text "Server error during admin registration"⟩, σ)

/-- The validators of `POST /admin/admin-management/create-admin`: those of the admin
registration, and `role`, when present, is one of the two ranks. -/
def createAdminValidation (lib : Lib) (b : RegisterBody) (role : Option String) :
    List String :=
  adminRegisterValidation lib b ++
  checkEach (fun r => r = "admin" || r = "superadmin") "Invalid role specified"
    (optionalInstances (fieldInstances role b.elsewhere "role"))

/-- The `try` block of `POST /admin/admin-management/create-admin`; the rank is
`role || 'admin'`. -/
def createAdminTry (valid : AdminSchema) (lib : Lib) (σ : Store) (env : AccountEnv)
    (b : RegisterBody) (role : Option String) : Except AccountError (Response × Store) :=
  if (findAdminByEmail lib σ (b.email.getD "")).isSome then .ok (⟨400, .message msgAdminExists⟩, σ)
  else
    let rank := if role.getD "" = "" then "admin" else role.getD ""
    match insertAdmin valid lib σ env (newAdmin lib env b rank) with
    | .error e => .error e
    | .ok σ' =>
      .ok (⟨201, .adminRegistered ("Admin (" ++ rank ++ ") registered successfully") env.newId
        (castEmail lib (b.email.getD "")) (some rank)⟩, σ')

/-- The handler of `POST /admin/admin-management/create-admin`, with its `catch` block. -/
def createAdmin (valid : AdminSchema) (lib : Lib) (σ : Store) (env : AccountEnv)
    (b : RegisterBody) (role : Option String) : Response × Store :=
  if createAdminValidation lib b role ≠ [] then
    (⟨400, .validation "Validation errors" (createAdminValidation lib b role)⟩, σ)
  else
    match createAdminTry valid lib σ env b role with
    | .ok out => out
    | .error _ => (⟨500, .text "Server error during admin creation"⟩, σ)

/-- The handler of `GET /products`: every product, its seller populated. -/
def listProducts (σ : Store) : Response :=
  ⟨200, .productList (σ.products.map (fun p => (p, populateSeller σ p)))⟩

def msgOwnProductsOnly : String :=
  "Forbidden: You can only view your own products or you are not an admin."

/-- The handler of `GET /products/seller/:sellerId`, with its `catch` block: the query
`Product.find({ seller: requestedSellerId })` casts the id. -/
def listSellerProducts (σ : Store) (u : User) (sellerId : String) : Response :=
  if u.role ≠ "admin" ∧ sellerId ≠ u.id then ⟨403, .message msgOwnProductsOnly⟩
  else
    match castObjectId sellerId with
    | none => ⟨400, .message "Invalid Seller ID"⟩
    | some oid =>
      ⟨200, .productList
        ((σ.products.filter (fun p => p.seller = oid)).map (fun p => (p, populateSeller σ p)))⟩

/-! ## Every route, from the request as it arrives -/

/-- What the routes take from outside the request and the store: the token check, the
library functions, the validators of the admin schema, the engine's conversion, the
outbound client, the generated ids and the clock. -/
structure Deps where
  verify : String → JwtResult
  lib : Lib
  adminValid : AdminSchema
  coerce : Json → Except Unit Bool
  fetch : Option (String → Upstream)
  env : Env
  accountEnv : AccountEnv
  now : Int
  formattedDate : String

/-- A request to one of the routes of the five routers, with its path parameter and
body where the route has them. -/
inductive ApiRequest where
  | register (b : RegisterBody)
  | sellerRegister (b : SellerRegisterBody)
  | login (b : LoginBody)
  | adminRegister (b : RegisterBody)
  | pendingSellers (req : Request)
  | approveSeller (req : Request) (id : String)
  | rejectSeller (req : Request) (id : String)
  | customers (req : Request)
  | deleteUser (req : Request) (id : String)
  | sellers (req : Request)
  | totalCount (req : Request)
  | createAdmin (req : Request) (b : RegisterBody) (role : Option String)
  | allAdmins (req : Request)
  | changeRole (req : Request) (id : String) (role : Option String)
  | deleteAdmin (req : Request) (id : String)
  | createProduct (req : Request) (b : ProductBody)
  | products
  | productDetail (id : String)
  | sellerProducts (req : Request) (sellerId : String)
  | updateProduct (req : Request) (id : String) (b : ProductPatch)
  | deleteProduct (req : Request) (id : String)
  | initiate (req : Request)
  | chatList (req : Request)
  | messages (req : Request)
  | markRead (req : Request)
  | recommend (req : Request) (productName : Option String)
deriving DecidableEq, Repr

/-- The chain `protect, authorize(roles), handler` of a protected route. -/
def guarded (verify : String → JwtResult) (roles : Roles) (req : Request)
    (handler : User → Response) : Response :=
  match protect verify req with
  | .respond r => r
  | .next req' =>
    match authorize roles req' with
    | .respond r => r
    | .next u => handler u

/-- The response of the application to a request, in a store. -/
def respond (d : Deps) (σ : Store) : ApiRequest → Response
  | .register b => (register d.lib σ d.accountEnv b).1
  | .sellerRegister b => (sellerRegister d.lib σ d.accountEnv b).1
  | .login b => login d.lib σ b
  | .adminRegister b => (adminRegister d.adminValid d.lib σ d.accountEnv b).1
  | .pendingSellers req => guarded d.verify (.str "admin") req (fun _ => listPendingSellers σ)
  | .approveSeller req id => guarded d.verify (.str "admin") req (fun _ => (approveSeller σ id).1)
  | .rejectSeller req id => guarded d.verify (.str "admin") req (fun _ => (rejectSeller σ id).1)
  | .customers req => guarded d.verify (.str "admin") req (fun _ => listCustomers σ)
  | .deleteUser req id => guarded d.verify (.str "admin") req (fun _ => (deleteUser σ id).1)
  | .sellers req => guarded d.verify (.str "admin") req (fun _ => listSellers σ)
  | .totalCount req => guarded d.verify (.str "admin") req (fun _ => totalUserCount σ)
  | .createAdmin req b role =>
    guarded d.verify (.str "superadmin") req
      (fun _ => (createAdmin d.adminValid d.lib σ d.accountEnv b role).1)
  | .allAdmins req => guarded d.verify (.str "superadmin") req (fun _ => listAdmins σ)
  | .changeRole req id role =>
    guarded d.verify (.str "superadmin") req (fun u => (changeRole d.adminValid σ u id role).1)
  | .deleteAdmin req id =>
    guarded d.verify (.str "superadmin") req (fun u => (deleteAdmin σ u id).1)
  | .createProduct req b =>
    guarded d.verify (.str "seller") req (fun u => (createProduct σ d.env u b).1)
  | .products => listProducts σ
  | .productDetail id => getProduct σ id
  | .sellerProducts req sellerId =>
    guarded d.verify (.arr ["admin", "seller"]) req (fun u => listSellerProducts σ u sellerId)
  | .updateProduct req id b =>
    guarded d.verify (.arr ["seller", "admin"]) req (fun u => (updateProduct σ d.now u id b).1)
  | .deleteProduct req id =>
    guarded d.verify (.arr ["seller", "admin"]) req (fun u => (deleteProduct σ u id).1)
  | .initiate req => guarded d.verify chatRoles req (fun u => (initiate σ d.env u req).1)
  | .chatList req => guarded d.verify chatRoles req (fun u => list σ u)
  | .messages req => guarded d.verify chatRoles req (fun u => messages σ u req)
  | .markRead req => guarded d.verify chatRoles req (fun u => (markRead σ u req).1)
  | .recommend req productName =>
    guarded d.verify (.arr ["buyer"]) req
      (fun _ => (recommendProduct d.coerce d.fetch d.formattedDate productName).1)

/-- The shape of an answer with a status of 400 or above: a JSON object with a
`message`, or, with status 500, the plain text of a `catch` block. -/
def errorShape (r : Response) : Bool :=
  decide (r.status < 400) ||
  (match r.body with
   | .message _ => true
   | .validation _ _ => true
   | .text _ => decide (r.status = 500)
   | _ => false)

/-! # Theorems -/

/-! ## The auth middleware: `protect` and `authorize` -/

theorem startsWithBearer_ne_empty (h : String) (hs : startsWithBearer h = true) : h ≠ "" := by
  intro he
  rw [he] at hs
  exact absurd hs (by decide)

theorem protect_of_none (verify : String → JwtResult) (req : Request)
    (ha : req.authorization = none) :
    protect verify req = .respond ⟨401, .message msgNoToken⟩ := by
  unfold protect
  rw [ha]

theorem protect_of_other (verify : String → JwtResult) (req : Request) (h : String)
    (ha : req.authorization = some h) (hs : startsWithBearer h = false) :
    protect verify req = .respond ⟨401, .message msgNoToken⟩ := by
  unfold protect
  rw [ha]
  simp [hs]

theorem protect_of_bearer (verify : String → JwtResult) (req : Request) (h : String)
    (ha : req.authorization = some h) (hs : startsWithBearer h = true) :
    protect verify req =
      match jwtVerify verify (bearerToken h) with
      | .decoded u => .next { req with user := u }
      | .expired => .respond ⟨401, .message msgTokenExpired⟩
      | .invalid => .respond ⟨401, .message msgTokenFailed⟩ := by
  unfold protect
  rw [ha]
  simp [hs, startsWithBearer_ne_empty h hs]

/-- C9: `protect` puts every request in exactly one of four classes.  It answers 401
`no token` exactly when there is no `Authorization` header or the header does not
begin with `Bearer`; 401 `token expired` exactly when the header begins with `Bearer`
and verification of its token reports expiry; 401 `token failed` exactly when
verification fails otherwise, which includes a header with no token after `Bearer`;
and it calls `next` (sending nothing) exactly when verification succeeds, the request
passed on being the incoming one with the decoded user attached.  The three messages
are pairwise different. -/
theorem protect_classifies (verify : String → JwtResult) (req : Request) :
    (protect verify req = .respond ⟨401, .message msgNoToken⟩ ↔
      ∀ h, req.authorization = some h → startsWithBearer h = false) ∧
    (protect verify req = .respond ⟨401, .message msgTokenExpired⟩ ↔
      ∃ h, req.authorization = some h ∧ startsWithBearer h = true ∧
        jwtVerify verify (bearerToken h) = .expired) ∧
    (protect verify req = .respond ⟨401, .message msgTokenFailed⟩ ↔
      ∃ h, req.authorization = some h ∧ startsWithBearer h = true ∧
        jwtVerify verify (bearerToken h) = .invalid) ∧
    (∀ req', protect verify req = .next req' ↔
      ∃ h u, req.authorization = some h ∧ startsWithBearer h = true ∧
        jwtVerify verify (bearerToken h) = .decoded u ∧ req' = { req with user := u }) ∧
    (∀ h, req.authorization = some h → startsWithBearer h = true →
      (bearerToken h = none ∨ bearerToken h = some "") →
      protect verify req = .respond ⟨401, .message msgTokenFailed⟩) ∧
    msgTokenExpired ≠ msgNoToken ∧ msgTokenExpired ≠ msgTokenFailed ∧
    msgNoToken ≠ msgTokenFailed := by
  have d1 : msgTokenExpired ≠ msgNoToken := by decide
  have d2 : msgTokenExpired ≠ msgTokenFailed := by decide
  have d3 : msgNoToken ≠ msgTokenFailed := by decide
  refine ⟨?_, ?_, ?_, ?_, ?_, d1, d2, d3⟩
  · cases ha : req.authorization with
    | none => simp [protect_of_none verify req ha]
    | some h =>
      cases hs : startsWithBearer h with
      | false => simp [protect_of_other verify req h ha hs, hs]
      | true =>
        rw [protect_of_bearer verify req h ha hs]
        cases hv : jwtVerify verify (bearerToken h) <;> simp [hs, d1, d3.symm]
  · cases ha : req.authorization with
    | none => simp [protect_of_none verify req ha, d1.symm]
    | some h =>
      cases hs : startsWithBearer h with
      | false => simp [protect_of_other verify req h ha hs, hs, d1.symm]
      | true =>
        rw [protect_of_bearer verify req h ha hs]
        cases hv : jwtVerify verify (bearerToken h) <;> simp [hs, hv, d2.symm]
  · cases ha : req.authorization with
    | none => simp [protect_of_none verify req ha, d3]
    | some h =>
      cases hs : startsWithBearer h with
      | false => simp [protect_of_other verify req h ha hs, hs, d3]
      | true =>
        rw [protect_of_bearer verify req h ha hs]
        cases hv : jwtVerify verify (bearerToken h) <;> simp [hs, hv, d2]
  · intro req'
    cases ha : req.authorization with
    | none => simp [protect_of_none verify req ha]
    | some h =>
      cases hs : startsWithBearer h with
      | false => simp [protect_of_other verify req h ha hs, hs]
      | true =>
        rw [protect_of_bearer verify req h ha hs]
        cases hv : jwtVerify verify (bearerToken h) with
        | decoded u =>
          simp only [hs, hv]
          constructor
          · intro e
            injection e with e
            exact ⟨h, u, rfl, hs, hv, by rw [← ha]; exact e.symm⟩
          · rintro ⟨h2, u2, e1, -, e3, e4⟩
            injection e1 with e1
            subst e1
            rw [hv] at e3
            injection e3 with e3
            subst e3
            rw [e4, ha]
        | expired => simp [hs, hv]
        | invalid => simp [hs, hv]
  · intro h ha hs ht
    rw [protect_of_bearer verify req h ha hs]
    have : jwtVerify verify (bearerToken h) = .invalid := by
      rcases ht with ht | ht <;> rw [ht] <;> simp [jwtVerify]
    rw [this]

/-- At concrete requests: a header that is just `Bearer` is answered `token failed`,
and the header `Bearer good` lets the request through with buyer A attached. -/
theorem protect_classifies_witness :
    protect sampleVerify (requestWithHeader (some "Bearer")) =
      .respond ⟨401, .message msgTokenFailed⟩ ∧
    protect sampleVerify (requestWithHeader (some "Bearer good")) =
      .next { requestWithHeader (some "Bearer good") with user := some userA } :=
  ⟨(protect_classifies sampleVerify (requestWithHeader (some "Bearer"))).2.2.2.2.1
      "Bearer" rfl (by decide) (Or.inl (by decide)),
   ((protect_classifies sampleVerify (requestWithHeader (some "Bearer good"))).2.2.2.1
      _).mpr ⟨"Bearer good", some userA, rfl, by decide, by decide, rfl⟩⟩

/-- C10: for every array of roles `R` and every request, `authorize(R)` calls `next`
if and only if a user is attached and `R` is empty or contains the user's role; in
every other case it answers 403 and does not call `next`.  A role given as a single
string behaves as the one-element array holding it: it lets through exactly the
users whose role equals that string. -/
theorem authorize_next_iff (R : List String) (req : Request) :
    ((∃ u, authorize (.arr R) req = .next u) ↔
      ∃ u, req.user = some u ∧ (R = [] ∨ u.role ∈ R)) ∧
    ((∀ u, authorize (.arr R) req ≠ .next u) →
      authorize (.arr R) req = .respond ⟨403, .message msgForbidden⟩) ∧
    (∀ u, authorize (.arr R) req = .next u → req.user = some u) ∧
    (∀ r : String, authorize (.str r) req = authorize (.arr [r]) req) ∧
    (∀ r : String, (∃ u, authorize (.str r) req = .next u) ↔
      ∃ u, req.user = some u ∧ u.role = r) := by
  refine ⟨?_, ?_, ?_, ?_, ?_⟩
  · unfold authorize
    cases hu : req.user with
    | none => simp
    | some u =>
      cases R with
      | nil => simp [Roles.toArray]
      | cons a t =>
        by_cases hm : u.role = a ∨ u.role ∈ t
        · simp [Roles.toArray, hm]
        · have hm2 : ¬ u.role = a ∧ u.role ∉ t := by
            constructor
            · exact fun h => hm (Or.inl h)
            · exact fun h => hm (Or.inr h)
          simp [Roles.toArray, hm2]
  · intro h
    unfold authorize at h ⊢
    cases hu : req.user with
    | none => rfl
    | some u =>
      rw [hu] at h
      simp only at h ⊢
      split_ifs with hc
      · rfl
      · rw [if_neg hc] at h
        exact absurd rfl (h u)
  · intro u
    unfold authorize
    cases hu : req.user with
    | none => simp
    | some v =>
      simp only
      split_ifs
      · simp
      · intro h
        injection h with h
        rw [h]
  · intro r
    rfl
  · intro r
    unfold authorize
    cases hu : req.user with
    | none => simp
    | some u =>
      by_cases hm : u.role = r
      · simp [Roles.toArray, hm]
      · simp [Roles.toArray, hm]

/-- At a concrete request: an admin is answered 403 by `authorize(['buyer', 'seller'])`. -/
theorem authorize_next_iff_witness :
    (∀ u, authorize (.arr ["buyer", "seller"]) (requestOf userAdmin "" none none) ≠ .next u) ∧
    authorize (.arr ["buyer", "seller"]) (requestOf userAdmin "" none none) =
      .respond ⟨403, .message msgForbidden⟩ :=
  ⟨fun u h => by simp [authorize, requestOf, userAdmin, Roles.toArray] at h,
   (authorize_next_iff ["buyer", "seller"] (requestOf userAdmin "" none none)).2.1
     (fun u h => by simp [authorize, requestOf, userAdmin, Roles.toArray] at h)⟩

/-! ## The chat routes behind `authorize` -/

theorem authorize_chatRoles_reject (req : Request) (u : User) (hu : req.user = some u)
    (hb : u.role ≠ "buyer") (hs : u.role ≠ "seller") :
    authorize chatRoles req = .respond ⟨403, .message msgForbidden⟩ := by
  unfold authorize
  rw [hu]
  simp [chatRoles, Roles.toArray, hb, hs]

theorem authorize_chatRoles_next (req : Request) (u : User)
    (h : authorize chatRoles req = .next u) :
    req.user = some u ∧ (u.role = "buyer" ∨ u.role = "seller") := by
  unfold authorize at h
  cases hu : req.user with
  | none => rw [hu] at h; cases h
  | some v =>
    rw [hu] at h
    simp only [chatRoles, Roles.toArray] at h
    split_ifs at h with hc
    injection h with h
    subst h
    refine ⟨rfl, ?_⟩
    by_contra hn
    apply hc
    constructor
    · simp
    · simpa using hn

theorem authorize_chatRoles_pass (req : Request) (u : User) (hu : req.user = some u)
    (hr : u.role = "buyer" ∨ u.role = "seller") :
    authorize chatRoles req = .next u := by
  unfold authorize
  rw [hu]
  rcases hr with hr | hr <;> simp [chatRoles, Roles.toArray, hr]

theorem initiateTry_cases (σ : Store) (env : Env) (b s : String) (p : Option String) :
    (∃ e, initiateTry σ env b s p = .error e) ∨
    initiateTry σ env b s p =
      .ok (⟨404, .message "One or both participants not found."⟩, σ) ∨
    (∃ oids room c sl, castIds (sortPair b s) = some oids ∧
      σ.chatRooms.find? (fun r => r.participants = oids) = some room ∧
      findCustomerById σ b = .ok (some c) ∧ findSellerById σ s = .ok (some sl) ∧
      initiateTry σ env b s p = .ok (⟨200, chatBody "Existing chat retrieved." room⟩, σ)) ∨
    (∃ oids room c sl, castIds (sortPair b s) = some oids ∧
      σ.chatRooms.find? (fun r => r.participants = oids) = none ∧
      findCustomerById σ b = .ok (some c) ∧ findSellerById σ s = .ok (some sl) ∧
      newChatRoom env (sortPair b s) b s p = .ok room ∧
      initiateTry σ env b s p =
        .ok (⟨201, chatBody "Chat initiated successfully." room⟩,
          { σ with chatRooms := σ.chatRooms ++ [room] })) := by
  unfold initiateTry
  cases hc : findCustomerById σ b with
  | error e => exact Or.inl ⟨e, rfl⟩
  | ok bo =>
    cases hs : findSellerById σ s with
    | error e => exact Or.inl ⟨e, rfl⟩
    | ok so =>
      simp only
      by_cases hn : bo.isNone = true ∨ so.isNone = true
      · rw [if_pos hn]
        exact Or.inr (Or.inl rfl)
      · rw [if_neg hn]
        obtain ⟨c, rfl⟩ : ∃ c, bo = some c := by
          cases bo with
          | none => exact absurd (Or.inl rfl) hn
          | some c => exact ⟨c, rfl⟩
        obtain ⟨sl, rfl⟩ : ∃ sl, so = some sl := by
          cases so with
          | none => exact absurd (Or.inr rfl) hn
          | some sl => exact ⟨sl, rfl⟩
        unfold findRoomByParticipants
        cases hcast : castIds (sortPair b s) with
        | none => exact Or.inl ⟨_, rfl⟩
        | some oids =>
          simp only
          cases hf : σ.chatRooms.find? (fun r => decide (r.participants = oids)) with
          | some room =>
            exact Or.inr (Or.inr (Or.inl ⟨oids, room, c, sl, rfl, hf, rfl, rfl, rfl⟩))
          | none =>
            simp only
            cases hnew : newChatRoom env (sortPair b s) b s p with
            | error e => exact Or.inl ⟨e, rfl⟩
            | ok room =>
              simp only
              unfold insertRoom
              split_ifs with hdup
              · exact Or.inl ⟨_, rfl⟩
              · exact Or.inr (Or.inr (Or.inr ⟨oids, room, c, sl, rfl, hf, rfl, rfl, rfl, rfl⟩))

theorem initiateCatch_body_ne (σ : Store) (env : Env) (b s : String) (p : Option String) :
    (initiateCatch σ (initiateTry σ env b s p)).1.body ≠ .message msgOnlyBuyersAndSellers := by
  rcases initiateTry_cases σ env b s p with ⟨e, h⟩ | h | ⟨_, room, _, _, _, _, _, _, h⟩ |
    ⟨_, room, _, _, _, _, _, _, _, h⟩
  · rw [h]
    cases e <;> simp [initiateCatch, msgOnlyBuyersAndSellers]
  · rw [h]
    simp [initiateCatch, msgOnlyBuyersAndSellers]
  · rw [h]
    simp [initiateCatch, chatBody]
  · rw [h]
    simp [initiateCatch, chatBody]

theorem initiateTryAbsent_cases {α : Type} (σ : Store) (own : Except StoreError (Option α)) :
    (initiateCatch σ (initiateTryAbsent σ own)).2 = σ ∧
    (initiateCatch σ (initiateTryAbsent σ own)).1.body ≠ .message msgOnlyBuyersAndSellers ∧
    (initiateCatch σ (initiateTryAbsent σ own)).1.status ≠ 200 ∧
    (initiateCatch σ (initiateTryAbsent σ own)).1.status ≠ 201 := by
  cases own with
  | error e => cases e <;> simp [initiateTryAbsent, initiateCatch, msgOnlyBuyersAndSellers]
  | ok found => simp [initiateTryAbsent, initiateCatch, msgOnlyBuyersAndSellers]

theorem initiate_body_ne (σ : Store) (env : Env) (u : User) (req : Request)
    (hr : u.role = "buyer" ∨ u.role = "seller") :
    (initiate σ env u req).1.body ≠ .message msgOnlyBuyersAndSellers := by
  unfold initiate
  split_ifs with h1 h2 h3
  · simp
  · cases req.participantId with
    | some x => exact initiateCatch_body_ne σ env _ _ _
    | none => exact (initiateTryAbsent_cases σ _).2.1
  · cases req.participantId with
    | some x => exact initiateCatch_body_ne σ env _ _ _
    | none => exact (initiateTryAbsent_cases σ _).2.1
  · rcases hr with hr | hr
    · exact absurd hr h2
    · exact absurd hr h3

/-- C8: for every authenticated requester whose role is neither `buyer` nor `seller`,
each of the chat routes initiate, list, messages and mark-read answers 403 and leaves
the store as it was.  Consequently the handler of `POST /chat/initiate` runs only for
a buyer or a seller, and the route never sends the answer of its role-dispatch
fallback branch, `Only buyers and sellers can initiate chats`. -/
theorem chat_routes_reject_other_roles (σ : Store) (env : Env) (req : Request) :
    (∀ u, req.user = some u → u.role ≠ "buyer" → u.role ≠ "seller" →
      initiateRoute σ env req = (⟨403, .message msgForbidden⟩, σ) ∧
      listRoute σ req = (⟨403, .message msgForbidden⟩, σ) ∧
      messagesRoute σ req = (⟨403, .message msgForbidden⟩, σ) ∧
      markReadRoute σ req = (⟨403, .message msgForbidden⟩, σ)) ∧
    (∀ u, authorize chatRoles req = .next u → u.role = "buyer" ∨ u.role = "seller") ∧
    (initiateRoute σ env req).1.body ≠ .message msgOnlyBuyersAndSellers := by
  refine ⟨?_, fun u h => (authorize_chatRoles_next req u h).2, ?_⟩
  · intro u hu hb hs
    have h := authorize_chatRoles_reject req u hu hb hs
    simp [initiateRoute, listRoute, messagesRoute, markReadRoute, h]
  · unfold initiateRoute
    cases h : authorize chatRoles req with
    | respond r =>
      have : r = ⟨403, .message msgForbidden⟩ := by
        unfold authorize at h
        cases hu : req.user with
        | none => rw [hu] at h; injection h with h; exact h.symm
        | some v =>
          rw [hu] at h
          simp only at h
          split_ifs at h
          injection h with h
          exact h.symm
      simp [this, msgForbidden, msgOnlyBuyersAndSellers]
    | next u =>
      exact initiate_body_ne σ env u req (authorize_chatRoles_next req u h).2

/-- At a concrete request: an admin asking to initiate a chat or to mark one read is
answered 403 and the store is unchanged. -/
theorem chat_routes_reject_other_roles_witness :
    initiateRoute storeChats envC (requestOf userAdmin "cccccccccccccccccccccccc"
        (some "bbbbbbbbbbbbbbbbbbbbbbbb") none) = (⟨403, .message msgForbidden⟩, storeChats) ∧
    markReadRoute storeChats (requestOf userAdmin "cccccccccccccccccccccccc"
        (some "bbbbbbbbbbbbbbbbbbbbbbbb") none) = (⟨403, .message msgForbidden⟩, storeChats) :=
  let h := (chat_routes_reject_other_roles storeChats envC (requestOf userAdmin
    "cccccccccccccccccccccccc" (some "bbbbbbbbbbbbbbbbbbbbbbbb") none)).1 userAdmin rfl
    (by decide) (by decide)
  ⟨h.1, h.2.2.2⟩

/-! ## Mark-read and message history -/

theorem find?_updateFirst {α : Type} (p : α → Bool) (f : α → α) (hp : ∀ a, p (f a) = p a)
    (l : List α) : (updateFirst p f l).find? p = (l.find? p).map f := by
  induction l with
  | nil => rfl
  | cons a as ih =>
    unfold updateFirst
    by_cases h : p a = true
    · simp [h, hp]
    · simp [h, ih]

theorem findRoomById_id (σ : Store) (chatId : String) (room : ChatRoom)
    (h : findRoomById σ chatId = .ok (some room)) :
    castObjectId chatId = some room._id ∧
      σ.chatRooms.find? (fun r => r._id = room._id) = some room := by
  unfold findRoomById at h
  cases hc : castObjectId chatId with
  | none => rw [hc] at h; cases h
  | some oid =>
    rw [hc] at h
    simp only at h
    injection h with h
    have := List.find?_some h
    simp only [decide_eq_true_eq] at this
    subst this
    exact ⟨rfl, h⟩

theorem setUnreadZero_id (field : String) (room : ChatRoom) :
    (setUnreadZero field room)._id = room._id := by
  unfold setUnreadZero
  split_ifs <;> rfl

theorem findRoomById_saveUnreadZero (σ : Store) (chatId field : String) (room : ChatRoom)
    (h : findRoomById σ chatId = .ok (some room)) :
    findRoomById (saveUnreadZero σ room._id field) chatId =
      .ok (some (setUnreadZero field room)) := by
  obtain ⟨hc, hf⟩ := findRoomById_id σ chatId room h
  unfold findRoomById saveUnreadZero
  rw [hc]
  simp only
  rw [find?_updateFirst _ _ (fun a => by simp [setUnreadZero_id]), hf]
  rfl

/-- C3: for every chat room and every caller who is a participant of it in the role
carried by their token (a buyer who is the room's `buyerId`, or a seller who is its
`sellerId`), `POST /chat/:chatId/mark-read` answers 200, and afterwards the room found
under that id has the caller's own unread counter at 0 and the other participant's
counter, the participants, the roles and the three last-message fields as before.
Nothing is assumed of the caller's counter beforehand, so this covers the case where
it was already 0. -/
theorem markRead_zeroes_own_counter (σ : Store) (req : Request) (u : User) (room : ChatRoom)
    (hu : req.user = some u)
    (hfind : findRoomById σ req.chatId = .ok (some room))
    (hmem : u.id ∈ room.participants)
    (hrole : (u.role = "buyer" ∧ room.participantRoles.buyerId = u.id) ∨
      (u.role = "seller" ∧ room.participantRoles.sellerId = u.id)) :
    (markReadRoute σ req).1.status = 200 ∧
    ∃ room', findRoomById (markReadRoute σ req).2 req.chatId = .ok (some room') ∧
      (u.role = "buyer" →
        room'.buyerUnreadCount = 0 ∧ room'.sellerUnreadCount = room.sellerUnreadCount) ∧
      (u.role = "seller" →
        room'.sellerUnreadCount = 0 ∧ room'.buyerUnreadCount = room.buyerUnreadCount) ∧
      room'.participants = room.participants ∧
      room'.participantRoles = room.participantRoles ∧
      room'.lastMessageText = room.lastMessageText ∧
      room'.lastMessageSenderId = room.lastMessageSenderId ∧
      room'.lastMessageTimestamp = room.lastMessageTimestamp := by
  have hpass : authorize chatRoles req = .next u :=
    authorize_chatRoles_pass req u hu (hrole.imp And.left And.left)
  have hcont : room.participants.contains u.id = true := by simpa using hmem
  unfold markReadRoute
  rw [hpass]
  simp only
  unfold markRead markReadTry
  rw [hfind]
  simp only [hcont, not_true_eq_false, if_false]
  rcases hrole with ⟨hr, hid⟩ | ⟨hr, hid⟩
  · have hns : u.role ≠ "seller" := by rw [hr]; decide
    by_cases hpos : room.buyerUnreadCount > 0
    · have huf : updateField u room = "buyerUnreadCount" := by
        simp [updateField, hr, hid, hpos]
      rw [huf]
      simp only [ne_eq, String.reduceEq, not_false_eq_true, if_true]
      refine ⟨trivial, _, findRoomById_saveUnreadZero σ req.chatId _ room hfind, ?_⟩
      simp [setUnreadZero, hns]
    · have huf : updateField u room = "" := by
        simp [updateField, hr, hid, hpos]
      rw [huf]
      simp only [ne_eq, not_true_eq_false, if_false]
      refine ⟨trivial, room, hfind, ?_⟩
      simp [hns]
      omega
  · have hnb : u.role ≠ "buyer" := by rw [hr]; decide
    by_cases hpos : room.sellerUnreadCount > 0
    · have huf : updateField u room = "sellerUnreadCount" := by
        simp [updateField, hr, hid, hpos]
      rw [huf]
      simp only [ne_eq, String.reduceEq, not_false_eq_true, if_true]
      refine ⟨trivial, _, findRoomById_saveUnreadZero σ req.chatId _ room hfind, ?_⟩
      simp [setUnreadZero, hnb]
    · have huf : updateField u room = "" := by
        simp [updateField, hr, hid, hpos]
      rw [huf]
      simp only [ne_eq, not_true_eq_false, if_false]
      refine ⟨trivial, room, hfind, ?_⟩
      simp [hnb]
      omega

/-- At concrete requests: buyer A marks the room with seller B read, where A's counter
was 2 and B's was 3; and seller D marks the room with buyer A read, where D's counter
was already 0. -/
theorem markRead_zeroes_own_counter_witness :
    ((markReadRoute storeChats (requestOf userA "cccccccccccccccccccccccc" none none)).1.status
      = 200 ∧
    ∃ room', findRoomById
        (markReadRoute storeChats (requestOf userA "cccccccccccccccccccccccc" none none)).2
        "cccccccccccccccccccccccc" = .ok (some room') ∧
      (userA.role = "buyer" →
        room'.buyerUnreadCount = 0 ∧ room'.sellerUnreadCount = roomAB.sellerUnreadCount) ∧
      (userA.role = "seller" →
        room'.sellerUnreadCount = 0 ∧ room'.buyerUnreadCount = roomAB.buyerUnreadCount) ∧
      room'.participants = roomAB.participants ∧
      room'.participantRoles = roomAB.participantRoles ∧
      room'.lastMessageText = roomAB.lastMessageText ∧
      room'.lastMessageSenderId = roomAB.lastMessageSenderId ∧
      room'.lastMessageTimestamp = roomAB.lastMessageTimestamp) ∧
    (markReadRoute storeChats (requestOf userD "eeeeeeeeeeeeeeeeeeeeeeee" none none)).1.status
      = 200 :=
  ⟨markRead_zeroes_own_counter storeChats
    (requestOf userA "cccccccccccccccccccccccc" none none) userA roomAB rfl rfl
    (by decide) (Or.inl ⟨rfl, rfl⟩),
   (markRead_zeroes_own_counter storeChats
    (requestOf userD "eeeeeeeeeeeeeeeeeeeeeeee" none none) userD roomAD rfl rfl
    (by decide) (Or.inr ⟨rfl, rfl⟩)).1⟩

/-- C4 (amended): for a buyer- or seller-role caller, if the `chatId` resolves to a room
of which the caller's id is not a participant, `POST /chat/:chatId/mark-read` and
`GET /chat/messages/:chatId` both answer 403 with a message body (no message of the
room) and leave the store, hence both unread counters, unchanged; if the `chatId` is
a well-formed object id that matches no room, both answer 404; and if the `chatId` is
not a well-formed object id, both answer 400 `Invalid Chat ID`. -/
theorem nonparticipant_forbidden (σ : Store) (req : Request) (u : User)
    (hu : req.user = some u) (hr : u.role = "buyer" ∨ u.role = "seller") :
    (∀ room, findRoomById σ req.chatId = .ok (some room) → u.id ∉ room.participants →
      markReadRoute σ req = (⟨403, .message msgNotParticipant⟩, σ) ∧
      messagesRoute σ req = (⟨403, .message msgNotParticipant⟩, σ)) ∧
    (∀ oid, castObjectId req.chatId = some oid → (∀ r ∈ σ.chatRooms, r._id ≠ oid) →
      markReadRoute σ req = (⟨404, .message msgRoomNotFound⟩, σ) ∧
      messagesRoute σ req = (⟨404, .message msgRoomNotFound⟩, σ)) ∧
    (castObjectId req.chatId = none →
      markReadRoute σ req = (⟨400, .message "Invalid Chat ID"⟩, σ) ∧
      messagesRoute σ req = (⟨400, .message "Invalid Chat ID"⟩, σ)) := by
  have hpass : authorize chatRoles req = .next u := authorize_chatRoles_pass req u hu hr
  refine ⟨?_, ?_, ?_⟩
  · intro room hfind hmem
    simp [markReadRoute, messagesRoute, hpass, markRead, markReadTry, messages, messagesTry,
      hfind, hmem]
  · intro oid hc hall
    have hfind : findRoomById σ req.chatId = .ok none := by
      unfold findRoomById
      rw [hc]
      simp only
      congr 1
      rw [List.find?_eq_none]
      intro r hr
      simpa using hall r hr
    simp [markReadRoute, messagesRoute, hpass, markRead, markReadTry, messages, messagesTry,
      hfind]
  · intro hc
    have hfind : findRoomById σ req.chatId = .error .cast := by
      unfold findRoomById
      rw [hc]
    simp [markReadRoute, messagesRoute, hpass, markRead, markReadTry, messages, messagesTry,
      hfind]

/-- At concrete requests: seller B, who is not in the room of buyer A with seller D, is
answered 403 by both routes and the store is unchanged; an id of 24 digits that no
room has is answered 404; and the id `not-an-id` is answered 400. -/
theorem nonparticipant_forbidden_witness :
    (markReadRoute storeChats (requestOf userB "eeeeeeeeeeeeeeeeeeeeeeee" none none) =
      (⟨403, .message msgNotParticipant⟩, storeChats) ∧
    messagesRoute storeChats (requestOf userB "eeeeeeeeeeeeeeeeeeeeeeee" none none) =
      (⟨403, .message msgNotParticipant⟩, storeChats)) ∧
    (markReadRoute storeChats (requestOf userB "999999999999999999999999" none none) =
      (⟨404, .message msgRoomNotFound⟩, storeChats) ∧
    messagesRoute storeChats (requestOf userB "999999999999999999999999" none none) =
      (⟨404, .message msgRoomNotFound⟩, storeChats)) ∧
    (markReadRoute storeChats (requestOf userB "not-an-id" none none) =
      (⟨400, .message "Invalid Chat ID"⟩, storeChats) ∧
    messagesRoute storeChats (requestOf userB "not-an-id" none none) =
      (⟨400, .message "Invalid Chat ID"⟩, storeChats)) :=
  ⟨(nonparticipant_forbidden storeChats (requestOf userB "eeeeeeeeeeeeeeeeeeeeeeee" none none)
      userB rfl (Or.inr rfl)).1 roomAD rfl (by decide),
   (nonparticipant_forbidden storeChats (requestOf userB "999999999999999999999999" none none)
      userB rfl (Or.inr rfl)).2.1 "999999999999999999999999" (by decide) (by decide),
   (nonparticipant_forbidden storeChats (requestOf userB "not-an-id" none none)
      userB rfl (Or.inr rfl)).2.2 (by decide)⟩

/-- The `chatId` `xyz` matches no room of the store, and both routes answer it with 400
`Invalid Chat ID`, not 404. -/
theorem malformed_chatId_answers_400 :
    (∀ r ∈ storeChats.chatRooms, r._id ≠ "xyz") ∧
    (markReadRoute storeChats (requestOf userA "xyz" none none)).1 =
      ⟨400, .message "Invalid Chat ID"⟩ ∧
    (messagesRoute storeChats (requestOf userA "xyz" none none)).1 =
      ⟨400, .message "Invalid Chat ID"⟩ := by
  decide

theorem sorted_insertionSort_by_key {α : Type} (key : α → Int) (l : List α) :
    (l.insertionSort (fun a b => key a ≤ key b)).Sorted (fun a b => key a ≤ key b) := by
  haveI : IsTotal α (fun a b => key a ≤ key b) := ⟨fun a b => le_total (key a) (key b)⟩
  haveI : IsTrans α (fun a b => key a ≤ key b) := ⟨fun _ _ _ h₁ h₂ => le_trans h₁ h₂⟩
  exact List.sorted_insertionSort _ l

theorem sorted_insertionSort_by_key_desc {α : Type} (key : α → Int) (l : List α) :
    (l.insertionSort (fun a b => key b ≤ key a)).Sorted (fun a b => key b ≤ key a) := by
  haveI : IsTotal α (fun a b => key b ≤ key a) := ⟨fun a b => le_total (key b) (key a)⟩
  haveI : IsTrans α (fun a b => key b ≤ key a) := ⟨fun _ _ _ h₁ h₂ => le_trans h₂ h₁⟩
  exact List.sorted_insertionSort _ l

/-- C5: for every chat room and every participant of it, `GET /chat/messages/:chatId`
answers 200 with a list that is a rearrangement of exactly the stored messages whose
`chatRoom` is that room (none of another room, none missing) and that is in
non-decreasing timestamp order. -/
theorem messages_exact_and_sorted (σ : Store) (req : Request) (u : User) (room : ChatRoom)
    (hu : req.user = some u) (hr : u.role = "buyer" ∨ u.role = "seller")
    (hfind : findRoomById σ req.chatId = .ok (some room))
    (hmem : u.id ∈ room.participants) :
    ∃ ms, messagesRoute σ req = (⟨200, .messages ms⟩, σ) ∧
      ms.Perm (σ.messages.filter (fun m => m.chatRoom = room._id)) ∧
      ms.Sorted (fun a b => a.timestamp ≤ b.timestamp) := by
  have hpass : authorize chatRoles req = .next u := authorize_chatRoles_pass req u hu hr
  obtain ⟨hc, -⟩ := findRoomById_id σ req.chatId room hfind
  refine ⟨(σ.messages.filter (fun m => m.chatRoom = room._id)).insertionSort
    (fun a b => a.timestamp ≤ b.timestamp), ?_, List.perm_insertionSort _ _,
    sorted_insertionSort_by_key (fun m : Message => m.timestamp) _⟩
  simp [messagesRoute, hpass, messages, messagesTry, hfind, hmem, findMessagesOf, hc]

/-- At a concrete request: buyer A fetches the history of the room with seller B. -/
theorem messages_exact_and_sorted_witness :
    ∃ ms, messagesRoute storeChats (requestOf userA "cccccccccccccccccccccccc" none none) =
        (⟨200, .messages ms⟩, storeChats) ∧
      ms.Perm (storeChats.messages.filter (fun m => m.chatRoom = roomAB._id)) ∧
      ms.Sorted (fun a b => a.timestamp ≤ b.timestamp) :=
  messages_exact_and_sorted storeChats (requestOf userA "cccccccccccccccccccccccc" none none)
    userA roomAB rfl (Or.inl rfl) rfl (by decide)

theorem findRoomsOf_ok (σ : Store) (id oid : String) (h : castObjectId id = some oid) :
    findRoomsOf σ id = .ok ((σ.chatRooms.filter (fun r => r.participants.contains oid)).insertionSort
      (fun a b => b.updatedAt ≤ a.updatedAt)) := by
  unfold findRoomsOf
  rw [h]

/-- C6: for every buyer- or seller-role requester (whose id, as a token carries it, is a
well-formed object id), `GET /chat/list` answers 200 with entries that correspond one
to one, in order, to a list of rooms which is a rearrangement of exactly the rooms
whose participants contain the requester and is ordered by `updatedAt` from most to
least recent; each entry carries its room's id and, as `unreadCount`, the room's
`buyerUnreadCount` for a buyer and its `sellerUnreadCount` for a seller. -/
theorem list_entries_exact_sorted (σ : Store) (req : Request) (u : User) (oid : String)
    (hu : req.user = some u) (hr : u.role = "buyer" ∨ u.role = "seller")
    (hid : castObjectId u.id = some oid) :
    ∃ rooms entries, listRoute σ req = (⟨200, .chatList entries⟩, σ) ∧
      rooms.Perm (σ.chatRooms.filter (fun r => oid ∈ r.participants)) ∧
      rooms.Sorted (fun a b => b.updatedAt ≤ a.updatedAt) ∧
      List.Forall₂ (fun r e => e.chatId = r._id ∧
        (u.role = "buyer" → e.unreadCount = r.buyerUnreadCount) ∧
        (u.role = "seller" → e.unreadCount = r.sellerUnreadCount)) rooms entries := by
  have hpass : authorize chatRoles req = .next u := authorize_chatRoles_pass req u hu hr
  refine ⟨(σ.chatRooms.filter (fun r => r.participants.contains oid)).insertionSort
    (fun a b => b.updatedAt ≤ a.updatedAt),
    ((σ.chatRooms.filter (fun r => r.participants.contains oid)).insertionSort
      (fun a b => b.updatedAt ≤ a.updatedAt)).map (listEntry σ u.role), ?_, ?_,
    sorted_insertionSort_by_key_desc (fun r : ChatRoom => r.updatedAt) _, ?_⟩
  · simp only [listRoute, hpass, list, findRoomsOf_ok σ u.id oid hid]
  · have : (fun r : ChatRoom => r.participants.contains oid) =
        (fun r : ChatRoom => decide (oid ∈ r.participants)) := by
      funext r
      simp
    rw [← this]
    exact List.perm_insertionSort _ _
  · rw [List.forall₂_map_right_iff]
    apply List.forall₂_same.mpr
    intro r _
    refine ⟨rfl, ?_, ?_⟩
    · intro hb
      simp [listEntry, hb]
    · intro hs
      have : u.role ≠ "buyer" := by rw [hs]; decide
      simp [listEntry, this]

/-- At a concrete request: buyer A lists their two rooms. -/
theorem list_entries_exact_sorted_witness :
    ∃ rooms entries, listRoute storeChats (requestOf userA "" none none) =
        (⟨200, .chatList entries⟩, storeChats) ∧
      rooms.Perm (storeChats.chatRooms.filter (fun r => userA.id ∈ r.participants)) ∧
      rooms.Sorted (fun a b => b.updatedAt ≤ a.updatedAt) ∧
      List.Forall₂ (fun r e => e.chatId = r._id ∧
        (userA.role = "buyer" → e.unreadCount = r.buyerUnreadCount) ∧
        (userA.role = "seller" → e.unreadCount = r.sellerUnreadCount)) rooms entries :=
  list_entries_exact_sorted storeChats (requestOf userA "" none none) userA userA.id rfl
    (Or.inl rfl) (by decide)

/-! ## Collation and the participants pair -/

theorem lexOrd_swap (a b : List Nat) : lexOrd b a = (lexOrd a b).swap := by
  induction a generalizing b with
  | nil => cases b <;> rfl
  | cons x xs ih =>
    cases b with
    | nil => rfl
    | cons y ys =>
      unfold lexOrd
      rcases Nat.lt_trichotomy x y with h | h | h
      · have h2 : ¬ y < x := by omega
        simp [h, h2, Ordering.swap]
      · subst h
        simp [ih ys]
      · have h2 : ¬ x < y := by omega
        simp [h, h2, Ordering.swap]

theorem lexOrd_eq_iff (a b : List Nat) : lexOrd a b = .eq ↔ a = b := by
  induction a generalizing b with
  | nil => cases b <;> simp [lexOrd]
  | cons x xs ih =>
    cases b with
    | nil => simp [lexOrd]
    | cons y ys =>
      unfold lexOrd
      rcases Nat.lt_trichotomy x y with h | h | h
      · have : x ≠ y := by omega
        simp [h, this]
      · subst h
        simp [ih ys]
      · have h2 : ¬ x < y := by omega
        have : x ≠ y := by omega
        simp [h, h2, this]

theorem lexOrd_self (a : List Nat) : lexOrd a a = .eq := (lexOrd_eq_iff a a).mpr rfl

theorem toNat_ofNat_small (n : Nat) (h : n < 55296) : (Char.ofNat n).toNat = n := by
  have hv : n.isValidChar := Or.inl h
  unfold Char.ofNat
  rw [dif_pos hv]
  simp [Char.toNat, Char.ofNatAux, UInt32.toNat]

theorem toLower_code (c : Char) : (Char.toLower c).toNat = lowerCode c.toNat := by
  unfold Char.toLower lowerCode
  simp only [ge_iff_le]
  split_ifs with h
  · exact toNat_ofNat_small _ (by omega)
  · rfl

theorem lowerCode_idem (n : Nat) : lowerCode (lowerCode n) = lowerCode n := by
  unfold lowerCode
  split_ifs <;> omega

theorem char_toNat_injective : Function.Injective Char.toNat := by
  intro a b h
  have := congrArg Char.ofNat h
  simpa using this

theorem codePoints_injective : Function.Injective codePoints := by
  intro a b h
  unfold codePoints at h
  have := List.map_injective_iff.mpr char_toNat_injective h
  cases a; cases b
  simp_all

/-- The canonical text of an id: its characters in lower case. -/
theorem castObjectId_eq (s t : String) (h : castObjectId s = some t) :
    t = String.mk (s.data.map Char.toLower) ∧ s.data.length = 24 := by
  unfold castObjectId at h
  split_ifs at h with hc
  injection h with h
  exact ⟨h.symm, hc.1⟩

theorem primaryKey_lower (s : String) :
    primaryKey (String.mk (s.data.map Char.toLower)) = primaryKey s := by
  simp [primaryKey, toLower_code, lowerCode_idem]

theorem codePoints_lower (s : String) :
    codePoints (String.mk (s.data.map Char.toLower)) = primaryKey s := by
  simp [primaryKey, codePoints, toLower_code]

theorem localeCompare_neg (a b : String) : localeCompare b a = - localeCompare a b := by
  unfold localeCompare
  rw [lexOrd_swap (primaryKey a) (primaryKey b), lexOrd_swap (codePoints b) (codePoints a)]
  cases lexOrd (primaryKey a) (primaryKey b) <;> simp [Ordering.swap]
  cases lexOrd (codePoints b) (codePoints a) <;> simp [Ordering.swap]

theorem localeCompare_eq_zero (a b : String) (h : localeCompare a b = 0) : a = b := by
  unfold localeCompare at h
  cases h1 : lexOrd (primaryKey a) (primaryKey b) <;> rw [h1] at h <;> simp at h
  cases h2 : lexOrd (codePoints b) (codePoints a) <;> rw [h2] at h <;> simp at h
  exact (codePoints_injective ((lexOrd_eq_iff _ _).mp h2)).symm

theorem localeCompare_antisymm (a b : String) (h1 : localeCompare a b ≤ 0)
    (h2 : localeCompare b a ≤ 0) : a = b := by
  rw [localeCompare_neg a b] at h2
  exact localeCompare_eq_zero a b (by omega)

theorem localeCompare_lower (a b : String) (h : localeCompare a b ≤ 0) :
    localeCompare (String.mk (a.data.map Char.toLower)) (String.mk (b.data.map Char.toLower))
      ≤ 0 := by
  unfold localeCompare at h ⊢
  rw [primaryKey_lower, primaryKey_lower, codePoints_lower, codePoints_lower]
  cases h1 : lexOrd (primaryKey a) (primaryKey b)
  · simp
  · have : primaryKey b = primaryKey a := ((lexOrd_eq_iff _ _).mp h1).symm
    simp [this, lexOrd_self]
  · rw [h1] at h
    simp at h

theorem sortPair_spec (a b : String) :
    ∃ p q, sortPair a b = [p, q] ∧ localeCompare p q ≤ 0 := by
  unfold sortPair
  split_ifs with h
  · refine ⟨b, a, rfl, ?_⟩
    rw [localeCompare_neg a b]
    omega
  · exact ⟨a, b, rfl, by omega⟩

theorem castIds_pair (p q : String) (oids : List String) (h : castIds [p, q] = some oids) :
    ∃ p' q', oids = [p', q'] ∧ castObjectId p = some p' ∧ castObjectId q = some q' := by
  simp only [castIds] at h
  cases hp : castObjectId p with
  | none => rw [hp] at h; simp at h
  | some p' =>
    cases hq : castObjectId q with
    | none => rw [hp, hq] at h; simp at h
    | some q' =>
      rw [hp, hq] at h
      simp at h
      exact ⟨p', q', h.symm, rfl, rfl⟩

theorem pairInOrder_castIds_sortPair (a b : String) (oids : List String)
    (h : castIds (sortPair a b) = some oids) : PairInOrder oids := by
  obtain ⟨p, q, hs, hle⟩ := sortPair_spec a b
  rw [hs] at h
  obtain ⟨p', q', rfl, hp, hq⟩ := castIds_pair p q oids h
  rw [(castObjectId_eq p p' hp).1, (castObjectId_eq q q' hq).1]
  exact localeCompare_lower p q hle

theorem pairInOrder_perm_eq (l₁ l₂ : List String) (h₁ : PairInOrder l₁) (h₂ : PairInOrder l₂)
    (hp : l₁.Perm l₂) : l₁ = l₂ := by
  match l₁, l₂, h₁, h₂ with
  | [x, y], [p, q], h₁, h₂ =>
    simp only [PairInOrder] at h₁ h₂
    have hx : x ∈ [p, q] := hp.subset (by simp)
    simp only [List.mem_cons, List.mem_singleton, List.not_mem_nil, or_false] at hx
    rcases hx with rfl | rfl
    · have := List.perm_singleton.mp ((List.perm_cons x).mp hp)
      simp_all
    · have hp2 : [x, y].Perm [x, p] := hp.trans (List.Perm.swap _ _ _)
      have hy : y = p := by
        have := List.perm_singleton.mp ((List.perm_cons x).mp hp2)
        simp_all
      subst hy
      have := localeCompare_antisymm _ _ h₁ h₂
      simp [this]

theorem newChatRoom_participants (env : Env) (ps : List String) (b s : String)
    (p : Option String) (room : ChatRoom) (h : newChatRoom env ps b s p = .ok room) :
    castIds ps = some room.participants := by
  unfold newChatRoom at h
  cases hc : castIds ps with
  | none => rw [hc] at h; simp at h
  | some oids =>
    rw [hc] at h
    cases hb : castObjectId b with
    | none => rw [hb] at h; simp at h
    | some b' =>
      cases hs : castObjectId s with
      | none => rw [hb, hs] at h; simp at h
      | some s' =>
        rw [hb, hs] at h
        simp only at h
        cases hp : castProductId p with
        | error e => rw [hp] at h; simp at h
        | ok pid =>
          rw [hp] at h
          simp only at h
          injection h with h
          rw [← h]
          rfl

/-- What a request to `POST /initiate` can do to the store: nothing, or append one
room whose participants pair was looked up and not found. -/
theorem initiateRoute_store (σ : Store) (env : Env) (req : Request) :
    (initiateRoute σ env req).2 = σ ∨
    ∃ x y room, castIds (sortPair x y) = some room.participants ∧
      σ.chatRooms.find? (fun r => r.participants = room.participants) = none ∧
      (initiateRoute σ env req).2 = { σ with chatRooms := σ.chatRooms ++ [room] } := by
  have key : ∀ b s p, (initiateCatch σ (initiateTry σ env b s p)).2 = σ ∨
      ∃ x y room, castIds (sortPair x y) = some room.participants ∧
        σ.chatRooms.find? (fun r => r.participants = room.participants) = none ∧
        (initiateCatch σ (initiateTry σ env b s p)).2 =
          { σ with chatRooms := σ.chatRooms ++ [room] } := by
    intro b s p
    rcases initiateTry_cases σ env b s p with ⟨e, h⟩ | h | ⟨_, room, _, _, _, _, _, _, h⟩ |
      ⟨oids, room, _, _, hc, hf, _, _, hn, h⟩
    · rw [h]
      cases e <;> exact Or.inl rfl
    · rw [h]
      exact Or.inl rfl
    · rw [h]
      exact Or.inl rfl
    · rw [h]
      have hp := newChatRoom_participants env _ b s p room hn
      rw [hc] at hp
      injection hp with hp
      subst hp
      exact Or.inr ⟨b, s, room, hc, hf, rfl⟩
  unfold initiateRoute
  cases authorize chatRoles req with
  | respond r => exact Or.inl rfl
  | next u =>
    simp only
    unfold initiate
    split_ifs
    · exact Or.inl rfl
    · cases req.participantId with
      | some x => exact key _ _ _
      | none => exact Or.inl (initiateTryAbsent_cases σ _).1
    · cases req.participantId with
      | some x => exact key _ _ _
      | none => exact Or.inl (initiateTryAbsent_cases σ _).1
    · exact Or.inl rfl

/-- C2: the invariant of the chat-room collection is kept by every request to
`POST /chat/initiate`, whatever its outcome: if before the request every room's
participants pair is stored in sorted order and no two rooms hold the same unordered
pair, then the same holds of the collection after the request. -/
theorem initiate_preserves_rooms_invariant (σ : Store) (env : Env) (req : Request)
    (h : RoomsInvariant σ.chatRooms) :
    RoomsInvariant (initiateRoute σ env req).2.chatRooms := by
  rcases initiateRoute_store σ env req with h1 | ⟨x, y, room, hc, hf, h1⟩
  · rw [h1]
    exact h
  · rw [h1]
    have hord : PairInOrder room.participants := pairInOrder_castIds_sortPair x y _ hc
    obtain ⟨hsorted, hpair⟩ := h
    constructor
    · intro r hr
      simp only [List.mem_append, List.mem_singleton] at hr
      rcases hr with hr | rfl
      · exact hsorted r hr
      · exact hord
    · rw [List.pairwise_append]
      refine ⟨hpair, List.pairwise_singleton _ _, ?_⟩
      intro r hr r' hr' hperm
      simp only [List.mem_singleton] at hr'
      subst hr'
      have heq := pairInOrder_perm_eq _ _ (hsorted r hr) hord hperm
      have := List.find?_eq_none.mp hf r hr
      simp [heq] at this

/-! ## Idempotence of `POST /initiate` -/

theorem initiateRoute_between (σ : Store) (env : Env) (req : Request) (b s : String)
    (h : Between b s req) :
    initiateRoute σ env req =
      if initiateValidation req ≠ [] then
        (⟨400, .validation "Validation errors" (initiateValidation req)⟩, σ)
      else initiateCatch σ (initiateTry σ env b s req.productId) := by
  rcases h with ⟨hu, hp⟩ | ⟨hu, hp⟩
  · have hpass := authorize_chatRoles_pass req ⟨b, "buyer"⟩ hu (Or.inl rfl)
    unfold initiateRoute
    rw [hpass]
    simp only
    unfold initiate
    simp [hp]
  · have hpass := authorize_chatRoles_pass req ⟨s, "seller"⟩ hu (Or.inr rfl)
    unfold initiateRoute
    rw [hpass]
    simp only
    unfold initiate
    simp [hp]

theorem castObjectId_ne_empty (s t : String) (h : castObjectId s = some t) : s ≠ "" := by
  intro he
  subst he
  have := (castObjectId_eq "" t h).2
  simp at this

theorem findCustomerById_ok (σ : Store) (id : String) (c : Option Customer)
    (h : findCustomerById σ id = .ok c) : ∃ oid, castObjectId id = some oid := by
  unfold findCustomerById at h
  cases hc : castObjectId id with
  | none => rw [hc] at h; cases h
  | some oid => exact ⟨oid, rfl⟩

theorem findSellerById_ok (σ : Store) (id : String) (c : Option Seller)
    (h : findSellerById σ id = .ok c) : ∃ oid, castObjectId id = some oid := by
  unfold findSellerById at h
  cases hc : castObjectId id with
  | none => rw [hc] at h; cases h
  | some oid => exact ⟨oid, rfl⟩

theorem findCustomerById_congr (σ σ' : Store) (id : String) (h : σ'.customers = σ.customers) :
    findCustomerById σ' id = findCustomerById σ id := by
  unfold findCustomerById
  rw [h]

theorem findSellerById_congr (σ σ' : Store) (id : String) (h : σ'.sellers = σ.sellers) :
    findSellerById σ' id = findSellerById σ id := by
  unfold findSellerById
  rw [h]

theorem initiateTry_found (σ : Store) (env : Env) (b s : String) (p : Option String)
    (c : Customer) (sl : Seller) (oids : List String) (room : ChatRoom)
    (hc : findCustomerById σ b = .ok (some c)) (hs : findSellerById σ s = .ok (some sl))
    (hcast : castIds (sortPair b s) = some oids)
    (hf : σ.chatRooms.find? (fun r => r.participants = oids) = some room) :
    initiateTry σ env b s p = .ok (⟨200, chatBody "Existing chat retrieved." room⟩, σ) := by
  unfold initiateTry
  rw [hc, hs]
  simp only [Option.isNone_some, Bool.false_eq_true, or_self, if_false]
  unfold findRoomByParticipants
  rw [hcast]
  simp only
  rw [hf]


theorem resolved_of_success (σ : Store) (env : Env) (req : Request) (b s c : String)
    (h : Between b s req) (hc : chatIdOf (initiateRoute σ env req).1 = some c) :
    Resolved b s c (initiateRoute σ env req).2 := by
  rw [initiateRoute_between σ env req b s h] at hc ⊢
  split_ifs at hc ⊢ with hv
  · simp [chatIdOf] at hc
  · rcases initiateTry_cases σ env b s req.productId with ⟨e, h⟩ | h |
      ⟨oids, room, cu, sl, hcast, hf, hcu, hsl, h⟩ | ⟨oids, room, cu, sl, hcast, hf, hcu, hsl, hn, h⟩
    · rw [h] at hc
      cases e <;> simp [initiateCatch, chatIdOf] at hc
    · rw [h] at hc
      simp [initiateCatch, chatIdOf] at hc
    · rw [h] at hc ⊢
      simp only [initiateCatch, chatIdOf, chatBody, Option.some.injEq] at hc
      exact ⟨⟨cu, hcu⟩, ⟨sl, hsl⟩, oids, hcast, by simp [initiateCatch, hf, hc]⟩
    · rw [h] at hc ⊢
      simp only [initiateCatch, chatIdOf, chatBody, Option.some.injEq] at hc
      have hp := newChatRoom_participants env _ b s req.productId room hn
      rw [hcast] at hp
      injection hp with hp
      refine ⟨⟨cu, ?_⟩, ⟨sl, ?_⟩, oids, hcast, ?_⟩
      · rw [← hcu]
        exact findCustomerById_congr _ _ _ rfl
      · rw [← hsl]
        exact findSellerById_congr _ _ _ rfl
      · simp only [initiateCatch]
        rw [List.find?_append, hf]
        simp [hp, hc]

theorem find?_updateFirst_map {α β : Type} (p q : α → Bool) (f : α → α) (g : α → β)
    (hq : ∀ a, q (f a) = q a) (hg : ∀ a, g (f a) = g a) (l : List α) :
    ((updateFirst p f l).find? q).map g = (l.find? q).map g := by
  induction l with
  | nil => rfl
  | cons a as ih =>
    unfold updateFirst
    by_cases hp : p a = true
    · rw [if_pos hp]
      by_cases hqa : q a = true
      · simp [List.find?, hq, hqa, hg]
      · simp [List.find?, hq, hqa]
    · rw [if_neg hp]
      by_cases hqa : q a = true
      · simp [List.find?, hqa]
      · simp [List.find?, hqa, ih]

theorem markReadRoute_store (σ : Store) (req : Request) :
    (markReadRoute σ req).2 = σ ∨
    ∃ id field, (markReadRoute σ req).2 = saveUnreadZero σ id field := by
  unfold markReadRoute
  cases authorize chatRoles req with
  | respond r => exact Or.inl rfl
  | next u =>
    simp only
    unfold markRead markReadTry
    cases findRoomById σ req.chatId with
    | error e => cases e <;> exact Or.inl rfl
    | ok o =>
      cases o with
      | none => exact Or.inl rfl
      | some room =>
        simp only
        split_ifs
        · exact Or.inr ⟨_, _, rfl⟩
        · exact Or.inl rfl
        · exact Or.inl rfl

theorem setUnreadZero_participants (field : String) (room : ChatRoom) :
    (setUnreadZero field room).participants = room.participants := by
  unfold setUnreadZero
  split_ifs <;> rfl

theorem resolved_step (b s c : String) (σ : Store) (r : ChatRequest)
    (h : Resolved b s c σ) : Resolved b s c (chatStep σ r) := by
  obtain ⟨⟨cu, hcu⟩, ⟨sl, hsl⟩, oids, hcast, hroom⟩ := h
  cases r with
  | initiate env req =>
    simp only [chatStep]
    rcases initiateRoute_store σ env req with h1 | ⟨x, y, room, -, -, h1⟩
    · rw [h1]
      exact ⟨⟨cu, hcu⟩, ⟨sl, hsl⟩, oids, hcast, hroom⟩
    · rw [h1]
      refine ⟨⟨cu, ?_⟩, ⟨sl, ?_⟩, oids, hcast, ?_⟩
      · rw [← hcu]
        exact findCustomerById_congr _ _ _ rfl
      · rw [← hsl]
        exact findSellerById_congr _ _ _ rfl
      · simp only
        rw [List.find?_append]
        cases hf : σ.chatRooms.find? (fun r => decide (r.participants = oids)) with
        | none => rw [hf] at hroom; simp at hroom
        | some r0 => rw [hf] at hroom; simpa using hroom
  | markRead req =>
    simp only [chatStep]
    rcases markReadRoute_store σ req with h1 | ⟨id, field, h1⟩
    · rw [h1]
      exact ⟨⟨cu, hcu⟩, ⟨sl, hsl⟩, oids, hcast, hroom⟩
    · rw [h1]
      refine ⟨⟨cu, ?_⟩, ⟨sl, ?_⟩, oids, hcast, ?_⟩
      · rw [← hcu]
        exact findCustomerById_congr _ _ _ rfl
      · rw [← hsl]
        exact findSellerById_congr _ _ _ rfl
      · simp only [saveUnreadZero]
        rw [find?_updateFirst_map _ _ _ _ (fun a => by simp [setUnreadZero_participants])
          (fun a => setUnreadZero_id field a)]
        exact hroom

theorem resolved_run (b s c : String) (reqs : List ChatRequest) (σ : Store)
    (h : Resolved b s c σ) : Resolved b s c (runChat σ reqs) := by
  induction reqs generalizing σ with
  | nil => exact h
  | cons r rs ih => exact ih (chatStep σ r) (resolved_step b s c σ r h)

theorem checkEach_nil (ok : String → Bool) (message : String)
    (instances : List (Option String)) :
    checkEach ok message instances = [] ↔ ∀ v ∈ instances, ok (v.getD "") = true := by
  simp [checkEach, List.filter_eq_nil_iff]

theorem checkEach_body (ok : String → Bool) (message : String) (body : Option String)
    (w : List (String × String)) (field v : String) (hb : body = some v)
    (h : checkEach ok message (fieldInstances body w field) = []) : ok v = true := by
  have hmem : some v ∈ fieldInstances body w field := by
    subst hb
    unfold fieldInstances
    simp
  simpa using (checkEach_nil ok message _).1 h (some v) hmem

theorem mem_fieldValues (body : Option String) (w : List (String × String))
    (field v : String) :
    v ∈ body.toList ++ (w.filter (fun entry => entry.1 = field)).map (fun entry => entry.2) ↔
      body = some v ∨ (field, v) ∈ w := by
  simp only [List.mem_append, Option.mem_toList, Option.mem_def, List.mem_map,
    List.mem_filter, decide_eq_true_eq]
  constructor
  · rintro (h | ⟨⟨k, x⟩, ⟨hm, hk⟩, hx⟩)
    · exact Or.inl h
    · simp only at hk hx
      subst hk hx
      exact Or.inr hm
  · rintro (h | h)
    · exact Or.inl h
    · exact Or.inr ⟨(field, v), ⟨h, rfl⟩, rfl⟩

theorem some_mem_fieldInstances (body : Option String) (w : List (String × String))
    (field v : String) :
    some v ∈ fieldInstances body w field ↔ body = some v ∨ (field, v) ∈ w := by
  rw [← mem_fieldValues]
  unfold fieldInstances
  cases body.toList ++ (w.filter (fun entry => entry.1 = field)).map (fun entry => entry.2) with
  | nil => simp
  | cons x xs => simp

theorem none_mem_fieldInstances (body : Option String) (w : List (String × String))
    (field : String) :
    none ∈ fieldInstances body w field ↔ body = none ∧ ∀ v, (field, v) ∉ w := by
  have hm := mem_fieldValues body w field
  unfold fieldInstances
  cases hl : body.toList ++
      (w.filter (fun entry => entry.1 = field)).map (fun entry => entry.2) with
  | nil =>
    rw [hl] at hm
    simp only [List.mem_singleton, true_iff]
    constructor
    · cases hb : body with
      | none => rfl
      | some v => exact absurd ((hm v).2 (Or.inl hb)) (List.not_mem_nil _)
    · intro v hv
      exact absurd ((hm v).2 (Or.inr hv)) (List.not_mem_nil _)
  | cons x xs =>
    rw [hl] at hm
    simp only [List.map_cons, List.mem_cons, List.mem_map, false_or, reduceCtorEq, and_false,
      exists_false, false_iff, not_and, not_forall, not_not]
    intro hb
    rcases (hm x).1 (List.mem_cons_self _ _) with h | h
    · rw [hb] at h
      cases h
    · exact ⟨x, h⟩

/-- The validators of `POST /initiate` pass exactly when the request carries a
`participantId` somewhere, none of those it carries is empty, and every `productId` it
carries is a Mongo id. -/
theorem initiateValidation_nil_iff (req : Request) :
    initiateValidation req = [] ↔
      (req.participantId ≠ none ∨ ∃ v, ("participantId", v) ∈ req.elsewhere) ∧
      (∀ v, (req.participantId = some v ∨ ("participantId", v) ∈ req.elsewhere) → v ≠ "") ∧
      (∀ v, (req.productId = some v ∨ ("productId", v) ∈ req.elsewhere) →
        isMongoId v = true) := by
  unfold initiateValidation optionalInstances
  rw [List.append_eq_nil, checkEach_nil, checkEach_nil]
  constructor
  · rintro ⟨h1, h2⟩
    refine ⟨?_, ?_, ?_⟩
    · by_contra hne
      push_neg at hne
      have hn := (none_mem_fieldInstances req.participantId req.elsewhere "participantId").2
        ⟨hne.1, hne.2⟩
      simpa using h1 none hn
    · intro v hv
      have := h1 (some v) ((some_mem_fieldInstances _ _ _ _).2 hv)
      simpa using this
    · intro v hv
      have hm := (some_mem_fieldInstances req.productId req.elsewhere "productId" v).2 hv
      exact h2 (some v) (List.mem_filter.2 ⟨hm, rfl⟩)
  · rintro ⟨h0, h1, h2⟩
    constructor
    · intro x hx
      cases x with
      | none =>
        obtain ⟨hb, hw⟩ := (none_mem_fieldInstances _ _ _).1 hx
        rcases h0 with h0 | ⟨v, hv⟩
        · exact absurd hb h0
        · exact absurd hv (hw v)
      | some v =>
        have := h1 v ((some_mem_fieldInstances _ _ _ _).1 hx)
        simpa using this
    · intro x hx
      obtain ⟨hm, hsome⟩ := List.mem_filter.1 hx
      cases x with
      | none => cases hsome
      | some v => exact h2 v ((some_mem_fieldInstances _ _ _ _).1 hm)

/-- C1 (amended): for every store state, once an initiate between buyer `b` and seller
`s` (issued by `b` with `participantId` `s`, or by `s` with `participantId` `b`) has
returned a chat id `c`, then after any sequence of further chat requests handled one
after the other, an initiate between the same two parties, from either side, creates
no room (the store is unchanged); if it passes the validators of the route (every
`participantId` the request carries, in its body or elsewhere, is not empty, and every
`productId` it carries is a Mongo id) it answers 200 with chat id `c`, and otherwise
it answers 400 with the messages of the validators and returns no chat id. -/
theorem initiate_idempotent (σ : Store) (env : Env) (req₁ : Request) (b s c : String)
    (h₁ : Between b s req₁) (hc : chatIdOf (initiateRoute σ env req₁).1 = some c)
    (later : List ChatRequest) (env₂ : Env) (req₂ : Request) (h₂ : Between b s req₂) :
    (initiateRoute (runChat (initiateRoute σ env req₁).2 later) env₂ req₂).2 =
      runChat (initiateRoute σ env req₁).2 later ∧
    (initiateValidation req₂ = [] →
      (initiateRoute (runChat (initiateRoute σ env req₁).2 later) env₂ req₂).1.status = 200 ∧
      chatIdOf (initiateRoute (runChat (initiateRoute σ env req₁).2 later) env₂ req₂).1 =
        some c) ∧
    (initiateValidation req₂ ≠ [] →
      (initiateRoute (runChat (initiateRoute σ env req₁).2 later) env₂ req₂).1 =
        ⟨400, .validation "Validation errors" (initiateValidation req₂)⟩ ∧
      chatIdOf (initiateRoute (runChat (initiateRoute σ env req₁).2 later) env₂ req₂).1 =
        none) ∧
    (initiateValidation req₂ = [] ↔
      (∀ v, (req₂.participantId = some v ∨ ("participantId", v) ∈ req₂.elsewhere) →
        v ≠ "") ∧
      (∀ v, (req₂.productId = some v ∨ ("productId", v) ∈ req₂.elsewhere) →
        isMongoId v = true)) := by
  have hres := resolved_run b s c later _ (resolved_of_success σ env req₁ b s c h₁ hc)
  generalize runChat (initiateRoute σ env req₁).2 later = σ₂ at hres ⊢
  obtain ⟨⟨cu, hcu⟩, ⟨sl, hsl⟩, oids, hcast, hroom⟩ := hres
  obtain ⟨room, hf, hid⟩ : ∃ room, σ₂.chatRooms.find? (fun r => r.participants = oids) =
      some room ∧ room._id = c := by
    cases hf : σ₂.chatRooms.find? (fun r => decide (r.participants = oids)) with
    | none => rw [hf] at hroom; simp at hroom
    | some r0 => rw [hf] at hroom; exact ⟨r0, rfl, by simpa using hroom⟩
  have htry := initiateTry_found σ₂ env₂ b s req₂.productId cu sl oids room hcu hsl hcast hf
  rw [initiateRoute_between σ₂ env₂ req₂ b s h₂, htry]
  refine ⟨?_, ?_, ?_, ?_⟩
  · split_ifs <;> rfl
  · intro hv
    simp [hv, initiateCatch, chatIdOf, chatBody, hid]
  · intro hv
    rw [if_pos hv]
    exact ⟨rfl, rfl⟩
  · rw [initiateValidation_nil_iff]
    have hdef : req₂.participantId ≠ none := by
      rcases h₂ with ⟨-, hp⟩ | ⟨-, hp⟩ <;> rw [hp] <;> simp
    constructor
    · rintro ⟨-, h1, h2⟩
      exact ⟨h1, h2⟩
    · rintro ⟨h1, h2⟩
      exact ⟨Or.inl hdef, h1, h2⟩

/-! ## The room list and deleted accounts -/

/-- C7: `GET /chat/list` does not fail when the other participant of a room has been
deleted.  Let `σ'` hold the chat rooms and products of `σ`, with accounts possibly
removed.  Then the request answers 200 on both stores, with one entry per listed
room; in `σ'` the entry of every room whose other participant's account is absent
carries the name `Deleted Seller` (buyer requester) or `Deleted Buyer` (seller
requester); and the entry of every room whose participants' accounts are looked up
with the same result in both stores is the same in both answers. -/
theorem list_survives_deleted_participant (σ σ' : Store) (req : Request) (u : User)
    (oid : String) (hu : req.user = some u) (hr : u.role = "buyer" ∨ u.role = "seller")
    (hid : castObjectId u.id = some oid)
    (hrooms : σ'.chatRooms = σ.chatRooms) (hprod : σ'.products = σ.products) :
    ∃ rooms : List ChatRoom, listRoute σ req = (⟨200, .chatList (rooms.map (listEntry σ u.role))⟩, σ) ∧
      listRoute σ' req = (⟨200, .chatList (rooms.map (listEntry σ' u.role))⟩, σ') ∧
      ∀ r ∈ rooms,
        (u.role = "buyer" →
          σ'.sellers.find? (fun s => s._id = r.participantRoles.sellerId) = none →
          (listEntry σ' u.role r).otherParticipantName = "Deleted Seller") ∧
        (u.role = "seller" →
          σ'.customers.find? (fun c => c._id = r.participantRoles.buyerId) = none →
          (listEntry σ' u.role r).otherParticipantName = "Deleted Buyer") ∧
        (σ'.sellers.find? (fun s => s._id = r.participantRoles.sellerId) =
            σ.sellers.find? (fun s => s._id = r.participantRoles.sellerId) →
          σ'.customers.find? (fun c => c._id = r.participantRoles.buyerId) =
            σ.customers.find? (fun c => c._id = r.participantRoles.buyerId) →
          listEntry σ' u.role r = listEntry σ u.role r) := by
  have hpass : authorize chatRoles req = .next u := authorize_chatRoles_pass req u hu hr
  refine ⟨(σ.chatRooms.filter (fun r => r.participants.contains oid)).insertionSort
    (fun a b => b.updatedAt ≤ a.updatedAt), ?_, ?_, ?_⟩
  · simp only [listRoute, hpass, list, findRoomsOf_ok σ u.id oid hid]
  · simp only [listRoute, hpass, list, findRoomsOf_ok σ' u.id oid hid, hrooms]
  · intro r _
    refine ⟨?_, ?_, ?_⟩
    · intro hb hnone
      simp [listEntry, otherParticipant, hb, hnone]
    · intro hs hnone
      have : u.role ≠ "buyer" := by rw [hs]; decide
      simp [listEntry, otherParticipant, hs, hnone]
    · intro h1 h2
      simp [listEntry, otherParticipant, populateProduct, h1, h2, hprod]

/-- At a concrete request: buyer A lists their rooms before and after the account of
seller D is deleted. -/
theorem list_survives_deleted_participant_witness :
    ∃ rooms : List ChatRoom, listRoute storeBeforeDelete (requestOf userA "" none none) =
        (⟨200, .chatList (rooms.map (listEntry storeBeforeDelete userA.role))⟩,
          storeBeforeDelete) ∧
      listRoute storeChats (requestOf userA "" none none) =
        (⟨200, .chatList (rooms.map (listEntry storeChats userA.role))⟩, storeChats) ∧
      ∀ r ∈ rooms,
        (userA.role = "buyer" →
          storeChats.sellers.find? (fun s => s._id = r.participantRoles.sellerId) = none →
          (listEntry storeChats userA.role r).otherParticipantName = "Deleted Seller") ∧
        (userA.role = "seller" →
          storeChats.customers.find? (fun c => c._id = r.participantRoles.buyerId) = none →
          (listEntry storeChats userA.role r).otherParticipantName = "Deleted Buyer") ∧
        (storeChats.sellers.find? (fun s => s._id = r.participantRoles.sellerId) =
            storeBeforeDelete.sellers.find? (fun s => s._id = r.participantRoles.sellerId) →
          storeChats.customers.find? (fun c => c._id = r.participantRoles.buyerId) =
            storeBeforeDelete.customers.find? (fun c => c._id = r.participantRoles.buyerId) →
          listEntry storeChats userA.role r = listEntry storeBeforeDelete userA.role r) :=
  list_survives_deleted_participant storeBeforeDelete storeChats
    (requestOf userA "" none none) userA userA.id rfl (Or.inl rfl) (by decide) rfl rfl


/-- At a concrete request: buyer A opens a room with seller B in a store that holds one
other room. -/
theorem initiate_preserves_rooms_invariant_witness :
    RoomsInvariant storeOneRoom.chatRooms ∧
    RoomsInvariant (initiateRoute storeOneRoom envC
      (requestOf userA "" (some "bbbbbbbbbbbbbbbbbbbbbbbb") none)).2.chatRooms :=
  ⟨by decide, initiate_preserves_rooms_invariant storeOneRoom envC
    (requestOf userA "" (some "bbbbbbbbbbbbbbbbbbbbbbbb") none) (by decide)⟩

/-- At concrete requests: buyer A opens a room with seller B, seller B marks it read, and
seller B then initiates with buyer A and is answered with the same chat id; the same
initiate with `?productId=junk` in its query string is answered 400 without a chat id. -/
theorem initiate_idempotent_witness :
    ((initiateRoute (runChat (initiateRoute storeEmpty envC
        (requestOf userA "" (some "bbbbbbbbbbbbbbbbbbbbbbbb") none)).2
        [.markRead (requestOf userB "cccccccccccccccccccccccc" none none)])
      envC (requestOf userB "" (some "aaaaaaaaaaaaaaaaaaaaaaaa") none)).1.status = 200 ∧
    chatIdOf (initiateRoute (runChat (initiateRoute storeEmpty envC
        (requestOf userA "" (some "bbbbbbbbbbbbbbbbbbbbbbbb") none)).2
        [.markRead (requestOf userB "cccccccccccccccccccccccc" none none)])
      envC (requestOf userB "" (some "aaaaaaaaaaaaaaaaaaaaaaaa") none)).1 =
        some "cccccccccccccccccccccccc") ∧
    ((initiateRoute (runChat (initiateRoute storeEmpty envC
        (requestOf userA "" (some "bbbbbbbbbbbbbbbbbbbbbbbb") none)).2
        [.markRead (requestOf userB "cccccccccccccccccccccccc" none none)])
      envC requestWithQuery).1 =
        ⟨400, .validation "Validation errors" (initiateValidation requestWithQuery)⟩ ∧
    chatIdOf (initiateRoute (runChat (initiateRoute storeEmpty envC
        (requestOf userA "" (some "bbbbbbbbbbbbbbbbbbbbbbbb") none)).2
        [.markRead (requestOf userB "cccccccccccccccccccccccc" none none)])
      envC requestWithQuery).1 = none) :=
  ⟨(initiate_idempotent storeEmpty envC
    (requestOf userA "" (some "bbbbbbbbbbbbbbbbbbbbbbbb") none)
    "aaaaaaaaaaaaaaaaaaaaaaaa" "bbbbbbbbbbbbbbbbbbbbbbbb" "cccccccccccccccccccccccc"
    (Or.inl ⟨rfl, rfl⟩) (by decide)
    [.markRead (requestOf userB "cccccccccccccccccccccccc" none none)] envC
    (requestOf userB "" (some "aaaaaaaaaaaaaaaaaaaaaaaa") none) (Or.inr ⟨rfl, rfl⟩)).2.1
    (by decide),
   (initiate_idempotent storeEmpty envC
    (requestOf userA "" (some "bbbbbbbbbbbbbbbbbbbbbbbb") none)
    "aaaaaaaaaaaaaaaaaaaaaaaa" "bbbbbbbbbbbbbbbbbbbbbbbb" "cccccccccccccccccccccccc"
    (Or.inl ⟨rfl, rfl⟩) (by decide)
    [.markRead (requestOf userB "cccccccccccccccccccccccc" none none)] envC
    requestWithQuery (Or.inr ⟨rfl, rfl⟩)).2.2.1 (by decide)⟩

/-- After buyer A has opened room `cccccccccccccccccccccccc` with seller B, an initiate by
seller B with buyer A whose body carries the `productId` `junk` is answered 400 and
returns no chat id. -/
theorem initiate_later_invalid_product :
    chatIdOf (initiateRoute storeEmpty envC
      (requestOf userA "" (some "bbbbbbbbbbbbbbbbbbbbbbbb") none)).1 =
        some "cccccccccccccccccccccccc" ∧
    (initiateRoute (initiateRoute storeEmpty envC
        (requestOf userA "" (some "bbbbbbbbbbbbbbbbbbbbbbbb") none)).2
      envC (requestOf userB "" (some "aaaaaaaaaaaaaaaaaaaaaaaa") (some "junk"))).1 =
        ⟨400, .validation "Validation errors" ["Product ID is optional"]⟩ ∧
    chatIdOf (initiateRoute (initiateRoute storeEmpty envC
        (requestOf userA "" (some "bbbbbbbbbbbbbbbbbbbbbbbb") none)).2
      envC (requestOf userB "" (some "aaaaaaaaaaaaaaaaaaaaaaaa") (some "junk"))).1 = none := by
  decide

/-! ## Login -/

/-- With both fields in the body, the validators of `POST /login` pass exactly when the
body's email and every `email` the request carries elsewhere pass `isEmail`. -/
theorem loginValidation_nil_iff (lib : Lib) (w : List (String × String)) (e pw : String) :
    loginValidation lib ⟨some e, some pw, w⟩ = [] ↔
      lib.isEmail e = true ∧ ∀ v, ("email", v) ∈ w → lib.isEmail v = true := by
  unfold loginValidation
  rw [List.append_eq_nil, checkEach_nil, List.map_eq_nil_iff, List.filter_eq_nil_iff]
  constructor
  · rintro ⟨h1, -⟩
    refine ⟨?_, ?_⟩
    · simpa using h1 (some e) ((some_mem_fieldInstances _ _ _ _).2 (Or.inl rfl))
    · intro v hv
      simpa using h1 (some v) ((some_mem_fieldInstances _ _ _ _).2 (Or.inr hv))
  · rintro ⟨h1, h2⟩
    constructor
    · intro x hx
      cases x with
      | none =>
        have := ((none_mem_fieldInstances _ _ _).1 hx).1
        cases this
      | some v =>
        rcases (some_mem_fieldInstances _ _ _ _).1 hx with h | h
        · injection h with h
          subst h
          simpa using h1
        · simpa using h2 v h
    · intro x hx
      cases x with
      | none =>
        have := ((none_mem_fieldInstances _ _ _).1 hx).1
        cases this
      | some v => simp

theorem login_of_valid (lib : Lib) (σ : Store) (w : List (String × String)) (e pw : String)
    (hv : lib.isEmail e = true) (hw : ∀ v, ("email", v) ∈ w → lib.isEmail v = true) :
    login lib σ ⟨some e, some pw, w⟩ =
      match findLoginAccount lib σ e with
      | none => ⟨400, .message msgEmailNotFound⟩
      | some user => loginAs lib user pw := by
  have hval := (loginValidation_nil_iff lib w e pw).2 ⟨hv, hw⟩
  unfold login
  rw [if_neg (by simp [hval])]
  simp only [Option.some_bind]

theorem login_of_invalid (lib : Lib) (σ : Store) (b : LoginBody)
    (h : loginValidation lib b ≠ []) :
    login lib σ b = ⟨400, .validation "Validation errors" (loginValidation lib b)⟩ := by
  unfold login
  rw [if_pos h]

theorem login_no_account (lib : Lib) (σ : Store) (b : LoginBody)
    (h : b.email.bind (findLoginAccount lib σ) = none) :
    (login lib σ b).status = 400 ∧ tokenOf (login lib σ b) = none := by
  unfold login
  split_ifs
  · exact ⟨rfl, rfl⟩
  · rw [h]
    exact ⟨rfl, rfl⟩

theorem loginAs_token (lib : Lib) (user : Account) (pw : String) (t : Token)
    (h : tokenOf (loginAs lib user pw) = some t) :
    lib.compare pw user.password = true ∧ t = ⟨⟨user.id, user.role⟩, "1h"⟩ := by
  unfold loginAs at h
  by_cases h1 : lib.compare pw user.password = true
  · by_cases h2 : user.role = "seller" ∧ user.isApproved ≠ some true
    · simp [h1, h2, tokenOf] at h
    · simp only [h1, h2, not_true_eq_false, if_false, tokenOf, Option.some.injEq] at h
      exact ⟨h1, h.symm⟩
  · simp [h1, tokenOf] at h

theorem loginAs_mismatch (lib : Lib) (user : Account) (pw : String)
    (h : lib.compare pw user.password = false) :
    loginAs lib user pw = ⟨400, .message msgPasswordIncorrect⟩ := by
  simp [loginAs, h]

/-- C11 (amended): for every seller account whose email is not held by a buyer account,
so that `POST /login` resolves the email to that seller, a login with that email and a
password that matches the seller's stored hash (whatever else the request carries
under the name `email`, as long as it passes the route's check too) answers 403 and
issues no token when `isApproved` is false, and answers 200 with a token whose payload
carries the seller's id and the role `seller` when `isApproved` is true. -/
theorem login_seller_needs_approval (lib : Lib) (σ : Store) (s : Seller) (e pw : String)
    (w : List (String × String))
    (hv : lib.isEmail e = true)
    (hw : ∀ v, ("email", v) ∈ w → lib.isEmail v = true)
    (hbuyer : findCustomerByEmail lib σ e = none)
    (hseller : findSellerByEmail lib σ e = some s)
    (hrole : s.role = "seller")
    (hpw : lib.compare pw s.password = true) :
    (s.isApproved = false →
      login lib σ ⟨some e, some pw, w⟩ = ⟨403, .message msgPendingApproval⟩ ∧
      tokenOf (login lib σ ⟨some e, some pw, w⟩) = none) ∧
    (s.isApproved = true →
      (login lib σ ⟨some e, some pw, w⟩).status = 200 ∧
      tokenOf (login lib σ ⟨some e, some pw, w⟩) = some ⟨⟨s._id, "seller"⟩, "1h"⟩) := by
  have hacc : findLoginAccount lib σ e = some (.seller s) := by
    simp [findLoginAccount, hbuyer, hseller]
  rw [login_of_valid lib σ w e pw hv hw, hacc]
  constructor
  · intro ha
    simp [loginAs, Account.password, Account.role, Account.isApproved, hpw, hrole, ha, tokenOf]
  · intro ha
    simp [loginAs, Account.password, Account.role, Account.isApproved, Account.id, hpw, hrole,
      ha, tokenOf]

/-- At concrete requests: the pending seller is refused with 403, and the same seller,
once approved, is logged in with a token carrying their id. -/
theorem login_seller_needs_approval_witness :
    (login sampleLib storePending ⟨some "shop@x.com", some "secret1", []⟩ =
        ⟨403, .message msgPendingApproval⟩ ∧
      tokenOf (login sampleLib storePending ⟨some "shop@x.com", some "secret1", []⟩) = none) ∧
    ((login sampleLib storeProducts ⟨some "shop@x.com", some "secret1", []⟩).status = 200 ∧
      tokenOf (login sampleLib storeProducts ⟨some "shop@x.com", some "secret1", []⟩) =
        some ⟨⟨"abababababababababababab", "seller"⟩, "1h"⟩) :=
  ⟨(login_seller_needs_approval sampleLib storePending sellerPending "shop@x.com" "secret1"
      [] (by decide) (by simp) (by decide) (by decide) rfl (by decide)).1 rfl,
   (login_seller_needs_approval sampleLib storeProducts
      { sellerPending with isApproved := true } "shop@x.com" "secret1"
      [] (by decide) (by simp) (by decide) (by decide) rfl (by decide)).2 rfl⟩

/-- In a store where a buyer holds the email of the pending seller, a login with that
email and the seller's own password is answered 400 `password incorrect`, not 403: the
password was compared with the buyer's hash. -/
theorem login_seller_email_held_by_buyer :
    sellerPending ∈ storeSharedEmail.sellers ∧ sellerPending.isApproved = false ∧
    sampleLib.compare "secret1" sellerPending.password = true ∧
    login sampleLib storeSharedEmail ⟨some sellerPending.email, some "secret1", []⟩ =
      ⟨400, .message msgPasswordIncorrect⟩ := by
  decide

/-- C12: `POST /login` resolves the account in the order buyer, seller, admin.  For an
email that passes the route's check (as does every other value the request carries
under the name `email`), the answer is that of the buyer record under
that email if there is one, else that of the seller record if there is one, else that
of the admin record; if there is none of the three the answer is 400 and carries no
token.  The answer for a resolved record is 400 `password incorrect` when the password
does not match that record's hash; when it matches, the answer is 403 `pending` without
a token for a record of role `seller` that is not approved, and otherwise 200 `Login
successful` with a token of one hour that carries that record's id and role and with
that record's id, email, role and names; any token in an answer was issued after a
match against that record and carries that record's id and role.  In particular, when
the email is held by a buyer and by a seller, every token issued carries the buyer's id
and role, the buyer's password is answered 200 with the buyer's id and role, and a
password that does not match the buyer's hash is answered 400 without a token, whether
or not it is the seller's password.  The record found in a collection is one of that
collection whose stored email is the lower-cased, trimmed email of the request, and
none is found only when the collection has no such record. -/
theorem login_resolution_order (lib : Lib) (σ : Store) (w : List (String × String))
    (e pw : String) :
    (lib.isEmail e = true → (∀ v, ("email", v) ∈ w → lib.isEmail v = true) →
      (∀ c, findCustomerByEmail lib σ e = some c →
        login lib σ ⟨some e, some pw, w⟩ = loginAs lib (.buyer c) pw ∧
        (lib.compare pw c.password = false →
          login lib σ ⟨some e, some pw, w⟩ = ⟨400, .message msgPasswordIncorrect⟩) ∧
        (lib.compare pw c.password = true → c.role ≠ "seller" →
          (login lib σ ⟨some e, some pw, w⟩).status = 200 ∧
          tokenOf (login lib σ ⟨some e, some pw, w⟩) = some ⟨⟨c._id, c.role⟩, "1h"⟩)) ∧
      (findCustomerByEmail lib σ e = none → ∀ s, findSellerByEmail lib σ e = some s →
        login lib σ ⟨some e, some pw, w⟩ = loginAs lib (.seller s) pw ∧
        (lib.compare pw s.password = false →
          login lib σ ⟨some e, some pw, w⟩ = ⟨400, .message msgPasswordIncorrect⟩) ∧
        (lib.compare pw s.password = true → s.role = "seller" → s.isApproved = false →
          login lib σ ⟨some e, some pw, w⟩ = ⟨403, .message msgPendingApproval⟩) ∧
        (lib.compare pw s.password = true → (s.role = "seller" → s.isApproved = true) →
          (login lib σ ⟨some e, some pw, w⟩).status = 200 ∧
          tokenOf (login lib σ ⟨some e, some pw, w⟩) = some ⟨⟨s._id, s.role⟩, "1h"⟩)) ∧
      (findCustomerByEmail lib σ e = none → findSellerByEmail lib σ e = none →
        ∀ a, findAdminByEmail lib σ e = some a →
        login lib σ ⟨some e, some pw, w⟩ = loginAs lib (.admin a) pw ∧
        (lib.compare pw a.password = false →
          login lib σ ⟨some e, some pw, w⟩ = ⟨400, .message msgPasswordIncorrect⟩) ∧
        (lib.compare pw a.password = true → a.role ≠ "seller" →
          (login lib σ ⟨some e, some pw, w⟩).status = 200 ∧
          tokenOf (login lib σ ⟨some e, some pw, w⟩) = some ⟨⟨a._id, a.role⟩, "1h"⟩))) ∧
    (findCustomerByEmail lib σ e = none → findSellerByEmail lib σ e = none →
      findAdminByEmail lib σ e = none →
      (login lib σ ⟨some e, some pw, w⟩).status = 400 ∧
      tokenOf (login lib σ ⟨some e, some pw, w⟩) = none) ∧
    (∀ user, (lib.compare pw user.password = false →
        loginAs lib user pw = ⟨400, .message msgPasswordIncorrect⟩) ∧
      (lib.compare pw user.password = true → user.role = "seller" →
        user.isApproved ≠ some true →
        loginAs lib user pw = ⟨403, .message msgPendingApproval⟩) ∧
      (lib.compare pw user.password = true →
        ¬ (user.role = "seller" ∧ user.isApproved ≠ some true) →
        loginAs lib user pw =
          ⟨200, .loggedIn "Login successful" ⟨⟨user.id, user.role⟩, "1h"⟩
            { id := user.id, email := user.email, role := user.role,
              firstName := user.firstName, lastName := user.lastName,
              shopName := if user.role = "seller" then user.shopName else none,
              isApproved := if user.role = "seller" then user.isApproved else none }⟩) ∧
      (∀ t, tokenOf (loginAs lib user pw) = some t →
        lib.compare pw user.password = true ∧ t.payload = ⟨user.id, user.role⟩)) ∧
    (∀ c s, findCustomerByEmail lib σ e = some c → findSellerByEmail lib σ e = some s →
      (∀ t, tokenOf (login lib σ ⟨some e, some pw, w⟩) = some t →
        lib.compare pw c.password = true ∧ t.payload = ⟨c._id, c.role⟩) ∧
      (lib.compare pw c.password = false →
        (login lib σ ⟨some e, some pw, w⟩).status = 400 ∧
        tokenOf (login lib σ ⟨some e, some pw, w⟩) = none) ∧
      (lib.isEmail e = true → (∀ v, ("email", v) ∈ w → lib.isEmail v = true) →
        lib.compare pw c.password = true → c.role ≠ "seller" →
        (login lib σ ⟨some e, some pw, w⟩).status = 200 ∧
        tokenOf (login lib σ ⟨some e, some pw, w⟩) = some ⟨⟨c._id, c.role⟩, "1h"⟩)) ∧
    ((∀ c, findCustomerByEmail lib σ e = some c →
        c ∈ σ.customers ∧ c.email = castEmail lib e) ∧
      (findCustomerByEmail lib σ e = none → ∀ c ∈ σ.customers, c.email ≠ castEmail lib e) ∧
      (∀ s, findSellerByEmail lib σ e = some s → s ∈ σ.sellers ∧ s.email = castEmail lib e) ∧
      (findSellerByEmail lib σ e = none → ∀ s ∈ σ.sellers, s.email ≠ castEmail lib e) ∧
      (∀ a, findAdminByEmail lib σ e = some a → a ∈ σ.admins ∧ a.email = castEmail lib e) ∧
      (findAdminByEmail lib σ e = none → ∀ a ∈ σ.admins, a.email ≠ castEmail lib e)) := by
  refine ⟨?_, ?_, ?_, ?_, ?_⟩
  · intro hv hw
    rw [login_of_valid lib σ w e pw hv hw]
    refine ⟨?_, ?_, ?_⟩
    · intro c hc
      have hacc : findLoginAccount lib σ e = some (.buyer c) := by simp [findLoginAccount, hc]
      rw [hacc]
      refine ⟨rfl, ?_, ?_⟩
      · intro hm
        exact loginAs_mismatch lib (.buyer c) pw hm
      · intro hm hr
        simp [loginAs, Account.password, Account.role, Account.id, hm, hr, tokenOf]
    · intro hc s hs
      have hacc : findLoginAccount lib σ e = some (.seller s) := by
        simp [findLoginAccount, hc, hs]
      rw [hacc]
      refine ⟨rfl, ?_, ?_, ?_⟩
      · intro hm
        exact loginAs_mismatch lib (.seller s) pw hm
      · intro hm hr ha
        simp [loginAs, Account.password, Account.role, Account.isApproved, hm, hr, ha]
      · intro hm ha
        by_cases hr : s.role = "seller"
        · simp [loginAs, Account.password, Account.role, Account.isApproved, Account.id, hm,
            hr, ha hr, tokenOf]
        · simp [loginAs, Account.password, Account.role, Account.id, hm, hr, tokenOf]
    · intro hc hs a ha
      have hacc : findLoginAccount lib σ e = some (.admin a) := by
        simp [findLoginAccount, hc, hs, ha]
      rw [hacc]
      refine ⟨rfl, ?_, ?_⟩
      · intro hm
        exact loginAs_mismatch lib (.admin a) pw hm
      · intro hm hr
        simp [loginAs, Account.password, Account.role, Account.id, hm, hr, tokenOf]
  · intro hc hs ha
    apply login_no_account
    simp [findLoginAccount, hc, hs, ha]
  · intro user
    refine ⟨loginAs_mismatch lib user pw, ?_, ?_, ?_⟩
    · intro hm hr ha
      simp [loginAs, hm, hr, ha]
    · intro hm hn
      unfold loginAs
      rw [if_neg (by simp [hm]), if_neg hn]
    · intro t ht
      obtain ⟨h1, h2⟩ := loginAs_token lib user pw t ht
      exact ⟨h1, by rw [h2]⟩
  · intro c s hc _
    have hacc : findLoginAccount lib σ e = some (.buyer c) := by simp [findLoginAccount, hc]
    refine ⟨?_, ?_, ?_⟩
    · by_cases hval : loginValidation lib ⟨some e, some pw, w⟩ = []
      · obtain ⟨hv, hw⟩ := (loginValidation_nil_iff lib w e pw).1 hval
        rw [login_of_valid lib σ w e pw hv hw, hacc]
        intro t ht
        obtain ⟨h1, h2⟩ := loginAs_token lib (.buyer c) pw t ht
        exact ⟨h1, by rw [h2]; rfl⟩
      · rw [login_of_invalid lib σ _ hval]
        intro t ht
        cases ht
    · by_cases hval : loginValidation lib ⟨some e, some pw, w⟩ = []
      · obtain ⟨hv, hw⟩ := (loginValidation_nil_iff lib w e pw).1 hval
        rw [login_of_valid lib σ w e pw hv hw, hacc]
        intro hm
        dsimp only
        rw [loginAs_mismatch lib (.buyer c) pw hm]
        exact ⟨rfl, rfl⟩
      · rw [login_of_invalid lib σ _ hval]
        intro _
        exact ⟨rfl, rfl⟩
    · intro hv hw hm hr
      rw [login_of_valid lib σ w e pw hv hw, hacc]
      simp [loginAs, Account.password, Account.role, Account.id, hm, hr, tokenOf]
  · refine ⟨?_, ?_, ?_, ?_, ?_, ?_⟩
    · intro c hc
      exact ⟨List.mem_of_find?_eq_some hc, by simpa using List.find?_some hc⟩
    · intro hc c hmem
      simpa using List.find?_eq_none.1 hc c hmem
    · intro s hs
      exact ⟨List.mem_of_find?_eq_some hs, by simpa using List.find?_some hs⟩
    · intro hs s hmem
      simpa using List.find?_eq_none.1 hs s hmem
    · intro a ha
      exact ⟨List.mem_of_find?_eq_some ha, by simpa using List.find?_some ha⟩
    · intro ha a hmem
      simpa using List.find?_eq_none.1 ha a hmem

/-- At concrete requests: with an email held by a buyer and a seller the buyer's password
is answered 200 with a token carrying the buyer's id and the seller's password is
answered 400; an admin's email and password are answered 200 with a token carrying the
admin's id and role; an unknown email is answered 400. -/
theorem login_resolution_order_witness :
    ((login sampleLib storeSharedEmail ⟨some "shop@x.com", some "buyerpw", []⟩).status = 200 ∧
      tokenOf (login sampleLib storeSharedEmail ⟨some "shop@x.com", some "buyerpw", []⟩) =
        some ⟨⟨buyerSameEmail._id, buyerSameEmail.role⟩, "1h"⟩) ∧
    ((login sampleLib storeSharedEmail ⟨some "shop@x.com", some "secret1", []⟩).status = 400 ∧
      tokenOf (login sampleLib storeSharedEmail ⟨some "shop@x.com", some "secret1", []⟩) = none) ∧
    ((login sampleLib storeWithAdmin ⟨some "root@x.com", some "rootpw1", []⟩).status = 200 ∧
      tokenOf (login sampleLib storeWithAdmin ⟨some "root@x.com", some "rootpw1", []⟩) =
        some ⟨⟨adminRoot._id, adminRoot.role⟩, "1h"⟩) ∧
    ((login sampleLib storeWithAdmin ⟨some "nobody@x.com", some "rootpw1", []⟩).status = 400 ∧
      tokenOf (login sampleLib storeWithAdmin ⟨some "nobody@x.com", some "rootpw1", []⟩) = none) :=
  ⟨(login_resolution_order sampleLib storeSharedEmail [] "shop@x.com" "buyerpw").2.2.2.1
      buyerSameEmail sellerPending (by decide) (by decide) |>.2.2
      (by decide) (by simp) (by decide) (by decide),
   ((login_resolution_order sampleLib storeSharedEmail [] "shop@x.com" "secret1").2.2.2.1
      buyerSameEmail sellerPending (by decide) (by decide)).2.1 (by decide),
   (((login_resolution_order sampleLib storeWithAdmin [] "root@x.com" "rootpw1").1
      (by decide) (by simp)).2.2 (by decide) (by decide) adminRoot (by decide)).2.2
      (by decide) (by decide),
   (login_resolution_order sampleLib storeWithAdmin [] "nobody@x.com" "rootpw1").2.1
      (by decide) (by decide) (by decide)⟩

/-! ## Registration -/

/-- C13: the answer of `PUT /admin/sellers/:id/approve` carries the seller document as
loaded, stored password hash included: at a concrete request the body holds the hash
of the seller's account, and the same request on a store that differs only in that
hash is answered with a different body. -/
theorem approve_answer_carries_password_hash :
    (approveSellerRoute staffVerify storePending (requestWithHeader (some "Bearer admin"))
        "abababababababababababab").1 =
      ⟨200, .sellerDoc "Seller Corner Shop approved successfully"
        { sellerPending with isApproved := true }⟩ ∧
    ({ sellerPending with isApproved := true } : Seller).password = "s1:secret1" ∧
    (approveSellerRoute staffVerify storePendingOtherHash
        (requestWithHeader (some "Bearer admin")) "abababababababababababab").1 ≠
      (approveSellerRoute staffVerify storePending (requestWithHeader (some "Bearer admin"))
        "abababababababababababab").1 := by
  decide

theorem register_email_taken (lib : Lib) (σ : Store) (env : AccountEnv) (b : RegisterBody)
    (h : (findCustomerByEmail lib σ (b.email.getD "")).isSome ∨
      (findSellerByEmail lib σ (b.email.getD "")).isSome) :
    (register lib σ env b).1.status = 400 ∧ (register lib σ env b).2 = σ := by
  unfold register
  split_ifs with hv
  · exact ⟨rfl, rfl⟩
  · unfold registerTry
    by_cases hc : (findCustomerByEmail lib σ (b.email.getD "")).isSome = true
    · simp [hc]
    · have hs : (findSellerByEmail lib σ (b.email.getD "")).isSome = true := by
        rcases h with h | h
        · exact absurd h hc
        · exact h
      simp [hc, hs]

theorem sellerRegister_email_taken (lib : Lib) (σ : Store) (env : AccountEnv)
    (b : SellerRegisterBody)
    (h : (findCustomerByEmail lib σ (b.email.getD "")).isSome ∨
      (findSellerByEmail lib σ (b.email.getD "")).isSome) :
    (sellerRegister lib σ env b).1.status = 400 ∧ (sellerRegister lib σ env b).2 = σ := by
  unfold sellerRegister
  split_ifs with hv
  · exact ⟨rfl, rfl⟩
  · unfold sellerRegisterTry
    rw [if_pos h]
    exact ⟨rfl, rfl⟩

/-- C14 (amended): buyer registration and seller registration look the email up in the
buyer collection and in the seller collection before inserting: a registration whose
email, as the `email` path casts it, already belongs to a buyer or to a seller is
answered 400 and stores no account. -/
theorem register_rejects_buyer_or_seller_email (lib : Lib) (σ : Store) (env : AccountEnv)
    (e : String)
    (h : (∃ c ∈ σ.customers, c.email = castEmail lib e) ∨ (∃ s ∈ σ.sellers, s.email = castEmail lib e)) :
    (∀ b : RegisterBody, b.email = some e →
      (register lib σ env b).1.status = 400 ∧ (register lib σ env b).2 = σ) ∧
    (∀ b : SellerRegisterBody, b.email = some e →
      (sellerRegister lib σ env b).1.status = 400 ∧ (sellerRegister lib σ env b).2 = σ) := by
  have h' : (findCustomerByEmail lib σ e).isSome ∨ (findSellerByEmail lib σ e).isSome := by
    rcases h with ⟨c, hc, he⟩ | ⟨s, hs, he⟩
    · left
      unfold findCustomerByEmail
      rw [List.find?_isSome]
      exact ⟨c, hc, by simpa using he⟩
    · right
      unfold findSellerByEmail
      rw [List.find?_isSome]
      exact ⟨s, hs, by simpa using he⟩
  constructor
  · intro b hb
    apply register_email_taken
    rw [hb]
    exact h'
  · intro b hb
    apply sellerRegister_email_taken
    rw [hb]
    exact h'

/-- At concrete requests: a buyer registration under a seller's email, written in another
case, and a seller registration under a buyer's email are both answered 400 and leave
the store as it was. -/
theorem register_rejects_buyer_or_seller_email_witness :
    ((register sampleLib storePending accountEnv
        ⟨some "Eve", some "Fox", some "Shop@X.com", some "secret1", []⟩).1.status = 400 ∧
      (register sampleLib storePending accountEnv
        ⟨some "Eve", some "Fox", some "Shop@X.com", some "secret1", []⟩).2 = storePending) ∧
    ((sellerRegister sampleLib storePending accountEnv
        ⟨some "Eve", some "Fox", some "ann@x.com", some "9999999999", some "secret1",
          some "Eve Shop", some "9 Mill St", none, []⟩).1.status = 400 ∧
      (sellerRegister sampleLib storePending accountEnv
        ⟨some "Eve", some "Fox", some "ann@x.com", some "9999999999", some "secret1",
          some "Eve Shop", some "9 Mill St", none, []⟩).2 = storePending) :=
  ⟨(register_rejects_buyer_or_seller_email sampleLib storePending accountEnv "Shop@X.com"
      (Or.inr ⟨sellerPending, by decide, by decide⟩)).1 _ rfl,
   (register_rejects_buyer_or_seller_email sampleLib storePending accountEnv "ann@x.com"
      (Or.inl ⟨buyerA, by decide, by decide⟩)).2 _ rfl⟩

/-- In a store whose only account is an admin under `root@x.com`, a buyer registration
and a seller registration with that email are both answered 201 and store the account. -/
theorem register_accepts_admin_email :
    adminRoot ∈ storeWithAdmin.admins ∧ adminRoot.email = "root@x.com" ∧
    (register sampleLib storeWithAdmin accountEnv
      ⟨some "Eve", some "Fox", some "root@x.com", some "secret1", []⟩).1.status = 201 ∧
    (register sampleLib storeWithAdmin accountEnv
      ⟨some "Eve", some "Fox", some "root@x.com", some "secret1", []⟩).2.customers =
      [{ _id := "343434343434343434343434", firstName := "Eve", lastName := "Fox",
         email := "root@x.com", password := "s4:secret1", role := "buyer", createdAt := 30 }] ∧
    (sellerRegister sampleLib storeWithAdmin accountEnv
      ⟨some "Eve", some "Fox", some "root@x.com", some "9999999999", some "secret1",
        some "Eve Shop", some "9 Mill St", none, []⟩).1.status = 201 ∧
    (sellerRegister sampleLib storeWithAdmin accountEnv
      ⟨some "Eve", some "Fox", some "root@x.com", some "9999999999", some "secret1",
        some "Eve Shop", some "9 Mill St", none, []⟩).2.sellers.length = 1 := by
  decide

theorem splitAux_keeps (sep : Char) (cs cur : List Char) (c : Char) (hc : c ∈ cur) :
    ∃ piece ∈ splitAux sep cs cur, c ∈ piece := by
  induction cs generalizing cur with
  | nil => exact ⟨cur.reverse, by simp [splitAux], by simpa using hc⟩
  | cons x xs ih =>
    unfold splitAux
    by_cases hx : x = sep
    · rw [if_pos hx]
      exact ⟨cur.reverse, by simp, by simpa using hc⟩
    · rw [if_neg hx]
      exact ih (x :: cur) (List.mem_cons_of_mem _ hc)

theorem splitAux_mem (sep : Char) (cs cur : List Char) (c : Char) (hc : c ∈ cs) :
    c = sep ∨ ∃ piece ∈ splitAux sep cs cur, c ∈ piece := by
  induction cs generalizing cur with
  | nil => cases hc
  | cons x xs ih =>
    unfold splitAux
    by_cases hx : x = sep
    · rw [if_pos hx]
      rcases List.mem_cons.mp hc with h | h
      · exact Or.inl (h.trans hx)
      · rcases ih [] h with h1 | ⟨p, hp, hcp⟩
        · exact Or.inl h1
        · exact Or.inr ⟨p, List.mem_cons_of_mem _ hp, hcp⟩
    · rw [if_neg hx]
      rcases List.mem_cons.mp hc with h | h
      · right
        subst h
        exact splitAux_keeps sep xs (c :: cur) c (by simp)
      · exact ih (x :: cur) h

theorem isDigitChar_not_whitespace (c : Char) (h : isDigitChar c = true) :
    isJsWhitespace c = false := by
  simp only [isDigitChar, Bool.and_eq_true, decide_eq_true_eq] at h
  simp only [isJsWhitespace]
  have h1 := h.1
  have h2 := h.2
  simp only [Bool.or_eq_false_iff, decide_eq_false_iff_not, Bool.and_eq_false_iff]
  refine ⟨⟨⟨⟨⟨⟨⟨⟨⟨⟨⟨⟨⟨⟨?_, ?_⟩, ?_⟩, ?_⟩, ?_⟩, ?_⟩, ?_⟩, ?_⟩, ?_⟩, ?_⟩, ?_⟩, ?_⟩, ?_⟩, ?_⟩, ?_⟩ <;>
    omega

theorem dropWhile_of_all_false {α : Type} (p : α → Bool) (l : List α)
    (h : ∀ a ∈ l, p a = false) : l.dropWhile p = l := by
  cases l with
  | nil => rfl
  | cons a as => simp [List.dropWhile, h a (by simp)]

theorem jsTrim_of_no_whitespace (s : String) (h : ∀ c ∈ s.data, isJsWhitespace c = false) :
    jsTrim s = s := by
  unfold jsTrim
  rw [dropWhile_of_all_false _ _ h,
    dropWhile_of_all_false _ _ (fun c hc => h c (List.mem_reverse.mp hc)), List.reverse_reverse]

theorem isNumeric_no_whitespace (s : String) (h : isNumeric s = true) :
    ∀ c ∈ s.data, isJsWhitespace c = false := by
  have hbody : ∀ body : List Char,
      (match splitAux '.' body [] with
        | [digits] => !digits.isEmpty && digits.all isDigitChar
        | [whole, frac] => whole.all isDigitChar && !frac.isEmpty && frac.all isDigitChar
        | _ => false) = true →
      ∀ c ∈ body, isJsWhitespace c = false := by
    intro body hb c hc
    rcases splitAux_mem '.' body [] c hc with h1 | ⟨piece, hp, hcp⟩
    · subst h1
      decide
    · apply isDigitChar_not_whitespace
      split at hb
      · rename_i digits heq
        rw [heq] at hp
        simp only [List.mem_singleton] at hp
        subst hp
        simp only [Bool.and_eq_true, List.all_eq_true] at hb
        exact hb.2 c hcp
      · rename_i whole frac heq
        rw [heq] at hp
        simp only [List.mem_cons, List.mem_singleton, List.not_mem_nil, or_false] at hp
        simp only [Bool.and_eq_true, List.all_eq_true] at hb
        rcases hp with hp | hp
        · subst hp
          exact hb.1.1 c hcp
        · subst hp
          exact hb.2 c hcp
      · cases hb
  unfold isNumeric at h
  intro c hc
  cases hd : s.data with
  | nil => rw [hd] at hc; cases hc
  | cons x rest =>
    rw [hd] at h hc
    simp only at h
    by_cases hx : (x = '+' || x = '-') = true
    · rw [if_pos hx] at h
      rcases List.mem_cons.mp hc with h1 | h1
      · subst h1
        simp only [Bool.or_eq_true, decide_eq_true_eq] at hx
        rcases hx with hx | hx <;> subst hx <;> decide
      · exact hbody rest h c h1
    · rw [if_neg hx] at h
      exact hbody (x :: rest) h c hc

theorem infix_of_append (l₁ l₂ l₃ : List Char) : l₂ <:+: l₁ ++ l₂ ++ l₃ :=
  ⟨l₁, l₃, rfl⟩

/-- C15: for every store state containing a seller with mobile number `m`, a seller
registration that passes field validation, uses an email held by no buyer and no
seller, and reuses `m` is answered 400 with the message `A seller account with this
mobile number already exists.`, which contains the words `mobile number`, and the
store is unchanged.  Nothing is assumed of the shop name beyond what validation asks:
the mobile check comes first. -/
theorem seller_register_rejects_reused_mobile (lib : Lib) (σ : Store) (env : AccountEnv)
    (b : SellerRegisterBody) (m : String) (s : Seller)
    (hs : s ∈ σ.sellers) (hm : s.mobileNumber = m)
    (hv : sellerRegisterValidation lib b = [])
    (hbuyer : findCustomerByEmail lib σ (b.email.getD "") = none)
    (hseller : findSellerByEmail lib σ (b.email.getD "") = none)
    (hb : b.mobileNumber = some m) :
    sellerRegister lib σ env b = (⟨400, .message msgMobileExists⟩, σ) ∧
    "mobile number".data <:+: msgMobileExists.data := by
  constructor
  · have hnum : isNumeric m = true := by
      have hv' := hv
      unfold sellerRegisterValidation at hv'
      simp only [List.append_eq_nil] at hv'
      exact checkEach_body isNumeric msgMobileRule b.mobileNumber b.elsewhere "mobileNumber" m
        hb hv'.1.1.1.2
    have htrim : jsTrim m = m := jsTrim_of_no_whitespace m (isNumeric_no_whitespace m hnum)
    have hfound : (σ.sellers.find? (fun x => x.mobileNumber = jsTrim (b.mobileNumber.getD ""))).isSome
        = true := by
      rw [List.find?_isSome]
      exact ⟨s, hs, by simp [hb, htrim, hm]⟩
    unfold sellerRegister
    rw [if_neg (by simp [hv])]
    unfold sellerRegisterTry
    simp [hbuyer, hseller, hfound]
  · exact infix_of_append "A seller account with this ".data "mobile number".data
      " already exists.".data

/-- At a concrete request: a registration that reuses the mobile number of the pending
seller, and their shop name as well, is answered with the mobile-number message. -/
theorem seller_register_rejects_reused_mobile_witness :
    sellerRegister sampleLib storePending accountEnv
        ⟨some "Eve", some "Fox", some "eve@x.com", some "1234567890", some "secret1",
          some "Corner Shop", some "9 Mill St", none, []⟩ =
      (⟨400, .message msgMobileExists⟩, storePending) ∧
    "mobile number".data <:+: msgMobileExists.data :=
  seller_register_rejects_reused_mobile sampleLib storePending accountEnv
    ⟨some "Eve", some "Fox", some "eve@x.com", some "1234567890", some "secret1",
      some "Corner Shop", some "9 Mill St", none, []⟩ "1234567890" sellerPending
    (by decide) rfl (by decide) (by decide) (by decide) rfl

/-! ## Seller approval -/

theorem authorize_admin_pass (req : Request) (u : User) (hu : req.user = some u)
    (hr : u.role = "admin") : authorize (.str "admin") req = .next u := by
  unfold authorize
  rw [hu]
  simp [Roles.toArray, hr]

theorem authorize_admin_reject (req : Request)
    (h : ∀ u, req.user = some u → u.role ≠ "admin") :
    authorize (.str "admin") req = .respond ⟨403, .message msgForbidden⟩ := by
  unfold authorize
  cases hu : req.user with
  | none => rfl
  | some u => simp [Roles.toArray, h u hu]

theorem sellerValid_approval (s : Seller) (v : Bool) :
    sellerValid { s with isApproved := v } = sellerValid s := rfl

theorem findSellerById_id (σ : Store) (id : String) (seller : Seller)
    (h : findSellerById σ id = .ok (some seller)) :
    castObjectId id = some seller._id ∧
      σ.sellers.find? (fun s => s._id = seller._id) = some seller := by
  unfold findSellerById at h
  cases hc : castObjectId id with
  | none => rw [hc] at h; cases h
  | some oid =>
    rw [hc] at h
    simp only at h
    injection h with h
    have := List.find?_some h
    simp only [decide_eq_true_eq] at this
    subst this
    exact ⟨rfl, h⟩

theorem find?_updateFirst_other {α : Type} (p q : α → Bool) (f : α → α)
    (hq : ∀ a, q (f a) = q a) (hpq : ∀ a, p a = true → q a = false) (l : List α) :
    (updateFirst p f l).find? q = l.find? q := by
  induction l with
  | nil => rfl
  | cons a as ih =>
    unfold updateFirst
    by_cases hp : p a = true
    · rw [if_pos hp]
      simp [List.find?, hq, hpq a hp]
    · rw [if_neg hp]
      simp [List.find?, ih]

theorem updateFirst_undo {α : Type} (p : α → Bool) (f g : α → α) (a₀ : α)
    (hp : ∀ a, p (f a) = p a) (hg : g (f a₀) = a₀) (l : List α)
    (hfind : l.find? p = some a₀) :
    updateFirst p g (updateFirst p f l) = l := by
  induction l with
  | nil => cases hfind
  | cons a as ih =>
    by_cases hpa : p a = true
    · have ha : a = a₀ := by simpa [List.find?, hpa] using hfind
      subst ha
      simp [updateFirst, hpa, hp, hg]
    · have hrest : as.find? p = some a₀ := by simpa [List.find?, hpa] using hfind
      simp [updateFirst, hpa, ih hrest]

theorem length_updateFirst {α : Type} (p : α → Bool) (f : α → α) (l : List α) :
    (updateFirst p f l).length = l.length := by
  induction l with
  | nil => rfl
  | cons a as ih =>
    unfold updateFirst
    split_ifs <;> simp [ih]

theorem saveSellerApproval_ok (σ : Store) (seller : Seller) (v : Bool)
    (hvalid : sellerValid seller = true) :
    saveSellerApproval σ seller v = .ok (withApproval σ seller v) := by
  unfold saveSellerApproval
  rw [sellerValid_approval, hvalid]
  simp

theorem findSellerById_withApproval (σ : Store) (id : String) (seller : Seller) (v : Bool)
    (h : findSellerById σ id = .ok (some seller)) :
    findSellerById (withApproval σ seller v) id = .ok (some { seller with isApproved := v }) := by
  obtain ⟨hc, hf⟩ := findSellerById_id σ id seller h
  unfold findSellerById withApproval
  rw [hc]
  simp only
  rw [find?_updateFirst (fun s : Seller => decide (s._id = seller._id))
    (fun s => { s with isApproved := v }) (fun a => rfl), hf]
  rfl

theorem findSellerById_withApproval_other (σ : Store) (seller : Seller) (v : Bool)
    (id' oid' : String) (hc : castObjectId id' = some oid') (hne : oid' ≠ seller._id) :
    findSellerById (withApproval σ seller v) id' = findSellerById σ id' := by
  unfold findSellerById withApproval
  rw [hc]
  simp only
  rw [find?_updateFirst_other (fun s : Seller => decide (s._id = seller._id))
    (fun s : Seller => decide (s._id = oid')) (fun s => { s with isApproved := v })
    (fun a => rfl)]
  intro a ha
  simp only [decide_eq_true_eq] at ha
  simp [ha, hne.symm]

theorem withApproval_undo (σ : Store) (id : String) (seller : Seller) (v : Bool)
    (h : findSellerById σ id = .ok (some seller)) :
    withApproval (withApproval σ seller v) { seller with isApproved := v } seller.isApproved
      = σ := by
  obtain ⟨-, hf⟩ := findSellerById_id σ id seller h
  unfold withApproval
  simp only
  rw [updateFirst_undo (fun s : Seller => decide (s._id = seller._id))
    (fun s => { s with isApproved := v }) (fun s => { s with isApproved := seller.isApproved })
    seller (fun a => rfl) rfl _ hf]

theorem approveSeller_pending (σ : Store) (id : String) (seller : Seller)
    (h : findSellerById σ id = .ok (some seller)) (hvalid : sellerValid seller = true)
    (ha : seller.isApproved = false) :
    approveSeller σ id =
      (⟨200, .sellerDoc ("Seller " ++ seller.shopName ++ " approved successfully")
        { seller with isApproved := true }⟩, withApproval σ seller true) := by
  simp [approveSeller, approveSellerTry, h, ha, saveSellerApproval_ok σ seller true hvalid,
    sellerApprovalCatch]

theorem approveSeller_approved (σ : Store) (id : String) (seller : Seller)
    (h : findSellerById σ id = .ok (some seller)) (ha : seller.isApproved = true) :
    approveSeller σ id = (⟨400, .message "Seller is already approved"⟩, σ) := by
  simp [approveSeller, approveSellerTry, h, ha, sellerApprovalCatch]

theorem rejectSeller_approved (σ : Store) (id : String) (seller : Seller)
    (h : findSellerById σ id = .ok (some seller)) (hvalid : sellerValid seller = true)
    (ha : seller.isApproved = true) :
    rejectSeller σ id =
      (⟨200, .sellerDoc ("Seller " ++ seller.shopName ++ " rejected/deactivated")
        { seller with isApproved := false }⟩, withApproval σ seller false) := by
  simp [rejectSeller, rejectSellerTry, h, ha, saveSellerApproval_ok σ seller false hvalid,
    sellerApprovalCatch]

theorem rejectSeller_pending (σ : Store) (id : String) (seller : Seller)
    (h : findSellerById σ id = .ok (some seller)) (ha : seller.isApproved = false) :
    rejectSeller σ id = (⟨400, .message "Seller is already not approved"⟩, σ) := by
  simp [rejectSeller, rejectSellerTry, h, ha, sellerApprovalCatch]

/-- C16: the seller approval transitions, for an admin requester and an existing seller
whose stored document satisfies the seller schema.  On a seller with `isApproved`
false, approve answers 200, the seller found under the id afterwards is the same
document with the flag true, every other seller is found as before, no other
collection changes, and reject answers 400 and changes nothing.  On a seller with
`isApproved` true, approve answers 400 and changes nothing, and reject mirrors approve
(200, flag false, all else as before).  Hence approve followed by reject on a pending
seller gives back the original store, and an approve that follows a successful approve
answers 400; likewise a reject that follows a successful reject. -/
theorem seller_approval_transitions (σ : Store) (req : Request) (u : User) (id : String)
    (seller : Seller) (hu : req.user = some u) (hr : u.role = "admin")
    (hf : findSellerById σ id = .ok (some seller)) (hvalid : sellerValid seller = true) :
    (seller.isApproved = false →
      (approveSellerAuthorized σ req id).1.status = 200 ∧
      findSellerById (approveSellerAuthorized σ req id).2 id =
        .ok (some { seller with isApproved := true }) ∧
      (∀ id' oid', castObjectId id' = some oid' → oid' ≠ seller._id →
        findSellerById (approveSellerAuthorized σ req id).2 id' = findSellerById σ id') ∧
      (approveSellerAuthorized σ req id).2 =
        { σ with sellers := (approveSellerAuthorized σ req id).2.sellers } ∧
      (approveSellerAuthorized σ req id).2.sellers.length = σ.sellers.length ∧
      rejectSellerAuthorized σ req id =
        (⟨400, .message "Seller is already not approved"⟩, σ) ∧
      (rejectSellerAuthorized (approveSellerAuthorized σ req id).2 req id).1.status = 200 ∧
      (rejectSellerAuthorized (approveSellerAuthorized σ req id).2 req id).2 = σ ∧
      approveSellerAuthorized (approveSellerAuthorized σ req id).2 req id =
        (⟨400, .message "Seller is already approved"⟩, (approveSellerAuthorized σ req id).2)) ∧
    (seller.isApproved = true →
      approveSellerAuthorized σ req id = (⟨400, .message "Seller is already approved"⟩, σ) ∧
      (rejectSellerAuthorized σ req id).1.status = 200 ∧
      findSellerById (rejectSellerAuthorized σ req id).2 id =
        .ok (some { seller with isApproved := false }) ∧
      (∀ id' oid', castObjectId id' = some oid' → oid' ≠ seller._id →
        findSellerById (rejectSellerAuthorized σ req id).2 id' = findSellerById σ id') ∧
      (rejectSellerAuthorized σ req id).2 =
        { σ with sellers := (rejectSellerAuthorized σ req id).2.sellers } ∧
      (rejectSellerAuthorized σ req id).2.sellers.length = σ.sellers.length ∧
      rejectSellerAuthorized (rejectSellerAuthorized σ req id).2 req id =
        (⟨400, .message "Seller is already not approved"⟩,
          (rejectSellerAuthorized σ req id).2)) := by
  have hpass := authorize_admin_pass req u hu hr
  have happ : ∀ τ, approveSellerAuthorized τ req id = approveSeller τ id := by
    intro τ
    simp [approveSellerAuthorized, hpass]
  have hrej : ∀ τ, rejectSellerAuthorized τ req id = rejectSeller τ id := by
    intro τ
    simp [rejectSellerAuthorized, hpass]
  simp only [happ, hrej]
  constructor
  · intro ha
    have h1 := findSellerById_withApproval σ id seller true hf
    rw [approveSeller_pending σ id seller hf hvalid ha]
    refine ⟨rfl, h1, ?_, rfl, ?_, rejectSeller_pending σ id seller hf ha, ?_, ?_, ?_⟩
    · intro id' oid' hc hne
      exact findSellerById_withApproval_other σ seller true id' oid' hc hne
    · exact length_updateFirst _ _ _
    · rw [rejectSeller_approved _ id _ h1 hvalid rfl]
    · rw [rejectSeller_approved _ id _ h1 hvalid rfl]
      have := withApproval_undo σ id seller true hf
      rw [ha] at this
      exact this
    · exact approveSeller_approved _ id _ h1 rfl
  · intro ha
    have h1 := findSellerById_withApproval σ id seller false hf
    rw [rejectSeller_approved σ id seller hf hvalid ha]
    refine ⟨approveSeller_approved σ id seller hf ha, rfl, h1, ?_, rfl, ?_, ?_⟩
    · intro id' oid' hc hne
      exact findSellerById_withApproval_other σ seller false id' oid' hc hne
    · exact length_updateFirst _ _ _
    · exact rejectSeller_pending _ id _ h1 rfl

/-- At concrete requests: an admin approves the pending seller, a reject then restores the
store, and approving an approved seller is answered 400. -/
theorem seller_approval_transitions_witness :
    (approveSellerAuthorized storePending (requestOf userAdmin "" none none)
        "abababababababababababab").1.status = 200 ∧
    (rejectSellerAuthorized (approveSellerAuthorized storePending
        (requestOf userAdmin "" none none) "abababababababababababab").2
      (requestOf userAdmin "" none none) "abababababababababababab").2 = storePending ∧
    approveSellerAuthorized storeProducts (requestOf userAdmin "" none none)
        "abababababababababababab" =
      (⟨400, .message "Seller is already approved"⟩, storeProducts) :=
  ⟨((seller_approval_transitions storePending (requestOf userAdmin "" none none) userAdmin
      "abababababababababababab" sellerPending rfl rfl rfl (by decide)).1 rfl).1,
   ((seller_approval_transitions storePending (requestOf userAdmin "" none none) userAdmin
      "abababababababababababab" sellerPending rfl rfl rfl (by decide)).1
      rfl).2.2.2.2.2.2.2.1,
   ((seller_approval_transitions storeProducts (requestOf userAdmin "" none none) userAdmin
      "abababababababababababab" { sellerPending with isApproved := true } rfl rfl rfl
      (by decide)).2 rfl).1⟩

/-- C17: a seller's approval flag changes only through a request of an admin-role
identity.  If the request is not authenticated, or the user its token attaches has a
role other than `admin` (`buyer`, `seller`, `superadmin`, anything else), then the
approve route and the reject route answer 401 or 403 and leave the store, hence every
seller record, unchanged. -/
theorem approval_requires_admin (verify : String → JwtResult) (σ : Store) (req : Request)
    (id : String)
    (h : ∀ req' u, protect verify req = .next req' → req'.user = some u → u.role ≠ "admin") :
    (((approveSellerRoute verify σ req id).1.status = 401 ∨
        (approveSellerRoute verify σ req id).1.status = 403) ∧
      (approveSellerRoute verify σ req id).2 = σ) ∧
    (((rejectSellerRoute verify σ req id).1.status = 401 ∨
        (rejectSellerRoute verify σ req id).1.status = 403) ∧
      (rejectSellerRoute verify σ req id).2 = σ) := by
  have hprot : ∀ r, protect verify req = .respond r → r.status = 401 := by
    intro r hr
    unfold protect at hr
    cases ha : req.authorization with
    | none => rw [ha] at hr; injection hr with hr; rw [← hr]
    | some hd =>
      rw [ha] at hr
      simp only at hr
      split_ifs at hr
      · cases hv : jwtVerify verify (bearerToken hd) <;> rw [hv] at hr <;> cases hr <;> rfl
      · injection hr with hr
        rw [← hr]
  unfold approveSellerRoute rejectSellerRoute
  cases hp : protect verify req with
  | respond r =>
    have := hprot r hp
    exact ⟨⟨Or.inl this, rfl⟩, ⟨Or.inl this, rfl⟩⟩
  | next req' =>
    have hrej := authorize_admin_reject req' (fun u hu => h req' u hp hu)
    simp [approveSellerAuthorized, rejectSellerAuthorized, hrej]

/-- At concrete requests: a superadmin's approve and a reject without any header are
refused and change nothing. -/
theorem approval_requires_admin_witness :
    (((approveSellerRoute staffVerify storePending (requestWithHeader (some "Bearer super"))
          "abababababababababababab").1.status = 401 ∨
        (approveSellerRoute staffVerify storePending (requestWithHeader (some "Bearer super"))
          "abababababababababababab").1.status = 403) ∧
      (approveSellerRoute staffVerify storePending (requestWithHeader (some "Bearer super"))
        "abababababababababababab").2 = storePending) ∧
    (((rejectSellerRoute staffVerify storeProducts (requestWithHeader none)
          "abababababababababababab").1.status = 401 ∨
        (rejectSellerRoute staffVerify storeProducts (requestWithHeader none)
          "abababababababababababab").1.status = 403) ∧
      (rejectSellerRoute staffVerify storeProducts (requestWithHeader none)
        "abababababababababababab").2 = storeProducts) :=
  ⟨(approval_requires_admin staffVerify storePending (requestWithHeader (some "Bearer super"))
      "abababababababababababab" (by
        intro req' u hp hu
        have e : protect staffVerify (requestWithHeader (some "Bearer super")) =
            .next { requestWithHeader (some "Bearer super") with user := some userSuper } := by
          decide
        rw [e] at hp
        injection hp with hp
        subst hp
        injection hu with hu
        subst hu
        decide)).1,
   (approval_requires_admin staffVerify storeProducts (requestWithHeader none)
      "abababababababababababab" (by
        intro req' u hp
        have e : protect staffVerify (requestWithHeader none) =
            .respond ⟨401, .message msgNoToken⟩ := by decide
        rw [e] at hp
        cases hp)).2⟩

/-! ## Products -/

theorem authorize_seller_pass (req : Request) (u : User) (hu : req.user = some u)
    (hr : u.role = "seller") : authorize (.str "seller") req = .next u := by
  unfold authorize
  rw [hu]
  simp [Roles.toArray, hr]

theorem createProduct_approved (σ : Store) (env : Env) (u : User) (oid : String)
    (b : ProductBody) (s : Seller)
    (hid : castObjectId u.id = some oid)
    (hv : productValidation b = [])
    (hschema : productValid (newProduct env oid b) = true)
    (hfresh : ∀ p ∈ σ.products, p._id ≠ env.newId)
    (hs : σ.sellers.find? (fun x => x._id = oid) = some s) (ha : s.isApproved = true) :
    createProduct σ env u b =
      (⟨201, .productDoc "Product added successfully" (newProduct env oid b)⟩,
        { σ with products := σ.products ++ [newProduct env oid b] }) := by
  have hany : σ.products.any (fun x => decide (x._id = (newProduct env oid b)._id)) = false := by
    rw [List.any_eq_false]
    intro p hp
    simpa [newProduct] using hfresh p hp
  simp [createProduct, hv, createProductTry, findSellerById, hid, hs, ha, insertProduct,
    hschema, hany]

theorem createProduct_not_approved (σ : Store) (env : Env) (u : User) (oid : String)
    (b : ProductBody)
    (hid : castObjectId u.id = some oid)
    (hv : productValidation b = [])
    (hs : ¬ ∃ s, σ.sellers.find? (fun x => x._id = oid) = some s ∧ s.isApproved = true) :
    createProduct σ env u b = (⟨403, .message msgOnlyApprovedSellers⟩, σ) := by
  have : (σ.sellers.find? (fun x => decide (x._id = oid))).isNone = true ∨
      (σ.sellers.find? (fun x => decide (x._id = oid))).map (fun s => s.isApproved) ≠
        some true := by
    cases hf : σ.sellers.find? (fun x => decide (x._id = oid)) with
    | none => exact Or.inl rfl
    | some s =>
      right
      intro h
      simp only [Option.map_some', Option.some.injEq] at h
      exact hs ⟨s, hf, h⟩
  unfold createProduct
  rw [if_neg (by simp [hv])]
  unfold createProductTry findSellerById
  rw [hid]
  dsimp only
  rw [if_pos this]

theorem castNumber_of_ge (v : Option String) (h : (castNumber v).ge 0 = true) :
    castNumber v = toNumberOf v := by
  cases v with
  | none => cases h
  | some s =>
    by_cases hs : s = ""
    · subst hs
      cases h
    · simp [castNumber, toNumberOf, hs]

theorem productValid_numbers (p : Product) (h : productValid p = true) :
    p.price.ge 0 = true ∧ p.stock.ge 0 = true := by
  simp only [productValid, Bool.and_eq_true] at h
  exact ⟨h.1.1.1.2, h.2⟩

/-- C18: for a seller-role requester (whose id, as a token carries it, is a well-formed
object id), a payload that satisfies the route's validators (in the body and wherever
else the request carries the validated fields) and the product schema, and a generated
`_id` not yet in the collection: `POST /products` answers 201 and appends a product
whose `seller` is the requester, whose `price` and `stock` are the numbers the body's
values convert to, and whose `isAvailable` is `stock > 0`, exactly when the requester's
seller record exists and has `isApproved` true, and otherwise answers 403 and leaves the
store unchanged.  In particular, once an admin has approved the requester's pending
seller record, the creation call on the resulting store answers 201. -/
theorem create_product_iff_approved (σ : Store) (env : Env) (req : Request) (u : User)
    (oid : String) (b : ProductBody)
    (hu : req.user = some u) (hr : u.role = "seller")
    (hid : castObjectId u.id = some oid)
    (hv : productValidation b = [])
    (hschema : productValid (newProduct env oid b) = true)
    (hfresh : ∀ p ∈ σ.products, p._id ≠ env.newId) :
    ((∃ s, σ.sellers.find? (fun x => x._id = oid) = some s ∧ s.isApproved = true) →
      createProductRoute σ env req b =
        (⟨201, .productDoc "Product added successfully" (newProduct env oid b)⟩,
          { σ with products := σ.products ++ [newProduct env oid b] }) ∧
      (newProduct env oid b).seller = oid ∧
      (newProduct env oid b).price = toNumberOf b.price ∧
      (newProduct env oid b).stock = toNumberOf b.stock ∧
      (newProduct env oid b).isAvailable = (toNumberOf b.stock).gt 0) ∧
    ((¬ ∃ s, σ.sellers.find? (fun x => x._id = oid) = some s ∧ s.isApproved = true) →
      createProductRoute σ env req b = (⟨403, .message msgOnlyApprovedSellers⟩, σ)) ∧
    ((createProductRoute σ env req b).1.status = 201 ↔
      ∃ s, σ.sellers.find? (fun x => x._id = oid) = some s ∧ s.isApproved = true) ∧
    (∀ (areq : Request) (a : User) (s : Seller), areq.user = some a → a.role = "admin" →
      findSellerById σ u.id = .ok (some s) → sellerValid s = true → s.isApproved = false →
      (approveSellerAuthorized σ areq u.id).1.status = 200 ∧
      (createProductRoute (approveSellerAuthorized σ areq u.id).2 env req b).1.status = 201) := by
  have hpass := authorize_seller_pass req u hu hr
  have hroute : ∀ τ, createProductRoute τ env req b = createProduct τ env u b := by
    intro τ
    simp [createProductRoute, hpass]
  have hyes : (∃ s, σ.sellers.find? (fun x => x._id = oid) = some s ∧ s.isApproved = true) →
      createProductRoute σ env req b =
        (⟨201, .productDoc "Product added successfully" (newProduct env oid b)⟩,
          { σ with products := σ.products ++ [newProduct env oid b] }) := by
    rintro ⟨s, hs, ha⟩
    rw [hroute]
    exact createProduct_approved σ env u oid b s hid hv hschema hfresh hs ha
  have hno : (¬ ∃ s, σ.sellers.find? (fun x => x._id = oid) = some s ∧ s.isApproved = true) →
      createProductRoute σ env req b = (⟨403, .message msgOnlyApprovedSellers⟩, σ) := by
    intro hs
    rw [hroute]
    exact createProduct_not_approved σ env u oid b hid hv hs
  have hnum := productValid_numbers _ hschema
  refine ⟨fun h => ⟨hyes h, rfl, castNumber_of_ge b.price hnum.1,
    castNumber_of_ge b.stock hnum.2, rfl⟩, hno, ?_, ?_⟩
  · constructor
    · intro h201
      by_contra hs
      rw [hno hs] at h201
      simp at h201
    · intro h
      rw [hyes h]
  · intro areq a s ha hra hf hsv hpend
    have happ : approveSellerAuthorized σ areq u.id =
        (⟨200, .sellerDoc ("Seller " ++ s.shopName ++ " approved successfully")
          { s with isApproved := true }⟩, withApproval σ s true) := by
      simp only [approveSellerAuthorized, authorize_admin_pass areq a ha hra]
      exact approveSeller_pending σ u.id s hf hsv hpend
    rw [happ]
    refine ⟨rfl, ?_⟩
    have hfound := findSellerById_withApproval σ u.id s true hf
    obtain ⟨hc, hfs⟩ := findSellerById_id _ u.id _ hfound
    rw [hid] at hc
    injection hc with hc
    show (createProductRoute (withApproval σ s true) env req b).1.status = 201
    rw [hroute]
    rw [createProduct_approved (withApproval σ s true) env u oid b { s with isApproved := true }
      hid hv hschema hfresh (by rw [hc]; exact hfs) rfl]

/-- At concrete requests: the approved seller's creation of a lamp at the price `29.5`
is answered 201 and stores that price, the pending seller's is answered 403, and after
an admin's approval the pending seller's creation is answered 201. -/
theorem create_product_iff_approved_witness :
    (createProductRoute storeProducts productEnv (requestOf userPending "" none none) lampBody
        = (⟨201, .productDoc "Product added successfully"
            (newProduct productEnv "abababababababababababab" lampBody)⟩,
          { storeProducts with products := storeProducts.products ++
              [newProduct productEnv "abababababababababababab" lampBody] }) ∧
      (newProduct productEnv "abababababababababababab" lampBody).seller =
        "abababababababababababab" ∧
      (newProduct productEnv "abababababababababababab" lampBody).price =
        .finite (mkRat 59 2) ∧
      (newProduct productEnv "abababababababababababab" lampBody).stock = 5 ∧
      (newProduct productEnv "abababababababababababab" lampBody).isAvailable = true) ∧
    createProductRoute storePending productEnv (requestOf userPending "" none none) lampBody =
      (⟨403, .message msgOnlyApprovedSellers⟩, storePending) ∧
    ((approveSellerAuthorized storePending (requestOf userAdmin "" none none)
        userPending.id).1.status = 200 ∧
      (createProductRoute (approveSellerAuthorized storePending
        (requestOf userAdmin "" none none) userPending.id).2 productEnv
        (requestOf userPending "" none none) lampBody).1.status = 201) :=
  ⟨(create_product_iff_approved storeProducts productEnv (requestOf userPending "" none none)
      userPending "abababababababababababab" lampBody rfl rfl (by decide) (by decide)
      (by decide) (by decide)).1 ⟨{ sellerPending with isApproved := true }, by decide, rfl⟩,
   (create_product_iff_approved storePending productEnv (requestOf userPending "" none none)
      userPending "abababababababababababab" lampBody rfl rfl (by decide) (by decide)
      (by decide) (by decide)).2.1 (by
        rintro ⟨s, hs, ha⟩
        have e : storePending.sellers.find? (fun x => x._id = "abababababababababababab") =
            some sellerPending := by decide
        rw [e] at hs
        injection hs with hs
        subst hs
        cases ha),
   (create_product_iff_approved storePending productEnv (requestOf userPending "" none none)
      userPending "abababababababababababab" lampBody rfl rfl (by decide) (by decide)
      (by decide) (by decide)).2.2.2 (requestOf userAdmin "" none none) userAdmin
      sellerPending rfl rfl rfl (by decide) rfl⟩

theorem assignProductKeys_cons (b : ProductPatch) (p : Product) (key : String)
    (rest : List String) :
    assignProductKeys b p (key :: rest) = .error (.reference "productSchema") := rfl

/-- Whatever keys the body of `PUT /products/:id` has, if it has any, the authorised
update of an existing product ends in the `catch` block: the answer is 500 and the
store is as before. -/
theorem updateProduct_any_key_fails (σ : Store) (now : Int) (u : User) (id : String)
    (b : ProductPatch) (product : Product)
    (hv : productPatchValidation b = [])
    (hf : findProductById σ id = .ok (some product))
    (hauth : u.role = "admin" ∨ product.seller = u.id)
    (hkeys : b.keys ≠ []) :
    updateProduct σ now u id b = (⟨500, .text "Server error when updating product"⟩, σ) := by
  obtain ⟨key, rest, hk⟩ : ∃ key rest, b.keys = key :: rest := by
    cases h : b.keys with
    | nil => exact absurd h hkeys
    | cons key rest => exact ⟨key, rest, rfl⟩
  have hnot : ¬ (u.role ≠ "admin" ∧ product.seller ≠ u.id) := by
    rintro ⟨h1, h2⟩
    rcases hauth with h | h
    · exact h1 h
    · exact h2 h
  unfold updateProduct
  rw [if_neg (by simp [hv])]
  unfold updateProductTry
  rw [hf]
  dsimp only
  rw [if_neg hnot, hk, assignProductKeys_cons]

/-- C19: at a concrete request, `PUT /products/:id` issued by the owning seller with the
one field `name`, and issued by an admin with the one field `price`, is answered 500
`Server error when updating product` and leaves the store as it was: the loop over the
keys of the body evaluates the unbound identifier `productSchema`. -/
theorem update_with_a_field_answers_500 :
    storeProducts.products = [productP] ∧ productP.seller = userPending.id ∧
    productPatchValidation { emptyPatch with name := some "Desk lamp" } = [] ∧
    updateProductRoute storeProducts 50 (requestOf userPending "" none none)
        "121212121212121212121212" { emptyPatch with name := some "Desk lamp" } =
      (⟨500, .text "Server error when updating product"⟩, storeProducts) ∧
    updateProductRoute storeProducts 50 (requestOf userAdmin "" none none)
        "121212121212121212121212" { emptyPatch with price := some "25" } =
      (⟨500, .text "Server error when updating product"⟩, storeProducts) := by
  decide

/-- C20: at a concrete request, `PUT /products/:id` issued by the owning seller with the
one field `stock` set to 0 is answered 500 and stores nothing: the product keeps its
stock of 5 and stays available. -/
theorem update_with_stock_answers_500 :
    storeProducts.products = [productP] ∧ productP.seller = userPending.id ∧
    productP.stock = 5 ∧ productP.isAvailable = true ∧
    updateProductRoute storeProducts 50 (requestOf userPending "" none none)
        "121212121212121212121212" { emptyPatch with stock := some "0" } =
      (⟨500, .text "Server error when updating product"⟩, storeProducts) ∧
    (updateProductRoute storeProducts 50 (requestOf userPending "" none none)
        "121212121212121212121212" { emptyPatch with stock := some "0" }).2.products =
      [productP] := by
  decide

/-! ## Ownership of products -/

theorem authorize_product_roles_pass (req : Request) (u : User) (hu : req.user = some u)
    (h : u.role = "seller" ∨ u.role = "admin") :
    authorize (.arr ["seller", "admin"]) req = .next u := by
  unfold authorize
  rw [hu]
  rcases h with h | h <;> simp [Roles.toArray, h]

theorem authorize_product_roles_reject (req : Request) (u : User) (hu : req.user = some u)
    (h₁ : u.role ≠ "seller") (h₂ : u.role ≠ "admin") :
    authorize (.arr ["seller", "admin"]) req = .respond ⟨403, .message msgForbidden⟩ := by
  unfold authorize
  rw [hu]
  simp [Roles.toArray, h₁, h₂]

theorem updateProduct_stranger (σ : Store) (now : Int) (u : User) (id : String)
    (b : ProductPatch) (product : Product) (hp : findProductById σ id = .ok (some product))
    (h₁ : u.role ≠ "admin") (h₂ : product.seller ≠ u.id) :
    (updateProduct σ now u id b).2 = σ ∧
    (productPatchValidation b = [] → (updateProduct σ now u id b).1.status = 403) ∧
    (productPatchValidation b ≠ [] → (updateProduct σ now u id b).1.status = 400) := by
  unfold updateProduct
  by_cases hv : productPatchValidation b = []
  · simp [hv, updateProductTry, hp, h₁, h₂]
  · simp [hv]

theorem deleteProduct_stranger (σ : Store) (u : User) (id : String) (product : Product)
    (hp : findProductById σ id = .ok (some product))
    (h₁ : u.role ≠ "admin") (h₂ : product.seller ≠ u.id) :
    deleteProduct σ u id = (⟨403, .message msgNotYourProductToDelete⟩, σ) := by
  simp [deleteProduct, deleteProductTry, hp, h₁, h₂]

theorem deleteProduct_owner (σ : Store) (u : User) (id : String) (product : Product)
    (hp : findProductById σ id = .ok (some product))
    (h : u.role = "admin" ∨ product.seller = u.id) :
    deleteProduct σ u id =
      (⟨200, .message "Product deleted successfully"⟩, removeProduct σ product) := by
  have hc : ¬ (u.role ≠ "admin" ∧ product.seller ≠ u.id) := by
    rcases h with h | h <;> simp [h]
  simp only [deleteProduct, deleteProductTry, hp, if_neg hc]

theorem saveProduct_cases (σ : Store) (now : Int) (p : Product) :
    saveProduct σ now p = .error (.store .validation) ∨ ∃ out, saveProduct σ now p = .ok out := by
  unfold saveProduct
  by_cases h : productValid p <;> simp [h]

theorem updateProduct_owner_status (σ : Store) (now : Int) (u : User) (id : String)
    (b : ProductPatch) (product : Product) (hp : findProductById σ id = .ok (some product))
    (h : u.role = "admin" ∨ product.seller = u.id) :
    (updateProduct σ now u id b).1.status = 400 ∨ (updateProduct σ now u id b).1.status = 500 ∨
      (updateProduct σ now u id b).1.status = 200 := by
  have hc : ¬ (u.role ≠ "admin" ∧ product.seller ≠ u.id) := by
    rcases h with h | h <;> simp [h]
  unfold updateProduct
  by_cases hv : productPatchValidation b = []
  · rw [if_neg (by simp [hv])]
    unfold updateProductTry
    simp only [hp, if_neg hc]
    cases assignProductKeys b product b.keys with
    | error e => cases e with
      | store e => cases e <;> simp
      | reference n => simp
    | ok assigned =>
      dsimp only
      obtain hs | ⟨out, hs⟩ := saveProduct_cases σ now
          (if b.stock.isSome = true then
            { assigned with isAvailable := assigned.stock.gt 0 }
           else assigned)
      · rw [hs]; simp
      · rw [hs]; simp
  · simp [hv]

/-- C21 (amended).  For an existing product and a requester attached by `protect` who is
neither an admin nor the seller owning the product, `PUT /products/:id` and
`DELETE /products/:id` leave the store unchanged; `DELETE` answers 403, and so does `PUT`
when the request passes the field validation (otherwise the answer is 400, or the 403
of `authorize`).  A requester who is an admin, or the owning seller, is answered 403 by
neither route. -/
theorem product_ownership_check (σ : Store) (now : Int) (req : Request) (u : User)
    (id : String) (b : ProductPatch) (product : Product) (hu : req.user = some u)
    (hp : findProductById σ id = .ok (some product)) :
    ((u.role ≠ "admin" ∧ ¬ (u.role = "seller" ∧ product.seller = u.id)) →
      (updateProductRoute σ now req id b).2 = σ ∧
      (productPatchValidation b = [] → (updateProductRoute σ now req id b).1.status = 403) ∧
      ((updateProductRoute σ now req id b).1.status = 403 ∨
        (updateProductRoute σ now req id b).1.status = 400) ∧
      (deleteProductRoute σ req id).1.status = 403 ∧ (deleteProductRoute σ req id).2 = σ) ∧
    ((u.role = "admin" ∨ (u.role = "seller" ∧ product.seller = u.id)) →
      (updateProductRoute σ now req id b).1.status ≠ 403 ∧
      (deleteProductRoute σ req id).1.status ≠ 403) := by
  constructor
  · rintro ⟨h₁, h₂⟩
    by_cases hs : u.role = "seller"
    · have h₃ : product.seller ≠ u.id := fun h => h₂ ⟨hs, h⟩
      have ha := authorize_product_roles_pass req u hu (Or.inl hs)
      have hput := updateProduct_stranger σ now u id b product hp h₁ h₃
      have hdel := deleteProduct_stranger σ u id product hp h₁ h₃
      simp only [updateProductRoute, deleteProductRoute, ha, hdel]
      refine ⟨hput.1, hput.2.1, ?_, trivial, trivial⟩
      by_cases hv : productPatchValidation b = []
      · exact Or.inl (hput.2.1 hv)
      · exact Or.inr (hput.2.2 hv)
    · have ha := authorize_product_roles_reject req u hu hs h₁
      simp [updateProductRoute, deleteProductRoute, ha]
  · intro h
    have hr : u.role = "seller" ∨ u.role = "admin" := by
      rcases h with h | h
      · exact Or.inr h
      · exact Or.inl h.1
    have ho : u.role = "admin" ∨ product.seller = u.id := by
      rcases h with h | h
      · exact Or.inl h
      · exact Or.inr h.2
    have ha := authorize_product_roles_pass req u hu hr
    simp only [updateProductRoute, deleteProductRoute, ha,
      deleteProduct_owner σ u id product hp ho]
    constructor
    · rcases updateProduct_owner_status σ now u id b product hp ho with h | h | h <;>
        rw [h] <;> decide
    · decide

/-- The product of the examples is stored under its id, and seller B neither owns it
nor is an admin. -/
theorem product_ownership_check_witness :
    (updateProductRoute storeProducts 50 (requestOf userB "" none none)
        "121212121212121212121212" emptyPatch).1.status = 403 ∧
    (deleteProductRoute storeProducts (requestOf userB "" none none)
        "121212121212121212121212") = (⟨403, .message msgNotYourProductToDelete⟩, storeProducts) ∧
    (deleteProductRoute storeProducts (requestOf userPending "" none none)
        "121212121212121212121212").1.status ≠ 403 := by
  have h := product_ownership_check storeProducts 50 (requestOf userB "" none none) userB
    "121212121212121212121212" emptyPatch productP rfl rfl
  have h' := product_ownership_check storeProducts 50 (requestOf userPending "" none none)
    userPending "121212121212121212121212" emptyPatch productP rfl rfl
  refine ⟨(h.1 (by decide)).2.1 (by decide), ?_, (h'.2 (by decide)).2⟩
  decide

/-- C21 (as stated) fails on a body that does not pass the field validation: seller B,
who does not own the product, sends `PUT` with an empty `name` and is answered 400, not
403. -/
theorem update_by_stranger_invalid_body_answers_400 :
    updateProductRoute storeProducts 50 (requestOf userB "" none none)
      "121212121212121212121212" { emptyPatch with name := some "" } =
      (⟨400, .validation "Validation errors" ["Product name is required"]⟩, storeProducts) := by
  decide

/-! ## Deleting a product -/

theorem find?_eraseP_key_self {α : Type} (key : α → String) (a : String) (l : List α)
    (h : (l.map key).Nodup) :
    (l.eraseP (fun x => key x = a)).find? (fun x => key x = a) = none := by
  induction l with
  | nil => rfl
  | cons x xs ih =>
    rw [List.map_cons, List.nodup_cons] at h
    by_cases hx : key x = a
    · rw [List.eraseP_cons_of_pos (by simpa using hx)]
      rw [List.find?_eq_none]
      intro y hy
      simp only [decide_eq_true_eq]
      intro hya
      exact h.1 (by rw [hx, ← hya]; exact List.mem_map_of_mem key hy)
    · rw [List.eraseP_cons_of_neg (by simpa using hx), List.find?_cons_of_neg _ (by simpa using hx)]
      exact ih h.2

theorem find?_eraseP_key_other {α : Type} (key : α → String) (a b : String) (hab : a ≠ b)
    (l : List α) :
    (l.eraseP (fun x => key x = a)).find? (fun x => key x = b) =
      l.find? (fun x => key x = b) := by
  induction l with
  | nil => rfl
  | cons x xs ih =>
    by_cases hx : key x = a
    · have hb : ¬ key x = b := fun h => hab (hx.symm.trans h)
      rw [List.eraseP_cons_of_pos (by simpa using hx), List.find?_cons_of_neg _ (by simpa using hb)]
    · rw [List.eraseP_cons_of_neg (by simpa using hx)]
      by_cases hb : key x = b
      · rw [List.find?_cons_of_pos _ (by simpa using hb), List.find?_cons_of_pos _ (by simpa using hb)]
      · rw [List.find?_cons_of_neg _ (by simpa using hb), List.find?_cons_of_neg _ (by simpa using hb)]
        exact ih

theorem find?_key_of_mem {α : Type} (key : α → String) (l : List α)
    (h : (l.map key).Nodup) (q : α) (hq : q ∈ l) :
    l.find? (fun x => key x = key q) = some q := by
  induction l with
  | nil => cases hq
  | cons x xs ih =>
    rw [List.map_cons, List.nodup_cons] at h
    rcases List.mem_cons.1 hq with rfl | hq'
    · rw [List.find?_cons_of_pos _ (by simp)]
    · have hx : ¬ key x = key q := fun e => h.1 (by rw [e]; exact List.mem_map_of_mem key hq')
      rw [List.find?_cons_of_neg _ (by simpa using hx)]
      exact ih h.2 hq'

theorem findProductById_some (σ : Store) (id : String) (p : Product)
    (hp : findProductById σ id = .ok (some p)) :
    castObjectId id = some p._id ∧ p ∈ σ.products := by
  unfold findProductById at hp
  cases hc : castObjectId id with
  | none => rw [hc] at hp; cases hp
  | some oid =>
    rw [hc] at hp
    simp only [Except.ok.injEq] at hp
    have h := List.find?_some hp
    simp only [decide_eq_true_eq] at h
    exact ⟨by rw [h], List.mem_of_find?_eq_some hp⟩

/-- C22.  In a store whose products have distinct ids, for an existing product `p` and a
requester attached by `protect` who is an admin or the seller owning `p`,
`DELETE /products/:id` answers 200, the detail fetch of the same id then answers 404,
and the detail fetch of every other stored product answers 200 with that product and
its populated seller, as it did before. -/
theorem delete_then_detail_not_found (σ : Store) (req : Request) (u : User) (id : String)
    (p : Product) (hu : req.user = some u) (hp : findProductById σ id = .ok (some p))
    (hids : (σ.products.map (fun x => x._id)).Nodup)
    (ho : u.role = "admin" ∨ (u.role = "seller" ∧ p.seller = u.id)) :
    (deleteProductRoute σ req id).1 = ⟨200, .message "Product deleted successfully"⟩ ∧
    getProduct (deleteProductRoute σ req id).2 id = ⟨404, .message msgProductNotFound⟩ ∧
    ∀ q ∈ σ.products, q ≠ p → ∀ id', castObjectId id' = some q._id →
      getProduct (deleteProductRoute σ req id).2 id' =
        ⟨200, .productDetail q (populateSeller σ q)⟩ ∧
      getProduct σ id' = ⟨200, .productDetail q (populateSeller σ q)⟩ := by
  have hr : u.role = "seller" ∨ u.role = "admin" := by
    rcases ho with h | h
    · exact Or.inr h
    · exact Or.inl h.1
  have ho' : u.role = "admin" ∨ p.seller = u.id := by
    rcases ho with h | h
    · exact Or.inl h
    · exact Or.inr h.2
  obtain ⟨hc, hmem⟩ := findProductById_some σ id p hp
  have hroute : deleteProductRoute σ req id =
      (⟨200, .message "Product deleted successfully"⟩, removeProduct σ p) := by
    simp only [deleteProductRoute, authorize_product_roles_pass req u hu hr,
      deleteProduct_owner σ u id p hp ho']
  rw [hroute]
  refine ⟨rfl, ?_, ?_⟩
  · simp only [getProduct, getProductTry, findProductById, hc, removeProduct]
    rw [find?_eraseP_key_self (fun x : Product => x._id) p._id σ.products hids]
  · intro q hq hne id' hid'
    have hkey : p._id ≠ q._id := by
      intro e
      have h₁ := find?_key_of_mem (fun x : Product => x._id) σ.products hids p hmem
      have h₂ := find?_key_of_mem (fun x : Product => x._id) σ.products hids q hq
      simp only [e] at h₁
      rw [h₁] at h₂
      exact hne (Option.some.inj h₂).symm
    have hfind := find?_key_of_mem (fun x : Product => x._id) σ.products hids q hq
    constructor
    · simp only [getProduct, getProductTry, findProductById, hid', removeProduct]
      rw [find?_eraseP_key_other (fun x : Product => x._id) p._id q._id hkey, hfind]
      rfl
    · simp only [getProduct, getProductTry, findProductById, hid']
      rw [hfind]

/-- The owning seller deletes the lamp: 200, then 404 for the lamp, and the shade is
fetched as before. -/
theorem delete_then_detail_not_found_witness :
    (deleteProductRoute storeTwoProducts (requestOf userPending "" none none)
        "121212121212121212121212").1 = ⟨200, .message "Product deleted successfully"⟩ ∧
    getProduct (deleteProductRoute storeTwoProducts (requestOf userPending "" none none)
        "121212121212121212121212").2 "121212121212121212121212" =
      ⟨404, .message msgProductNotFound⟩ ∧
    getProduct (deleteProductRoute storeTwoProducts (requestOf userPending "" none none)
        "121212121212121212121212").2 "787878787878787878787878" =
      ⟨200, .productDetail productQ (some ⟨"abababababababababababab", "Corner Shop",
        "shop@x.com", "1234567890"⟩)⟩ := by
  have h := delete_then_detail_not_found storeTwoProducts (requestOf userPending "" none none)
    userPending "121212121212121212121212" productP rfl rfl (by decide) (by decide)
  exact ⟨h.1, h.2.1, (h.2.2 productQ (by decide) (by decide) "787878787878787878787878"
    (by decide)).1⟩

/-! ## Availability and stock -/

theorem mem_updateFirst {α : Type} (p : α → Bool) (f : α → α) (l : List α) (x : α)
    (hx : x ∈ updateFirst p f l) : x ∈ l ∨ ∃ a ∈ l, x = f a := by
  induction l with
  | nil => cases hx
  | cons a as ih =>
    unfold updateFirst at hx
    by_cases ha : p a = true
    · rw [if_pos ha] at hx
      rcases List.mem_cons.1 hx with h | h
      · exact Or.inr ⟨a, List.mem_cons_self _ _, h⟩
      · exact Or.inl (List.mem_cons_of_mem _ h)
    · rw [if_neg ha] at hx
      rcases List.mem_cons.1 hx with h | h
      · exact Or.inl (h ▸ List.mem_cons_self _ _)
      · rcases ih h with h' | ⟨b, hb, hxb⟩
        · exact Or.inl (List.mem_cons_of_mem _ h')
        · exact Or.inr ⟨b, List.mem_cons_of_mem _ hb, hxb⟩

theorem castNumber_gt_zero (v : Option String) :
    (castNumber v).gt 0 = (toNumberOf v).gt 0 := by
  cases v with
  | none => rfl
  | some s =>
    by_cases hs : s = ""
    · subst hs
      decide
    · simp [castNumber, toNumberOf, hs]

theorem createProduct_keeps_availability (σ : Store) (env : Env) (u : User)
    (b : ProductBody) (h : AvailabilityFollowsStock σ) :
    AvailabilityFollowsStock (createProduct σ env u b).2 := by
  unfold createProduct
  by_cases hv : productValidation b = []
  · rw [if_neg (by simp [hv])]
    unfold createProductTry
    cases findSellerById σ u.id with
    | error e => exact h
    | ok seller =>
      dsimp only
      split_ifs with hs
      · exact h
      · cases castObjectId u.id with
        | none => exact h
        | some sellerId =>
          dsimp only
          unfold insertProduct
          split_ifs <;> first
            | exact h
            | (intro p hp
               rcases List.mem_append.1 hp with hp | hp
               · exact h p hp
               · rw [List.mem_singleton] at hp
                 rw [hp]
                 exact (castNumber_gt_zero b.stock).symm)
  · rw [if_pos hv]
    exact h

theorem updateProduct_keeps_availability (σ : Store) (now : Int) (u : User) (id : String)
    (b : ProductPatch) (h : AvailabilityFollowsStock σ) :
    AvailabilityFollowsStock (updateProduct σ now u id b).2 := by
  unfold updateProduct
  by_cases hv : productPatchValidation b = []
  · rw [if_neg (by simp [hv])]
    unfold updateProductTry
    cases hf : findProductById σ id with
    | error e => cases e <;> exact h
    | ok found =>
      cases found with
      | none => exact h
      | some product =>
        dsimp only
        by_cases hc : u.role ≠ "admin" ∧ product.seller ≠ u.id
        · rw [if_pos hc]
          exact h
        · rw [if_neg hc]
          cases hk : b.keys with
          | cons key rest => rw [assignProductKeys_cons]; exact h
          | nil =>
            have hmem := (findProductById_some σ id product hf).2
            have hprod := h product hmem
            simp only [assignProductKeys]
            unfold saveProduct
            split_ifs <;> first
              | exact h
              | (intro x hx
                 rcases mem_updateFirst _ _ _ x hx with hx | ⟨a, _, hx⟩
                 · exact h x hx
                 · subst hx
                   first
                     | rfl
                     | exact hprod)
  · rw [if_pos hv]
    exact h

/-- C27.  If every stored product has `isAvailable = (stock > 0)`, then so has every
stored product after `POST /products` and after `PUT /products/:id`, whatever the
requester attached by `protect`, the path id and the payload, and whether or not the
request succeeds. -/
theorem availability_follows_stock_kept (σ : Store) (env : Env) (now : Int) (req : Request)
    (id : String) (b : ProductBody) (patch : ProductPatch)
    (h : AvailabilityFollowsStock σ) :
    AvailabilityFollowsStock (createProductRoute σ env req b).2 ∧
    AvailabilityFollowsStock (updateProductRoute σ now req id patch).2 := by
  constructor
  · unfold createProductRoute
    cases authorize (.str "seller") req with
    | respond r => exact h
    | next u => exact createProduct_keeps_availability σ env u b h
  · unfold updateProductRoute
    cases authorize (.arr ["seller", "admin"]) req with
    | respond r => exact h
    | next u => exact updateProduct_keeps_availability σ now u id patch h

/-- The store of two products has the property; it keeps it when the owner adds a lamp,
and when the owner sends `isAvailable: true` without `stock` for the shade, whose
stock is 0. -/
theorem availability_follows_stock_kept_witness :
    AvailabilityFollowsStock storeTwoProducts ∧
    AvailabilityFollowsStock (createProductRoute storeTwoProducts productEnv
      (requestOf userPending "" none none) lampBody).2 ∧
    AvailabilityFollowsStock (updateProductRoute storeTwoProducts 50
      (requestOf userPending "" none none) "787878787878787878787878"
      { emptyPatch with isAvailable := some true }).2 := by
  have h₀ : AvailabilityFollowsStock storeTwoProducts := by
    unfold AvailabilityFollowsStock
    decide
  exact ⟨h₀, availability_follows_stock_kept storeTwoProducts productEnv 50
    (requestOf userPending "" none none) "787878787878787878787878" lampBody
    { emptyPatch with isAvailable := some true } h₀⟩

/-! ## Error answers -/

/-- C28: at a concrete request with valid names and email, buyer registration rejects
the password `12345`, which has 5 characters, with 400 and the message `Password must be
at least 5 characters`; the password `123456` passes.  The validator behind the message
is `isLength({ min: 6 })`. -/
theorem register_rejects_five_character_password :
    validatorLength "12345" = 5 ∧
    register sampleLib storeEmpty accountEnv
        ⟨some "Ann", some "Lee", some "new@x.com", some "12345", []⟩ =
      (⟨400, .validation "Validation errors" ["Password must be at least 5 characters"]⟩,
        storeEmpty) ∧
    (register sampleLib storeEmpty accountEnv
        ⟨some "Ann", some "Lee", some "new@x.com", some "123456", []⟩).1.status = 201 := by
  decide

/-- C24 (as stated) fails on the answer of a `catch` block to a failure it does not
name, which is status 500 with a plain-text body, not a JSON object with a `message`: a
buyer registration whose first name is one space (it passes the validators of the route
and fails the schema on `save()`), and a chat initiation whose `productId` passes
`isMongoId` and fails the cast on `save()`. -/
theorem server_errors_are_plain_text :
    register sampleLib storeEmpty accountEnv
        ⟨some " ", some "Lee", some "new@x.com", some "secret1", []⟩ =
      (⟨500, .text "Server error during buyer registration"⟩, storeEmpty) ∧
    initiateRoute storeEmpty envC
        (requestOf userA "" (some "bbbbbbbbbbbbbbbbbbbbbbbb")
          (some "0x00000000000000000000aa")) =
      (⟨500, .text "Server error initiating chat"⟩, storeEmpty) := by
  decide

/-- C25: at a concrete request, `POST /chat/initiate` by buyer A with the `participantId`
`xyz`, which is no object id, is answered 500, not 400; the same string as the path
parameter of the mark-read route, of the messages route and of the product detail route
is answered 400. -/
theorem initiate_malformed_participant_answers_500 :
    castObjectId "xyz" = none ∧
    initiateRoute storeEmpty envC (requestOf userA "" (some "xyz") none) =
      (⟨500, .text "Server error initiating chat"⟩, storeEmpty) ∧
    (markReadRoute storeChats (requestOf userA "xyz" none none)).1.status = 400 ∧
    (messagesRoute storeChats (requestOf userA "xyz" none none)).1.status = 400 ∧
    getProduct storeProducts "xyz" = ⟨400, .message "Invalid Product ID"⟩ := by
  decide

/-! ## Admin management -/

theorem mem_updateFirst_of_neg {α : Type} (p : α → Bool) (f : α → α) (l : List α) (x : α)
    (hx : x ∈ l) (hp : p x = false) : x ∈ updateFirst p f l := by
  induction l with
  | nil => cases hx
  | cons a as ih =>
    unfold updateFirst
    rcases List.mem_cons.1 hx with rfl | hx'
    · simp [hp]
    · by_cases ha : p a = true
      · rw [if_pos ha]
        exact List.mem_cons_of_mem _ hx'
      · rw [if_neg ha]
        exact List.mem_cons_of_mem _ (ih hx')

theorem mem_updateFirst_of_find? {α : Type} (p : α → Bool) (f : α → α) (l : List α) (a : α)
    (ha : l.find? p = some a) : f a ∈ updateFirst p f l := by
  induction l with
  | nil => cases ha
  | cons b bs ih =>
    unfold updateFirst
    by_cases hb : p b = true
    · rw [List.find?_cons_of_pos _ hb] at ha
      cases ha
      rw [if_pos hb]
      exact List.mem_cons_self _ _
    · rw [List.find?_cons_of_neg _ hb] at ha
      rw [if_neg hb]
      exact List.mem_cons_of_mem _ (ih ha)

theorem mem_eraseP_of_find? {α : Type} (p : α → Bool) (l : List α) (a x : α)
    (ha : l.find? p = some a) (hx : x ∈ l) (hne : x ≠ a) : x ∈ l.eraseP p := by
  induction l with
  | nil => cases hx
  | cons b bs ih =>
    by_cases hb : p b = true
    · rw [List.find?_cons_of_pos _ hb] at ha
      cases ha
      rw [List.eraseP_cons_of_pos hb]
      rcases List.mem_cons.1 hx with h | h
      · exact absurd h hne
      · exact h
    · rw [List.find?_cons_of_neg _ hb] at ha
      rw [List.eraseP_cons_of_neg hb]
      rcases List.mem_cons.1 hx with h | h
      · rw [h]; exact List.mem_cons_self _ _
      · exact List.mem_cons_of_mem _ (ih ha h)

theorem findAdminById_some (σ : Store) (id : String) (a : Admin)
    (h : findAdminById σ id = .ok (some a)) :
    σ.admins.find? (fun x => x._id = a._id) = some a ∧ a ∈ σ.admins := by
  unfold findAdminById at h
  cases hc : castObjectId id with
  | none => rw [hc] at h; cases h
  | some oid =>
    rw [hc] at h
    simp only [Except.ok.injEq] at h
    have hid := List.find?_some h
    simp only [decide_eq_true_eq] at hid
    exact ⟨by rw [hid]; exact h, List.mem_of_find?_eq_some h⟩

theorem authorize_superadmin (req : Request) :
    authorize (.str "superadmin") req = .respond ⟨403, .message msgForbidden⟩ ∨
    ∃ u, req.user = some u ∧ authorize (.str "superadmin") req = .next u := by
  unfold authorize
  cases req.user with
  | none => exact Or.inl rfl
  | some u =>
    by_cases h : u.role = "superadmin"
    · exact Or.inr ⟨u, rfl, by simp [Roles.toArray, h]⟩
    · exact Or.inl (by simp [Roles.toArray, h])

theorem changeRole_keeps_requester (valid : AdminSchema) (σ : Store) (u : User) (id : String)
    (role : Option String) (x : Admin) (hx : x ∈ σ.admins) (hid : x._id = u.id)
    (hrole : x.role = "superadmin") : HasSuperAdmin (changeRole valid σ u id role).2 := by
  have h₀ : HasSuperAdmin σ := ⟨x, hx, hrole⟩
  unfold changeRole
  by_cases hv : changeRoleValidation role = []
  · rw [if_neg (by simp [hv])]
    unfold changeRoleTry
    cases hf : findAdminById σ id with
    | error e => cases e <;> exact h₀
    | ok found =>
      cases found with
      | none => exact h₀
      | some a =>
        dsimp only
        by_cases hself : a._id = u.id ∧ role.getD "" = "admin"
        · rw [if_pos hself]
          exact h₀
        · rw [if_neg hself]
          unfold saveAdminRole
          by_cases hvalid : valid { a with role := role.getD "" } = true
          · rw [if_neg (by simp [hvalid])]
            by_cases ha : a._id = u.id
            · have hsuper : role.getD "" = "superadmin" := by
                have hnot : role.getD "" ≠ "admin" := fun e => hself ⟨ha, e⟩
                unfold changeRoleValidation at hv
                by_cases hr : role.getD "" = "admin" ∨ role.getD "" = "superadmin"
                · rcases hr with hr | hr
                  · exact absurd hr hnot
                  · exact hr
                · rw [if_neg hr] at hv
                  cases hv
              refine ⟨{ a with role := role.getD "" }, ?_, hsuper⟩
              exact mem_updateFirst_of_find? (fun y : Admin => decide (y._id = a._id))
                (fun y => { y with role := role.getD "" }) σ.admins a
                (findAdminById_some σ id a hf).1
            · refine ⟨x, ?_, hrole⟩
              refine mem_updateFirst_of_neg _ _ _ x hx ?_
              simp only [decide_eq_false_iff_not]
              rw [hid]
              exact fun e => ha e.symm
          · rw [if_pos (by simp [hvalid])]
            exact h₀
  · rw [if_pos hv]
    exact h₀

theorem deleteAdmin_keeps_requester (σ : Store) (u : User) (id : String) (x : Admin)
    (hx : x ∈ σ.admins) (hid : x._id = u.id) (hrole : x.role = "superadmin") :
    HasSuperAdmin (deleteAdmin σ u id).2 := by
  have h₀ : HasSuperAdmin σ := ⟨x, hx, hrole⟩
  unfold deleteAdmin deleteAdminTry
  cases hf : findAdminById σ id with
  | error e => cases e <;> exact h₀
  | ok found =>
    cases found with
    | none => exact h₀
    | some a =>
      dsimp only
      by_cases hself : a._id = u.id
      · rw [if_pos hself]
        exact h₀
      · rw [if_neg hself]
        by_cases hlast : a.role = "superadmin" ∧ superAdminsCount σ ≤ 1
        · rw [if_pos hlast]
          exact h₀
        · rw [if_neg hlast]
          refine ⟨x, ?_, hrole⟩
          refine mem_eraseP_of_find? _ σ.admins a x (findAdminById_some σ id a hf).1 hx ?_
          intro e
          exact hself (by rw [← e, hid])

theorem deleteAdmin_keeps_superadmins (σ : Store) (u : User) (id : String)
    (hcount : superAdminsCount σ = 1) (x : Admin) (hx : x ∈ σ.admins)
    (hrole : x.role = "superadmin") : x ∈ (deleteAdmin σ u id).2.admins := by
  unfold deleteAdmin deleteAdminTry
  cases hf : findAdminById σ id with
  | error e => cases e <;> exact hx
  | ok found =>
    cases found with
    | none => exact hx
    | some a =>
      dsimp only
      by_cases hself : a._id = u.id
      · rw [if_pos hself]
        exact hx
      · rw [if_neg hself]
        by_cases hlast : a.role = "superadmin" ∧ superAdminsCount σ ≤ 1
        · rw [if_pos hlast]
          exact hx
        · rw [if_neg hlast]
          refine mem_eraseP_of_find? _ σ.admins a x (findAdminById_some σ id a hf).1 hx ?_
          intro e
          exact hlast ⟨by rw [← e]; exact hrole, by omega⟩

theorem self_management_refused (valid : AdminSchema) (σ : Store) (u : User) (id : String)
    (a : Admin) (hf : findAdminById σ id = .ok (some a)) (hself : a._id = u.id) :
    deleteAdmin σ u id = (⟨400, .message msgNoSelfDeletion⟩, σ) ∧
    changeRole valid σ u id (some "admin") = (⟨400, .message msgNoSelfDemotion⟩, σ) := by
  constructor
  · simp [deleteAdmin, deleteAdminTry, hf, hself, adminManagementCatch]
  · simp [changeRole, changeRoleValidation, changeRoleTry, hf, hself, adminManagementCatch]

/-- C29.  For a requester attached by `protect` whose id is that of a stored admin of
rank superadmin, the collection holds a superadmin after any change-role or delete
request of admin management.  A requester whose id is that of the admin the path names
gets neither the deletion nor the demotion to `admin`: the store is unchanged and the
answer is not 200.  When the collection counts one superadmin, `DELETE` removes no
superadmin, whatever the request. -/
theorem last_superadmin_survives (valid : AdminSchema) (σ : Store) (req : Request) :
    (∀ u, req.user = some u →
      (∃ x ∈ σ.admins, x._id = u.id ∧ x.role = "superadmin") →
      ∀ r, HasSuperAdmin (adminStep valid σ req r).2) ∧
    (∀ u, req.user = some u → ∀ id a, findAdminById σ id = .ok (some a) → a._id = u.id →
      (deleteAdminRoute σ req id).2 = σ ∧ (deleteAdminRoute σ req id).1.status ≠ 200 ∧
      (changeRoleRoute valid σ req id (some "admin")).2 = σ ∧
      (changeRoleRoute valid σ req id (some "admin")).1.status ≠ 200) ∧
    (superAdminsCount σ = 1 → ∀ id, ∀ x ∈ σ.admins, x.role = "superadmin" →
      x ∈ (deleteAdminRoute σ req id).2.admins) := by
  refine ⟨?_, ?_, ?_⟩
  · rintro u hu ⟨x, hx, hid, hrole⟩ r
    have h₀ : HasSuperAdmin σ := ⟨x, hx, hrole⟩
    rcases authorize_superadmin req with ha | ⟨u', hu', ha⟩
    · cases r <;> simp only [adminStep, changeRoleRoute, deleteAdminRoute, ha] <;> exact h₀
    · have hu'' : u' = u := by
        rw [hu] at hu'
        exact (Option.some.inj hu').symm
      subst hu''
      cases r with
      | changeRole id role =>
        simp only [adminStep, changeRoleRoute, ha]
        exact changeRole_keeps_requester valid σ u' id role x hx hid hrole
      | delete id =>
        simp only [adminStep, deleteAdminRoute, ha]
        exact deleteAdmin_keeps_requester σ u' id x hx hid hrole
  · intro u hu id a hf hself
    rcases authorize_superadmin req with ha | ⟨u', hu', ha⟩
    · simp only [changeRoleRoute, deleteAdminRoute, ha]
      exact ⟨trivial, by decide, trivial, by decide⟩
    · have hu'' : u' = u := by
        rw [hu] at hu'
        exact (Option.some.inj hu').symm
      subst hu''
      obtain ⟨h₁, h₂⟩ := self_management_refused valid σ u' id a hf hself
      simp only [changeRoleRoute, deleteAdminRoute, ha, h₁, h₂]
      exact ⟨trivial, by decide, trivial, by decide⟩
  · intro hcount id x hx hrole
    rcases authorize_superadmin req with ha | ⟨u', _, ha⟩
    · simp only [deleteAdminRoute, ha]
      exact hx
    · simp only [deleteAdminRoute, ha]
      exact deleteAdmin_keeps_superadmins σ u' id hcount x hx hrole

/-- The superadmin of the examples demotes nobody to the point of leaving no superadmin:
after deleting the other admin, and after being asked to delete or demote themselves,
the collection holds a superadmin. -/
theorem last_superadmin_survives_witness :
    HasSuperAdmin (adminStep (fun _ => true) storeAdmins (requestOf userSuper "" none none)
      (.delete "ffffffffffffffffffffffff")).2 ∧
    (deleteAdminRoute storeAdmins (requestOf userSuper "" none none)
      "efefefefefefefefefefefef").2 = storeAdmins ∧
    adminRoot ∈ (deleteAdminRoute storeAdmins (requestOf userAdmin "" none none)
      "efefefefefefefefefefefef").2.admins := by
  have h := last_superadmin_survives (fun _ => true) storeAdmins
    (requestOf userSuper "" none none)
  have h' := last_superadmin_survives (fun _ => true) storeAdmins
    (requestOf userAdmin "" none none)
  exact ⟨h.1 userSuper rfl ⟨adminRoot, by decide, rfl, rfl⟩ _,
    (h.2.1 userSuper rfl "efefefefefefefefefefefef" adminRoot rfl rfl).1,
    h'.2.2 (by decide) "efefefefefefefefefefefef" adminRoot (by decide) rfl⟩

/-! ## The recommendation proxy -/

theorem relayRecommendation_spec (coerce : Json → Except Unit Bool) (r : Json)
    (hw : WellTyped r) :
    match firstPart r with
    | some part => relayRecommendation coerce r = .ok ⟨200, .recommendation (partText part)⟩
    | none =>
      relayRecommendation coerce r = .ok ⟨500, .message msgNoRecommendation⟩ ∨
      relayRecommendation coerce r = .error () := by
  obtain ⟨hw₁, hw₂, hw₃, hw₄⟩ := hw
  cases r with
  | obj fields =>
    cases hc : fields.lookup "candidates" with
    | none =>
      simp [firstPart, relayRecommendation, hasExpectedContent, Json.field, Field.key, hc,
        Json.nonEmpty, Json.truthy]
    | some c =>
      cases c with
      | obj f => exact absurd (by simp [candidatesOf, hc]) (hw₁ f)
      | arr items =>
        cases items with
        | nil =>
          simp [firstPart, relayRecommendation, hasExpectedContent, Json.field, Field.key, hc,
            Json.nonEmpty, Json.truthy, Json.lengthOf, Json.greaterThanZero]
        | cons c0 rest =>
          have hlen : (0 : ℚ) < (rest.length : ℚ) + 1 := by positivity
          cases c0 with
          | obj cf =>
            cases hcontent : cf.lookup "content" with
            | none =>
              simp [firstPart, relayRecommendation, hasExpectedContent, Json.field, Field.key,
                hc, hcontent, Json.nonEmpty, Json.truthy, Json.lengthOf, Json.greaterThanZero,
                Json.first, hlen]
            | some content =>
              cases content with
              | obj pf =>
                cases hparts : pf.lookup "parts" with
                | none =>
                  simp [firstPart, relayRecommendation, hasExpectedContent, Json.field,
                    Field.key, hc, hcontent, hparts, Json.nonEmpty, Json.truthy, Json.lengthOf,
                    Json.greaterThanZero, Json.first, hlen]
                | some parts =>
                  have hp : partsOf (.obj fields) = some parts := by
                    simp [partsOf, candidatesOf, hc, hcontent, hparts]
                  cases parts with
                  | obj f => exact absurd hp (hw₂ f)
                  | str s => exact absurd hp (hw₃ s)
                  | arr ps =>
                    cases ps with
                    | nil =>
                      simp [firstPart, relayRecommendation, hasExpectedContent, Json.field,
                        Field.key, hc, hcontent, hparts, Json.nonEmpty, Json.truthy,
                        Json.lengthOf, Json.greaterThanZero, Json.first, hlen]
                    | cons p0 prest =>
                      have hlen' : (0 : ℚ) < (prest.length : ℚ) + 1 := by positivity
                      cases p0 with
                      | null => exact absurd hp (hw₄ prest)
                      | _ =>
                        simp [firstPart, relayRecommendation, hasExpectedContent,
                          recommendationText, Json.field, Field.key, hc, hcontent, hparts,
                          Json.nonEmpty, Json.truthy, Json.lengthOf, Json.greaterThanZero,
                          Json.first, hlen, hlen', partText]
                  | _ =>
                    simp [firstPart, relayRecommendation, hasExpectedContent, Json.field,
                      Field.key, hc, hcontent, hparts, Json.nonEmpty, Json.truthy,
                      Json.lengthOf, Json.greaterThanZero, Json.first, hlen]
              | _ =>
                simp [firstPart, relayRecommendation, hasExpectedContent, Json.field, Field.key,
                  hc, hcontent, Json.nonEmpty, Json.truthy, Json.lengthOf,
                  Json.greaterThanZero, Json.first, hlen]
          | _ =>
            simp [firstPart, relayRecommendation, hasExpectedContent, Json.field, Field.key, hc,
              Json.nonEmpty, Json.truthy, Json.lengthOf, Json.greaterThanZero, Json.first, hlen]
      | str s =>
        cases hd : s.data.head? <;> by_cases hs : s = "" <;>
          by_cases hl : 0 < utf16Length s <;>
          simp [firstPart, relayRecommendation, hasExpectedContent, Json.field, Field.key, hc,
            Json.nonEmpty, Json.truthy, Json.lengthOf, Json.greaterThanZero, Json.first, hd, hs,
            hl]
      | _ =>
        simp [firstPart, relayRecommendation, hasExpectedContent, Json.field, Field.key, hc,
          Json.nonEmpty, Json.truthy, Json.lengthOf, Json.greaterThanZero, Json.first]
  | _ =>
    simp [firstPart, relayRecommendation, hasExpectedContent, Json.field, Field.key,
      Json.nonEmpty, Json.truthy]

/-- C23 (amended).  For a request of a buyer: without a non-empty `productName` the answer
is 400 and nothing is posted upstream; with one, the answer is 503 and nothing is posted
while the outbound client is not loaded, and otherwise, for every upstream result `r`
whose `candidates` is not an object and whose first candidate's `content.parts` is
neither an object nor a string nor a list that starts with `null`, the answer is 200 with
`recommendation` the `text` of the first part of the first candidate when `r` has a
non-empty list `candidates` whose first element has a `content` with a non-empty list
`parts`, and an upstream-error 500 when it has not; one prompt is posted in both
cases. -/
theorem recommendation_outcome (coerce : Json → Except Unit Bool)
    (fetch : Option (String → Upstream)) (formattedDate : String) (req : Request) (u : User)
    (productName : Option String) (hu : req.user = some u) (hrole : u.role = "buyer") :
    (notEmpty productName = false →
      recommendProductRoute coerce fetch formattedDate req productName =
        (⟨400, .validation "Validation errors" ["Product name is required"]⟩, [])) ∧
    (notEmpty productName = true →
      (fetch = none →
        recommendProductRoute coerce fetch formattedDate req productName =
          (⟨503, .message msgServiceUnavailable⟩, [])) ∧
      (∀ post r, fetch = some post →
        post (recommendationPrompt (productName.getD "") formattedDate) = .result r →
        WellTyped r →
        (∀ part, firstPart r = some part →
          recommendProductRoute coerce fetch formattedDate req productName =
            (⟨200, .recommendation (partText part)⟩,
              [recommendationPrompt (productName.getD "") formattedDate])) ∧
        (firstPart r = none →
          ((recommendProductRoute coerce fetch formattedDate req productName).1 =
              ⟨500, .message msgNoRecommendation⟩ ∨
            (recommendProductRoute coerce fetch formattedDate req productName).1 =
              ⟨500, .message msgUpstreamFailed⟩) ∧
          (recommendProductRoute coerce fetch formattedDate req productName).2 =
            [recommendationPrompt (productName.getD "") formattedDate]))) := by
  have ha : authorize (.arr ["buyer"]) req = .next u := by
    unfold authorize
    rw [hu]
    simp [Roles.toArray, hrole]
  refine ⟨?_, ?_⟩
  · intro hn
    simp [recommendProductRoute, ha, recommendProduct, hn]
  · intro hn
    refine ⟨?_, ?_⟩
    · intro hf
      simp [recommendProductRoute, ha, recommendProduct, hn, hf]
    · intro post r hf hpost hw
      have hspec := relayRecommendation_spec coerce r hw
      refine ⟨?_, ?_⟩
      · intro part hpart
        rw [hpart] at hspec
        simp [recommendProductRoute, ha, recommendProduct, hn, hf, hpost, hspec]
      · intro hnone
        rw [hnone] at hspec
        rcases hspec with h | h <;>
          simp [recommendProductRoute, ha, recommendProduct, hn, hf, hpost, h]

/-- Buyer A asks about a lamp, and the upstream result has one candidate with one part
of text `Buy now`: the answer is 200 with that text. -/
theorem recommendation_outcome_witness :
    recommendProductRoute coerceNaN
        (fetchAnswering (resultWith (.arr [.obj [("text", .str "Buy now")]]))) "2025-01-01"
        (requestOf userA "" none none) (some "lamp") =
      (⟨200, .recommendation (some (.str "Buy now"))⟩,
        [recommendationPrompt "lamp" "2025-01-01"]) := by
  have h := recommendation_outcome coerceNaN
    (fetchAnswering (resultWith (.arr [.obj [("text", .str "Buy now")]]))) "2025-01-01"
    (requestOf userA "" none none) userA (some "lamp") rfl rfl
  exact ((h.2 (by decide)).2 _ (resultWith (.arr [.obj [("text", .str "Buy now")]])) rfl rfl
    (by
      refine ⟨?_, ?_, ?_, ?_⟩ <;> intro x hx <;>
        simp [candidatesOf, partsOf, resultWith, List.lookup] at hx)).1
    (.obj [("text", .str "Buy now")]) (by simp [firstPart, resultWith, List.lookup])

/-- C23 (as stated) fails in both directions on results that are JSON but not of the
expected typing.  With `parts` the list `[null]` the result has a non-empty list of
parts and the answer is 500: reading `text` of `null` throws into the `catch`.  With
`parts` the string `Buy now` the result has no list of parts and the answer is 200,
without a `recommendation`: a string has a positive `length` and a first element.  An
object with the properties `length` and `0` in the place of `parts`, or of
`candidates`, is no list either and is answered 200. -/
theorem recommendation_on_untyped_parts :
    firstPart (resultWith (.arr [.null])) = some .null ∧
    (recommendProductRoute coerceNaN (fetchAnswering (resultWith (.arr [.null])))
        "2025-01-01" (requestOf userA "" none none) (some "lamp")).1 =
      ⟨500, .message msgUpstreamFailed⟩ ∧
    firstPart (resultWith (.str "Buy now")) = none ∧
    (recommendProductRoute coerceNaN (fetchAnswering (resultWith (.str "Buy now")))
        "2025-01-01" (requestOf userA "" none none) (some "lamp")).1 =
      ⟨200, .recommendation none⟩ ∧
    firstPart (resultWith (.obj [("length", .num 1), ("0", .obj [("text", .str "Buy now")])])) =
      none ∧
    (recommendProductRoute coerceNaN
        (fetchAnswering
          (resultWith (.obj [("length", .num 1), ("0", .obj [("text", .str "Buy now")])])))
        "2025-01-01" (requestOf userA "" none none) (some "lamp")).1 =
      ⟨200, .recommendation (some (.str "Buy now"))⟩ ∧
    firstPart (.obj [("candidates", .obj [("length", .num 1),
      ("0", .obj [("content", .obj [("parts", .arr [.obj [("text", .str "Buy now")]])])])])]) =
      none ∧
    (recommendProductRoute coerceNaN
        (fetchAnswering (.obj [("candidates", .obj [("length", .num 1),
          ("0", .obj [("content",
            .obj [("parts", .arr [.obj [("text", .str "Buy now")]])])])])]))
        "2025-01-01" (requestOf userA "" none none) (some "lamp")).1 =
      ⟨200, .recommendation (some (.str "Buy now"))⟩ := by
  decide

/-! ## The buyer dashboard -/

/-- C26: on a connected socket, `loadMessages("A")` followed by an `initiateChat` that is
answered with the chat id `B` leaves the client subscribed to the two rooms `A` and `B`,
no `leaveChat` emitted; so does `loadMessages("A")`, `loadMessages(null)`,
`loadMessages("B")`.  The switch `loadMessages("A")`, `loadMessages("B")` emits the
`leaveChat` of `A` before the `joinChat` of `B` and ends in the one room `B`. -/
theorem client_subscribed_to_two_rooms :
    runClient (some true) [.loadMessages (some "A"), .initiateChat (some "B")] =
      { activeChatId := some "A", joined := ["A", "B"],
        emitted := [.joinChat "A", .joinChat "B"] } ∧
    runClient (some true)
        [.loadMessages (some "A"), .loadMessages none, .loadMessages (some "B")] =
      { activeChatId := some "B", joined := ["A", "B"],
        emitted := [.joinChat "A", .joinChat "B"] } ∧
    runClient (some true) [.loadMessages (some "A"), .loadMessages (some "B")] =
      { activeChatId := some "B", joined := ["B"],
        emitted := [.joinChat "A", .leaveChat "A", .joinChat "B"] } := by
  decide

/-- C30: with two lamps in the cart and address fields that pass the checks, the click on
`placeOrderBtn` saves an order with no items and leaves the cart in storage: the order's
items are read from the key `cartItems`, which nothing writes, and that key is the one
removed, while the cart is stored under `quickpickCart`; the page load that follows
reads the two lamps back. -/
theorem order_placed_without_the_cart :
    dashboardTwoLamps.cart = [⟨"121212121212121212121212", "Lamp", 30, 2⟩] ∧
    dashboardTwoLamps.storage.quickpickCart = some dashboardTwoLamps.cart ∧
    checkoutAlert formFilled = none ∧
    (placeOrder "1/1/2025, 10:00:00 AM" formFilled dashboardTwoLamps).storage.orders =
      some [{ items := [], fullname := "Ann Lee", mobile := "9876543210",
              address := "4 Park Rd", pincode := "560001", paymentMethod := some "cod",
              date := "1/1/2025, 10:00:00 AM" }] ∧
    (placeOrder "1/1/2025, 10:00:00 AM" formFilled dashboardTwoLamps).storage.quickpickCart =
      some [⟨"121212121212121212121212", "Lamp", 30, 2⟩] ∧
    (loadCartFromStorage
      (placeOrder "1/1/2025, 10:00:00 AM" formFilled dashboardTwoLamps)).cart =
      [⟨"121212121212121212121212", "Lamp", 30, 2⟩] := by
  decide

/-! ## The shape of error answers -/

theorem errorShape_message (status : Nat) (m : String) : errorShape ⟨status, .message m⟩ = true := by
  simp [errorShape]

theorem errorShape_validation (status : Nat) (m : String) (l : List String) :
    errorShape ⟨status, .validation m l⟩ = true := by
  simp [errorShape]

theorem errorShape_text (t : String) : errorShape ⟨500, .text t⟩ = true := by
  simp [errorShape]

theorem errorShape_protect (verify : String → JwtResult) (req : Request) (r : Response)
    (h : protect verify req = .respond r) : errorShape r = true := by
  unfold protect at h
  split at h
  · cases h; rfl
  · split at h
    · split at h
      · cases h
      · cases h; rfl
      · cases h; rfl
    · cases h; rfl

theorem errorShape_authorize (roles : Roles) (req : Request) (r : Response)
    (h : authorize roles req = .respond r) : errorShape r = true := by
  unfold authorize at h
  split at h
  · cases h; rfl
  · split at h
    · cases h; rfl
    · cases h

theorem errorShape_guarded (verify : String → JwtResult) (roles : Roles) (req : Request)
    (handler : User → Response) (h : ∀ u, errorShape (handler u) = true) :
    errorShape (guarded verify roles req handler) = true := by
  unfold guarded
  cases hp : protect verify req with
  | respond r => exact errorShape_protect verify req r hp
  | next req' =>
    dsimp only
    cases ha : authorize roles req' with
    | respond r => exact errorShape_authorize roles req' r ha
    | next u => exact h u

theorem registerTry_shape (lib : Lib) (σ : Store) (env : AccountEnv) (b : RegisterBody) (out : Response × Store)
    (h : registerTry lib σ env b = .ok out) : errorShape out.1 = true := by
  unfold registerTry at h
  dsimp only at h
  repeat' split at h
  all_goals cases h <;> rfl

theorem errorShape_register (lib : Lib) (σ : Store) (env : AccountEnv) (b : RegisterBody) :
    errorShape (register lib σ env b).1 = true := by
  unfold register
  split_ifs
  · rfl
  · cases h : registerTry lib σ env b with
    | ok out => exact registerTry_shape lib σ env b out h
    | error e => rfl

theorem sellerRegisterTry_shape (lib : Lib) (σ : Store) (env : AccountEnv) (b : SellerRegisterBody) (out : Response × Store)
    (h : sellerRegisterTry lib σ env b = .ok out) : errorShape out.1 = true := by
  unfold sellerRegisterTry at h
  dsimp only at h
  repeat' split at h
  all_goals cases h <;> rfl

theorem errorShape_sellerRegister (lib : Lib) (σ : Store) (env : AccountEnv)
    (b : SellerRegisterBody) : errorShape (sellerRegister lib σ env b).1 = true := by
  unfold sellerRegister
  split_ifs
  · rfl
  · cases h : sellerRegisterTry lib σ env b with
    | ok out => exact sellerRegisterTry_shape lib σ env b out h
    | error e => cases e <;> rfl

theorem errorShape_login (lib : Lib) (σ : Store) (b : LoginBody) :
    errorShape (login lib σ b) = true := by
  unfold login loginAs
  repeat' split
  all_goals rfl

theorem adminRegisterTry_shape (valid : AdminSchema) (lib : Lib) (σ : Store) (env : AccountEnv) (b : RegisterBody) (out : Response × Store)
    (h : adminRegisterTry valid lib σ env b = .ok out) : errorShape out.1 = true := by
  unfold adminRegisterTry at h
  repeat' split at h
  all_goals cases h <;> rfl

theorem errorShape_adminRegister (valid : AdminSchema) (lib : Lib) (σ : Store)
    (env : AccountEnv) (b : RegisterBody) :
    errorShape (adminRegister valid lib σ env b).1 = true := by
  unfold adminRegister
  split_ifs
  · rfl
  · cases h : adminRegisterTry valid lib σ env b with
    | ok out => exact adminRegisterTry_shape valid lib σ env b out h
    | error e => rfl

theorem createAdminTry_shape (valid : AdminSchema) (lib : Lib) (σ : Store) (env : AccountEnv) (b : RegisterBody) (role : Option String) (out : Response × Store)
    (h : createAdminTry valid lib σ env b role = .ok out) : errorShape out.1 = true := by
  unfold createAdminTry at h
  dsimp only at h
  repeat' split at h
  all_goals cases h <;> rfl

theorem errorShape_createAdmin (valid : AdminSchema) (lib : Lib) (σ : Store)
    (env : AccountEnv) (b : RegisterBody) (role : Option String) :
    errorShape (createAdmin valid lib σ env b role).1 = true := by
  unfold createAdmin
  split_ifs
  · rfl
  · cases h : createAdminTry valid lib σ env b role with
    | ok out => exact createAdminTry_shape valid lib σ env b role out h
    | error e => rfl

theorem approveSellerTry_shape (σ : Store) (id : String) (out : Response × Store)
    (h : approveSellerTry σ id = .ok out) : errorShape out.1 = true := by
  unfold approveSellerTry at h
  repeat' split at h
  all_goals cases h <;> rfl

theorem rejectSellerTry_shape (σ : Store) (id : String) (out : Response × Store)
    (h : rejectSellerTry σ id = .ok out) : errorShape out.1 = true := by
  unfold rejectSellerTry at h
  repeat' split at h
  all_goals cases h <;> rfl

theorem errorShape_approveSeller (σ : Store) (id : String) :
    errorShape (approveSeller σ id).1 = true := by
  unfold approveSeller sellerApprovalCatch
  cases h : approveSellerTry σ id with
  | ok out => exact approveSellerTry_shape σ id out h
  | error e => cases e <;> rfl

theorem errorShape_rejectSeller (σ : Store) (id : String) :
    errorShape (rejectSeller σ id).1 = true := by
  unfold rejectSeller sellerApprovalCatch
  cases h : rejectSellerTry σ id with
  | ok out => exact rejectSellerTry_shape σ id out h
  | error e => cases e <;> rfl

theorem deleteUserTry_shape (σ : Store) (id : String) (out : Response × Store)
    (h : deleteUserTry σ id = .ok out) : errorShape out.1 = true := by
  unfold deleteUserTry at h
  repeat' split at h
  all_goals cases h <;> rfl

theorem errorShape_deleteUser (σ : Store) (id : String) :
    errorShape (deleteUser σ id).1 = true := by
  unfold deleteUser
  cases h : deleteUserTry σ id with
  | ok out => exact deleteUserTry_shape σ id out h
  | error e => cases e <;> rfl

theorem changeRoleTry_shape (valid : AdminSchema) (σ : Store) (u : User) (id : String) (role : String) (out : Response × Store)
    (h : changeRoleTry valid σ u id role = .ok out) : errorShape out.1 = true := by
  unfold changeRoleTry at h
  repeat' split at h
  all_goals cases h <;> rfl

theorem errorShape_changeRole (valid : AdminSchema) (σ : Store) (u : User) (id : String)
    (role : Option String) : errorShape (changeRole valid σ u id role).1 = true := by
  unfold changeRole adminManagementCatch
  split_ifs
  · rfl
  · cases h : changeRoleTry valid σ u id (role.getD "") with
    | ok out => exact changeRoleTry_shape valid σ u id _ out h
    | error e => cases e <;> rfl

theorem deleteAdminTry_shape (σ : Store) (u : User) (id : String) (out : Response × Store)
    (h : deleteAdminTry σ u id = .ok out) : errorShape out.1 = true := by
  unfold deleteAdminTry at h
  repeat' split at h
  all_goals cases h <;> rfl

theorem errorShape_deleteAdmin (σ : Store) (u : User) (id : String) :
    errorShape (deleteAdmin σ u id).1 = true := by
  unfold deleteAdmin adminManagementCatch
  cases h : deleteAdminTry σ u id with
  | ok out => exact deleteAdminTry_shape σ u id out h
  | error e => cases e <;> rfl

theorem createProductTry_shape (σ : Store) (env : Env) (u : User) (b : ProductBody) (out : Response × Store)
    (h : createProductTry σ env u b = .ok out) : errorShape out.1 = true := by
  unfold createProductTry at h
  repeat' split at h
  all_goals cases h <;> rfl

theorem errorShape_createProduct (σ : Store) (env : Env) (u : User) (b : ProductBody) :
    errorShape (createProduct σ env u b).1 = true := by
  unfold createProduct
  split_ifs
  · rfl
  · cases h : createProductTry σ env u b with
    | ok out => exact createProductTry_shape σ env u b out h
    | error e => rfl

theorem errorShape_getProduct (σ : Store) (id : String) :
    errorShape (getProduct σ id) = true := by
  unfold getProduct getProductTry
  cases findProductById σ id with
  | error e => cases e <;> rfl
  | ok found => cases found <;> rfl

theorem errorShape_listSellerProducts (σ : Store) (u : User) (sellerId : String) :
    errorShape (listSellerProducts σ u sellerId) = true := by
  unfold listSellerProducts
  repeat' split
  all_goals rfl

theorem updateProductTry_shape (σ : Store) (now : Int) (u : User) (id : String) (b : ProductPatch) (out : Response × Store)
    (h : updateProductTry σ now u id b = .ok out) : errorShape out.1 = true := by
  unfold updateProductTry at h
  dsimp only at h
  repeat' split at h
  all_goals cases h <;> rfl

theorem errorShape_updateProduct (σ : Store) (now : Int) (u : User) (id : String)
    (b : ProductPatch) : errorShape (updateProduct σ now u id b).1 = true := by
  unfold updateProduct
  split_ifs
  · rfl
  · cases h : updateProductTry σ now u id b with
    | ok out => exact updateProductTry_shape σ now u id b out h
    | error e =>
      cases e with
      | store e => cases e <;> rfl
      | reference n => rfl

theorem deleteProductTry_shape (σ : Store) (u : User) (id : String) (out : Response × Store)
    (h : deleteProductTry σ u id = .ok out) : errorShape out.1 = true := by
  unfold deleteProductTry at h
  repeat' split at h
  all_goals cases h <;> rfl

theorem errorShape_deleteProduct (σ : Store) (u : User) (id : String) :
    errorShape (deleteProduct σ u id).1 = true := by
  unfold deleteProduct
  cases h : deleteProductTry σ u id with
  | ok out => exact deleteProductTry_shape σ u id out h
  | error e => cases e <;> rfl

theorem initiateTry_shape (σ : Store) (env : Env) (buyerId sellerId : String) (productId : Option String) (out : Response × Store)
    (h : initiateTry σ env buyerId sellerId productId = .ok out) : errorShape out.1 = true := by
  unfold initiateTry at h
  repeat' split at h
  all_goals cases h <;> rfl

theorem errorShape_initiateCatch (σ : Store) (x : Except StoreError (Response × Store))
    (hx : ∀ out, x = .ok out → errorShape out.1 = true) :
    errorShape (initiateCatch σ x).1 = true := by
  unfold initiateCatch
  cases x with
  | ok out => exact hx out rfl
  | error e => cases e <;> rfl

theorem errorShape_initiate (σ : Store) (env : Env) (u : User) (req : Request) :
    errorShape (initiate σ env u req).1 = true := by
  unfold initiate
  split_ifs
  · rfl
  · cases req.participantId with
    | some x => exact errorShape_initiateCatch σ _ (initiateTry_shape σ env _ _ _)
    | none =>
      refine errorShape_initiateCatch σ _ ?_
      intro out h
      unfold initiateTryAbsent at h
      split at h <;> cases h
      rfl
  · cases req.participantId with
    | some x => exact errorShape_initiateCatch σ _ (initiateTry_shape σ env _ _ _)
    | none =>
      refine errorShape_initiateCatch σ _ ?_
      intro out h
      unfold initiateTryAbsent at h
      split at h <;> cases h
      rfl
  · rfl

theorem errorShape_list (σ : Store) (u : User) : errorShape (list σ u) = true := by
  unfold list
  repeat' split
  all_goals rfl

theorem messagesTry_shape (σ : Store) (u : User) (chatId : String) (r : Response)
    (h : messagesTry σ u chatId = .ok r) : errorShape r = true := by
  unfold messagesTry at h
  repeat' split at h
  all_goals cases h <;> rfl

theorem errorShape_messages (σ : Store) (u : User) (req : Request) :
    errorShape (messages σ u req) = true := by
  unfold messages
  cases h : messagesTry σ u req.chatId with
  | ok r => exact messagesTry_shape σ u req.chatId r h
  | error e => cases e <;> rfl

theorem markReadTry_shape (σ : Store) (u : User) (chatId : String)
    (out : Response × Store) (h : markReadTry σ u chatId = .ok out) :
    errorShape out.1 = true := by
  unfold markReadTry at h
  repeat' split at h
  all_goals cases h <;> rfl

theorem errorShape_markRead (σ : Store) (u : User) (req : Request) :
    errorShape (markRead σ u req).1 = true := by
  unfold markRead
  cases h : markReadTry σ u req.chatId with
  | ok out => exact markReadTry_shape σ u req.chatId out h
  | error e => cases e <;> rfl

theorem errorShape_recommendProduct (coerce : Json → Except Unit Bool)
    (fetch : Option (String → Upstream)) (formattedDate : String)
    (productName : Option String) :
    errorShape (recommendProduct coerce fetch formattedDate productName).1 = true := by
  unfold recommendProduct
  by_cases hn : notEmpty productName = true
  · rw [if_neg (by simp [hn])]
    cases fetch with
    | none => rfl
    | some post =>
      dsimp only
      cases post (recommendationPrompt (productName.getD "") formattedDate) with
      | failed => rfl
      | result r =>
        dsimp only
        unfold relayRecommendation
        cases hasExpectedContent coerce r with
        | error e => rfl
        | ok b =>
          cases b with
          | false => rfl
          | true =>
            dsimp only
            cases recommendationText r <;> rfl
  · rw [if_pos hn]
    rfl

/-- C24 (amended).  Every answer of the auth middleware and of every route of the auth,
admin, product, chat and recommendation routers that has a status of 400 or above is a
JSON object with a `message`, or else has status 500 and the plain text of the `catch`
block as its body. -/
theorem error_answers_carry_message_or_text (d : Deps) (σ : Store) (call : ApiRequest) :
    errorShape (respond d σ call) = true := by
  cases call with
  | register b => exact errorShape_register _ _ _ _
  | sellerRegister b => exact errorShape_sellerRegister _ _ _ _
  | login b => exact errorShape_login _ _ _
  | adminRegister b => exact errorShape_adminRegister _ _ _ _ _
  | pendingSellers req => exact errorShape_guarded _ _ _ _ (fun _ => rfl)
  | approveSeller req id => exact errorShape_guarded _ _ _ _ (fun _ => errorShape_approveSeller _ _)
  | rejectSeller req id => exact errorShape_guarded _ _ _ _ (fun _ => errorShape_rejectSeller _ _)
  | customers req => exact errorShape_guarded _ _ _ _ (fun _ => rfl)
  | deleteUser req id => exact errorShape_guarded _ _ _ _ (fun _ => errorShape_deleteUser _ _)
  | sellers req => exact errorShape_guarded _ _ _ _ (fun _ => rfl)
  | totalCount req => exact errorShape_guarded _ _ _ _ (fun _ => rfl)
  | createAdmin req b role =>
    exact errorShape_guarded _ _ _ _ (fun _ => errorShape_createAdmin _ _ _ _ _ _)
  | allAdmins req => exact errorShape_guarded _ _ _ _ (fun _ => rfl)
  | changeRole req id role =>
    exact errorShape_guarded _ _ _ _ (fun _ => errorShape_changeRole _ _ _ _ _)
  | deleteAdmin req id => exact errorShape_guarded _ _ _ _ (fun _ => errorShape_deleteAdmin _ _ _)
  | createProduct req b =>
    exact errorShape_guarded _ _ _ _ (fun _ => errorShape_createProduct _ _ _ _)
  | products => rfl
  | productDetail id => exact errorShape_getProduct _ _
  | sellerProducts req sellerId =>
    exact errorShape_guarded _ _ _ _ (fun _ => errorShape_listSellerProducts _ _ _)
  | updateProduct req id b =>
    exact errorShape_guarded _ _ _ _ (fun _ => errorShape_updateProduct _ _ _ _ _)
  | deleteProduct req id =>
    exact errorShape_guarded _ _ _ _ (fun _ => errorShape_deleteProduct _ _ _)
  | initiate req => exact errorShape_guarded _ _ _ _ (fun _ => errorShape_initiate _ _ _ _)
  | chatList req => exact errorShape_guarded _ _ _ _ (fun _ => errorShape_list _ _)
  | messages req => exact errorShape_guarded _ _ _ _ (fun _ => errorShape_messages _ _ _)
  | markRead req => exact errorShape_guarded _ _ _ _ (fun _ => errorShape_markRead _ _ _)
  | recommend req productName =>
    exact errorShape_guarded _ _ _ _ (fun _ => errorShape_recommendProduct _ _ _ _)

/-! ## The validators on the text of a value and on the whole request -/

/-- The number validators read the text of a value: `isInt` accepts leading zeroes and
rejects the exponent form that a number from `1e21` on is printed in, a fraction and a
negative number; `isFloat` accepts a fraction and an exponent and rejects a lone dot,
an exponent without digits before it, and a negative number. -/
theorem number_validators_read_the_text :
    isInt "5" = true ∧ isInt "007" = true ∧ isInt "1e+21" = false ∧ isInt "5.0" = false ∧
    isInt "-1" = false ∧ isInt "" = false ∧
    isFloat "29.5" = true ∧ isFloat "1e+21" = true ∧ isFloat ".5" = true ∧
    isFloat "." = false ∧ isFloat "e5" = false ∧ isFloat "-0.5" = false ∧
    isFloat "" = false := by
  decide

/-- The conversion of a string to a number rounds to the nearest double, ties to even:
`0.1` is not a double, and neither is `2 ^ 53 + 1`. -/
theorem toNumber_rounds_to_double :
    toNumber "0.1" = .finite (mkRat 3602879701896397 36028797018963968) ∧
    toNumber "9007199254740993" = .finite 9007199254740992 ∧
    toNumber "9007199254740995" = .finite 9007199254740996 ∧
    toNumber " 12.50 " = .finite (mkRat 25 2) ∧ toNumber "0x1F" = .finite 31 ∧
    toNumber "" = .finite 0 ∧ toNumber "12px" = .nan ∧ parseFloat "12px" = .finite 12 := by
  decide

/-- The approved seller's creation of a lamp whose `stock` is the number `1e21`, which
the validator reads as the text `1e+21`, is answered 400; so is the creation with a
valid body sent to `/products?stock=-1`. -/
theorem create_product_validates_text_and_query :
    createProductRoute storeProducts productEnv (requestOf userPending "" none none)
        { lampBody with stock := some "1e+21" } =
      (⟨400, .validation "Validation errors"
        ["Stock quantity is required and must be a non-negative integer"]⟩, storeProducts) ∧
    createProductRoute storeProducts productEnv (requestOf userPending "" none none)
        { lampBody with elsewhere := [("stock", "-1")] } =
      (⟨400, .validation "Validation errors"
        ["Stock quantity is required and must be a non-negative integer"]⟩, storeProducts) := by
  decide

/-- An initiate whose body carries `productId: null` is answered 400: `optional()`
skips a field that is `undefined`, not one that is `null`. -/
theorem initiate_null_product_answers_400 :
    initiateRoute storeChats envC
        (requestOf userA "" (some "bbbbbbbbbbbbbbbbbbbbbbbb") (some "")) =
      (⟨400, .validation "Validation errors" ["Product ID is optional"]⟩, storeChats) := by
  decide

/-- A login with the admin's email and password in the body, sent to
`/login?email=junk`, is answered 400 by the validators. -/
theorem login_validates_query :
    login sampleLib storeWithAdmin ⟨some "root@x.com", some "rootpw1", [("email", "junk")]⟩ =
      ⟨400, .validation "Validation errors" ["Please include a valid email"]⟩ := by
  decide

end QuickPick
